import Mathlib

/-!
# orbit_test: a shallow embedding of `src/js/game.js`

JavaScript numbers are modelled as exact rationals (`ℚ`), and values that are
integers at every call site of the program (range bounds, star counts) are typed
`ℤ` or `ℕ`.  The rounding of IEEE doubles is modelled in one place, where a bound
of the specification depends on it: the expression that `establishPlanetBounds`
evaluates for `planetaryRadius` is also given with every arithmetic result rounded
(`StarSystem.planetaryRadiusWith`, `roundDouble`).
The seeded generator `Game.prng` is modelled by the sequence of draws it
produces together with a read position; every function that draws takes the
generator state and returns the advanced one.  The transcendental parts of
the host `Math` object are a parameter (`MathEnv`), and so is `Math.seedrandom`
where the game is constructed.  Object references (starting system, starting
galaxy, planet under the pointer) are held as indices into the owning
sequences.  Painting and DOM updates are left out.
-/

namespace OrbitTest

/-! ## Host environment -/

/-- The parts of the host `Math` object that have no exact rational value. -/
structure MathEnv where
  PI : ℚ
  pow : ℚ → ℚ → ℚ
  cos : ℚ → ℚ
  sin : ℚ → ℚ

/-- `const TAU = Math.PI * 2;` -/
def TAU (M : MathEnv) : ℚ := M.PI * 2

/-- State of the seeded generator: the draws it yields and how many were taken. -/
structure Prng where
  draws : ℕ → ℚ
  pos : ℕ

/-- Every draw of the generator lies in `[0, 1)`, as `Math.seedrandom` promises. -/
def Prng.InRange (g : Prng) : Prop := ∀ n, 0 ≤ g.draws n ∧ g.draws n < 1

/-- The generator after `k` further draws. -/
def Prng.skip (g : Prng) (k : ℕ) : Prng := { g with pos := g.pos + k }

/-- `Game.prng()`: the next draw, and the advanced generator. -/
def Game.prng (g : Prng) : ℚ × Prng := (g.draws g.pos, { g with pos := g.pos + 1 })

/-- What a `throw` (or a property access on `undefined`) raises. -/
inductive JSError where
  | rangeError (name : String) (rangeLimit value : ℚ)
  | typeError
  deriving DecidableEq

/-- JavaScript `x % m` on numbers: the remainder has the sign of the dividend. -/
def jsRem (x m : ℚ) : ℚ :=
  x - m * (if 0 ≤ x / m then ⌊x / m⌋ else ⌈x / m⌉)

/-- Number of iterations of `for (let i = 0; i < bound; i++)`. -/
def forCount (bound : ℚ) : ℕ := ⌈bound⌉.toNat

/-- Round to the nearest integer, a tie going to the even neighbour. -/
def roundHalfEven (y : ℚ) : ℤ :=
  if 2 * Int.fract y < 1 then ⌊y⌋
  else if 1 < 2 * Int.fract y then ⌊y⌋ + 1
  else if ⌊y⌋ % 2 = 0 then ⌊y⌋ else ⌊y⌋ + 1

/-- The IEEE-754 double nearest to `x`, the result that JavaScript gives to a literal
or to an arithmetic operation whose exact value is `x`: 53 significant bits, round to
nearest, ties to even.  With `2^e <= |x| < 2^(e+1)` the doubles around `x` are the
multiples of `2^(e-52)`.  The exponent range is left unbounded (no overflow to
`Infinity`, no subnormal numbers). -/
def roundDouble (x : ℚ) : ℚ :=
  if x = 0 then 0
  else (roundHalfEven (x / 2 ^ (Int.log 2 |x| - 52)) : ℚ) * 2 ^ (Int.log 2 |x| - 52)

/-! ## Random integers and colours -/

/-- `randomSeededIntInRange(min, max)`: takes one draw from `Game.prng`.  Every call
site passes integer bounds, so the bounds and the result are integers. -/
def randomSeededIntInRange (min max : ℤ) (g : Prng) : ℤ × Prng :=
  let (d, g) := Game.prng g
  (⌊d * ((max : ℚ) - (min : ℚ) + 1)⌋ + min, g)

/-- `validateHSL(name, value, rangeLimit)`: throws when the value is out of range. -/
def validateHSL (name : String) (value rangeLimit : ℚ) : Except JSError Unit :=
  if value > rangeLimit ∨ value < 0 then
    .error (.rangeError name rangeLimit value)
  else
    .ok ()

/-- `HSLtoRGB(h, s, l)`. -/
def HSLtoRGB (h s l : ℚ) : Except JSError (List ℤ) :=
  match validateHSL "Hue" h 360 with
  | .error e => .error e
  | .ok _ =>
  match validateHSL "Saturation" s 100 with
  | .error e => .error e
  | .ok _ =>
  match validateHSL "Lightness" l 100 with
  | .error e => .error e
  | .ok _ =>
    let s := s / 100
    let l := l / 100
    let k := fun n : ℚ => jsRem (n + h / 30) 12
    let a := s * min l (1 - l)
    let f := fun n : ℚ => l - a * max (-1) (min (k n - 3) (min (9 - k n) 1))
    .ok [⌊255 * f 0⌋, ⌊255 * f 8⌋, ⌊255 * f 4⌋]

/-- The `{h, s, l}` record of a colour. -/
structure HSL where
  h : ℤ
  s : ℤ
  l : ℤ
  deriving DecidableEq

/-- The `{hsl, rgb}` record returned by `randomCelestialBodyColor`. -/
structure Color where
  hsl : HSL
  rgb : List ℤ
  deriving DecidableEq

/-- `randomCelestialBodyColor(lowerSBound = 50, lowerLBound = 25)`. -/
def randomCelestialBodyColor (lowerSBound lowerLBound : ℤ) (g : Prng) :
    Except JSError (Color × Prng) :=
  let (h, g) := randomSeededIntInRange 0 360 g
  let (s, g) := randomSeededIntInRange lowerSBound 100 g
  let (l, g) := randomSeededIntInRange lowerLBound 100 g
  match HSLtoRGB h s l with
  | .error e => .error e
  | .ok rgb => .ok ({ hsl := { h := h, s := s, l := l }, rgb := rgb }, g)

/-! ## Planet -/

/-- A screen coordinate `{x, y}`. -/
structure Point where
  x : ℚ
  y : ℚ
  deriving DecidableEq

/-- The `{topLeft, bottomRight}` record of a planet. -/
structure BoundingBox where
  topLeft : Point
  bottomRight : Point
  deriving DecidableEq

/-- The argument record of `Planet.initialise`. -/
structure InitParams where
  orbitalRadius : ℚ
  planetaryRadius : ℚ
  yearLength : ℚ
  angularPosition : ℚ

/-- The fields of `class Planet`; `none` is a field that is still `undefined`
(or `null`, for the bounding box). -/
structure Planet where
  name : String
  fillColor : Color
  strokeColor : Color
  orbitalRadius : Option ℚ
  satellites : ℤ
  planetaryRadius : Option ℚ
  drawRadius : Option ℚ
  boundingBox : Option BoundingBox
  yearLength : Option ℚ
  initialAngularPosition : Option ℚ
  angularPosition : Option ℚ
  position : Option Point
  dayOfYear : ℚ
  deriving DecidableEq

/-- `new Planet(name)`. -/
def Planet.constructor (name : String) (g : Prng) : Except JSError (Planet × Prng) :=
  match randomCelestialBodyColor 50 25 g with
  | .error e => .error e
  | .ok (fillColor, g) =>
  match randomCelestialBodyColor 50 25 g with
  | .error e => .error e
  | .ok (strokeColor, g) =>
    let (satellites, g) := randomSeededIntInRange 0 10 g
    .ok ({ name := name, fillColor := fillColor, strokeColor := strokeColor,
           orbitalRadius := none, satellites := satellites, planetaryRadius := none,
           drawRadius := none, boundingBox := none, yearLength := none,
           initialAngularPosition := none, angularPosition := none,
           position := none, dayOfYear := 0 }, g)

/-- `Planet.initialise(params)`. -/
def Planet.initialise (p : Planet) (params : InitParams) : Planet :=
  { p with
    orbitalRadius := some params.orbitalRadius
    planetaryRadius := some params.planetaryRadius
    yearLength := some ((⌊570 * params.yearLength⌋ : ℤ) : ℚ)
    initialAngularPosition := some params.angularPosition
    angularPosition := some params.angularPosition }

/-- `Planet.setPosition(position)`: the bounding box is built only when
`drawRadius` is truthy (set and not zero). -/
def Planet.setPosition (p : Planet) (position : Point) : Planet :=
  { p with
    position := some position
    boundingBox :=
      match p.drawRadius with
      | some r =>
        if r ≠ 0 then
          some { topLeft := { x := position.x - r, y := position.y - r },
                 bottomRight := { x := position.x + r, y := position.y + r } }
        else none
      | none => none }

/-- `Planet.setDrawRadius(drawRadius)`. -/
def Planet.setDrawRadius (p : Planet) (drawRadius : ℚ) : Planet :=
  { p with drawRadius := some drawRadius }

/-- `Planet.getDrawRadius()`. -/
def Planet.getDrawRadius (p : Planet) : Option ℚ := p.drawRadius

/-- `Planet.mouseIsOver(mousePointer)`. -/
def Planet.mouseIsOver (p : Planet) (mousePointer : Point) : Bool :=
  match p.boundingBox with
  | none => false
  | some bb =>
    decide (mousePointer.x > bb.topLeft.x) && decide (mousePointer.x < bb.bottomRight.x)
    && (decide (mousePointer.y > bb.topLeft.y) && decide (mousePointer.y < bb.bottomRight.y))

/-- `Planet.addTime(time)`.  The result is `none` where JavaScript computes a
non-finite number, which the rational model has no value for: when
`yearLength` or `initialAngularPosition` is still `undefined`, or when
`yearLength` is zero. -/
def Planet.addTime (M : MathEnv) (p : Planet) (time : ℚ) : Option Planet :=
  match p.yearLength, p.initialAngularPosition with
  | some yearLength, some initialAngularPosition =>
    if yearLength = 0 then none
    else
      let dayOfYear := p.dayOfYear + time / 100
      let dayOfYear := if dayOfYear > yearLength then dayOfYear - yearLength else dayOfYear
      let angularOffset := TAU M * (dayOfYear / yearLength)
      some { p with
             dayOfYear := dayOfYear
             angularPosition := some (initialAngularPosition + angularOffset) }
  | _, _ => none

/-! ## StarSystem -/

/-- `String.fromCharCode(n)` for one code unit: `n` is reduced modulo `2^16`
(surrogate code units, which a `Char` cannot hold, do not occur for letters). -/
def fromCharCode (n : ℤ) : Char := Char.ofNat (n % 65536).toNat

/-- The fields of `class StarSystem`. -/
structure StarSystem where
  name : String
  planets : List Planet
  fillColor : Color
  strokeColor : Color
  solarMass : ℚ
  deriving DecidableEq

/-- The first loop of the constructor:
`this.name += String.fromCharCode(randomSeededIntInRange(65,90))`, `n` times. -/
def StarSystem.nameLetters : ℕ → String → Prng → String × Prng
  | 0, name, g => (name, g)
  | n + 1, name, g =>
    let (c, g) := randomSeededIntInRange 65 90 g
    StarSystem.nameLetters n (name ++ String.singleton (fromCharCode c)) g

/-- The second loop of the constructor:
`this.name += randomSeededIntInRange(0, 9)`, `n` times. -/
def StarSystem.nameDigits : ℕ → String → Prng → String × Prng
  | 0, name, g => (name, g)
  | n + 1, name, g =>
    let (d, g) := randomSeededIntInRange 0 9 g
    StarSystem.nameDigits n (name ++ toString d) g

/-- `new StarSystem()`. -/
def StarSystem.constructor (g : Prng) : Except JSError (StarSystem × Prng) :=
  let (name, g) := StarSystem.nameLetters 3 "" g
  let (name, g) := StarSystem.nameDigits 3 name g
  match randomCelestialBodyColor 75 75 g with
  | .error e => .error e
  | .ok (fillColor, g) =>
  match randomCelestialBodyColor 50 25 g with
  | .error e => .error e
  | .ok (strokeColor, g) =>
    let (m, g) := randomSeededIntInRange 50 150 g
    .ok ({ name := name, planets := [], fillColor := fillColor,
           strokeColor := strokeColor, solarMass := (m : ℚ) / 100 }, g)

/-- `StarSystem.addPlanet()`. -/
def StarSystem.addPlanet (sys : StarSystem) (g : Prng) : Except JSError (StarSystem × Prng) :=
  match Planet.constructor (sys.name ++ " - " ++ toString (sys.planets.length + 1)) g with
  | .error e => .error e
  | .ok (p, g) => .ok ({ sys with planets := sys.planets ++ [p] }, g)

/-- `get size()`. -/
def StarSystem.size (sys : StarSystem) : ℕ := sys.planets.length

/-- The loop of `establishPlanetBounds`, from planet index `i` on, with the
current values of the loop variables `orbitalRadius` and `yearLength`. -/
def StarSystem.boundsLoop (M : MathEnv) (aveOrbitalDelta planetSizeMultiplierRatio : ℚ) :
    List Planet → ℕ → ℚ → ℚ → Prng → List Planet × Prng
  | [], _, _, _, g => ([], g)
  | p :: ps, i, orbitalRadius, yearLength, g =>
    let (r, g) := randomSeededIntInRange 0 40 g
    let variance : ℚ := ((r - 20 : ℤ) : ℚ)
    let offset := aveOrbitalDelta + (aveOrbitalDelta * variance / 100)
    let planetSizeMultiplierAmount := 0.5 + ((i : ℚ) + 1) * planetSizeMultiplierRatio
    let (d, g) := Game.prng g
    let p := p.initialise
      { orbitalRadius := orbitalRadius
        planetaryRadius := offset * planetSizeMultiplierAmount
        yearLength := yearLength
        angularPosition := d * M.PI * 2 }
    let yearLength := yearLength * M.pow 2 1.005
    let orbitalRadius := orbitalRadius + offset
    let orbitalRadius := if orbitalRadius > 1 then 1 else orbitalRadius
    let (ps, g) := StarSystem.boundsLoop M aveOrbitalDelta planetSizeMultiplierRatio
      ps (i + 1) orbitalRadius yearLength g
    (p :: ps, g)

/-- `StarSystem.establishPlanetBounds()`.  The constant `avePlanetIndex` of the source
is never read and is left out.  With no planets the two quotients by the planet count
are never read either (JavaScript computes `Infinity`, the rational model 0). -/
def StarSystem.establishPlanetBounds (M : MathEnv) (sys : StarSystem) (g : Prng) :
    StarSystem × Prng :=
  let orbitalRadius : ℚ := 0.15
  let aveOrbitalDelta : ℚ := 0.8 / (sys.planets.length : ℚ)
  let planetSizeMultiplierRatio : ℚ := 1 / (sys.planets.length : ℚ) / 2
  let yearLength : ℚ := 0.25
  let (planets, g) := StarSystem.boundsLoop M aveOrbitalDelta planetSizeMultiplierRatio
    sys.planets 0 orbitalRadius yearLength g
  ({ sys with planets := planets }, g)

/-- The value that `establishPlanetBounds` passes as `planetaryRadius` for planet `i`
of `n`, given the `variance` drawn for it, when the literal `0.8` and the result of
every arithmetic operation are rounded by `fl`:
`aveOrbitalDelta = 0.8 / n`, `planetSizeMultiplierRatio = 1 / n / 2`,
`offset = aveOrbitalDelta + (aveOrbitalDelta * variance / 100)`,
`planetSizeMultiplierAmount = 0.5 + (i + 1) * planetSizeMultiplierRatio` and
`offset * planetSizeMultiplierAmount`.  The other operands (`n`, `variance`, `i + 1`,
`1`, `2`, `100`, `0.5`) are doubles as they stand.  With `fl = id` this is the exact
value that `StarSystem.boundsLoop` computes; with `fl = roundDouble` it is the double
that the program computes. -/
def StarSystem.planetaryRadiusWith (fl : ℚ → ℚ) (n : ℕ) (variance : ℤ) (i : ℕ) : ℚ :=
  let aveOrbitalDelta := fl (fl 0.8 / (n : ℚ))
  let planetSizeMultiplierRatio := fl (fl (1 / (n : ℚ)) / 2)
  let offset := fl (aveOrbitalDelta + fl (fl (aveOrbitalDelta * (variance : ℚ)) / 100))
  let planetSizeMultiplierAmount := fl (0.5 + fl (((i : ℚ) + 1) * planetSizeMultiplierRatio))
  fl (offset * planetSizeMultiplierAmount)

/-! ## Galaxy -/

/-- The constructor parameters of a galaxy: `stars` is a count (a natural number),
`planetStarRatio` any number. -/
structure GalaxyParams where
  name : String
  stars : ℕ
  planetStarRatio : ℚ

/-- The fields of `class Galaxy`.  `startingSystem` and `focusedSystem` are
references to elements of `starSystems`, held as indices; `none` is `undefined`. -/
structure Galaxy where
  starSystems : List StarSystem
  startingSystem : Option ℕ
  focusedSystem : Option ℕ
  name : String

/-- The first loop of the constructor:
`this.starSystems.push(new StarSystem())`, `n` times. -/
def Galaxy.createSystems : ℕ → List StarSystem → Prng → Except JSError (List StarSystem × Prng)
  | 0, starSystems, g => .ok (starSystems, g)
  | n + 1, starSystems, g =>
    match StarSystem.constructor g with
    | .error e => .error e
    | .ok (sys, g) => Galaxy.createSystems n (starSystems ++ [sys]) g

/-- The variables the assignment loop updates: the systems, the reference
`mostPopulousSystem` (an index into them) and the generator. -/
structure AssignState where
  starSystems : List StarSystem
  mostPopulousSystem : Option ℕ
  g : Prng

/-- Element `i` of an array, `undefined` (`none`) outside its bounds. -/
def elemAt {α : Type} (xs : List α) (i : ℤ) : Option α :=
  if 0 ≤ i then xs[i.toNat]? else none

/-- One iteration of the assignment loop of the constructor. -/
def Galaxy.assignStep (stars : ℕ) (st : AssignState) : Except JSError AssignState :=
  let (systemIndex, g) := randomSeededIntInRange 0 ((stars : ℤ) - 1) st.g
  match elemAt st.starSystems systemIndex with
  | none => .error .typeError
  | some system =>
    match system.addPlanet g with
    | .error e => .error e
    | .ok (system, g) =>
      let starSystems := st.starSystems.set systemIndex.toNat system
      match st.mostPopulousSystem.bind (fun m => starSystems[m]?) with
      | none => .error .typeError
      | some mostPopulousSystem =>
        if system.size > mostPopulousSystem.size then
          .ok { starSystems := starSystems, mostPopulousSystem := some systemIndex.toNat, g := g }
        else
          .ok { starSystems := starSystems, mostPopulousSystem := st.mostPopulousSystem, g := g }

/-- The assignment loop of the constructor, `n` iterations. -/
def Galaxy.assignLoop (stars : ℕ) : ℕ → AssignState → Except JSError AssignState
  | 0, st => .ok st
  | n + 1, st =>
    match Galaxy.assignStep stars st with
    | .error e => .error e
    | .ok st => Galaxy.assignLoop stars n st

/-- The last loop of the constructor:
`this.starSystems[i].establishPlanetBounds()` for every system in turn. -/
def Galaxy.establishAll (M : MathEnv) : List StarSystem → Prng → List StarSystem × Prng
  | [], g => ([], g)
  | sys :: rest, g =>
    let (sys, g) := sys.establishPlanetBounds M g
    let (rest, g) := Galaxy.establishAll M rest g
    (sys :: rest, g)

/-- `new Galaxy(params)`. -/
def Galaxy.constructor (M : MathEnv) (params : GalaxyParams) (g : Prng) :
    Except JSError (Galaxy × Prng) :=
  let numberOfPlanets : ℚ := (params.stars : ℚ) * params.planetStarRatio
  match Galaxy.createSystems params.stars [] g with
  | .error e => .error e
  | .ok (starSystems, g) =>
    let mostPopulousSystem : Option ℕ := if 0 < starSystems.length then some 0 else none
    match Galaxy.assignLoop params.stars (forCount numberOfPlanets)
        { starSystems := starSystems, mostPopulousSystem := mostPopulousSystem, g := g } with
    | .error e => .error e
    | .ok st =>
      let (starSystems, g) := Galaxy.establishAll M st.starSystems st.g
      .ok ({ starSystems := starSystems, startingSystem := st.mostPopulousSystem,
             focusedSystem := st.mostPopulousSystem, name := params.name }, g)

/-! ## Universe -/

/-- The fields of `class Universe`.  `startingGalaxy` is a reference to an element of
`galaxies`, held as its index; `startingSystem` is a reference to a star system of
some galaxy, held as the pair of the galaxy index and the index of the system in
that galaxy; `none` is `undefined`. -/
structure Universe where
  galaxies : List Galaxy
  startingGalaxy : Option ℕ
  startingSystem : Option (ℕ × ℕ)

/-- The loop of the constructor over `params.galaxies`: each galaxy is built and
pushed, then the starting galaxy is drawn again among those built so far and the
starting system is read from it. -/
def Universe.addGalaxies (M : MathEnv) :
    List GalaxyParams → Universe → Prng → Except JSError (Universe × Prng)
  | [], u, g => .ok (u, g)
  | galaxyParams :: rest, u, g =>
    match Galaxy.constructor M galaxyParams g with
    | .error e => .error e
    | .ok (galaxy, g) =>
      let galaxies := u.galaxies ++ [galaxy]
      let (k, g) := randomSeededIntInRange 0 ((galaxies.length : ℤ) - 1) g
      match elemAt galaxies k with
      | none => .error .typeError
      | some startingGalaxy =>
        Universe.addGalaxies M rest
          { galaxies := galaxies
            startingGalaxy := some k.toNat
            startingSystem := startingGalaxy.startingSystem.map (fun s => (k.toNat, s)) }
          g

/-- `new Universe(params)`, with `params.galaxies` the list of galaxy parameters. -/
def Universe.constructor (M : MathEnv) (galaxies : List GalaxyParams) (g : Prng) :
    Except JSError (Universe × Prng) :=
  Universe.addGalaxies M galaxies
    { galaxies := [], startingGalaxy := none, startingSystem := none } g

/-! ## Game -/

/-- `static MOUSE_OUT_OF_BOUNDS = {x:-1000, y:-1000}`. -/
def Game.MOUSE_OUT_OF_BOUNDS : Point := { x := -1000, y := -1000 }

/-- The constructor parameters of a game that the generation reads: the seed and the
galaxy parameters (the canvas and the DOM container are drawing surfaces).  The field
`universe` of the source is spelled `universe_`, `universe` being reserved. -/
structure GameParams where
  prngKey : String
  universe_ : List GalaxyParams

/-- The fields of `class Game` that the generation, the clock and the hit test use.
`underMouse` is a reference to a planet of the starting system, held as its index;
`none` is `null`.  The canvas, the animation flags and `currentPlanet` (which only
feed drawing and DOM text) are left out. -/
structure Game where
  universe_ : Universe
  mouse : Point
  underMouse : Option ℕ

/-- `new Game(params)`.  `seedrandom` is the host's `Math.seedrandom`: the draws that
a seed yields.  The static `Game.prng` in force before the call is the last argument;
the constructor replaces it by a generator freshly seeded from `params.prngKey`. -/
def Game.constructor (seedrandom : String → ℕ → ℚ) (M : MathEnv) (params : GameParams)
    (_prng : Prng) : Except JSError (Game × Prng) :=
  let prng : Prng := { draws := seedrandom params.prngKey, pos := 0 }
  match Universe.constructor M params.universe_ prng with
  | .error e => .error e
  | .ok (universe_, prng) =>
    .ok ({ universe_ := universe_, mouse := Game.MOUSE_OUT_OF_BOUNDS, underMouse := none }, prng)

/-- The part of the loop body of `render` that updates one planet: `addTime`, then
`setPosition` on the orbit, then `getDrawRadius` and, when that is falsy (unset or
zero), `setDrawRadius(width / 10 * planetaryRadius)`.  The result is `none` where
JavaScript computes with `undefined` and gets `NaN` (a planet that was never
initialised) or `addTime` has no finite result. -/
def Game.renderPlanet (M : MathEnv) (width height ms : ℚ) (planet : Planet) : Option Planet :=
  let centre : Point := { x := width / 2, y := height / 2 }
  match planet.addTime M ms with
  | none => none
  | some planet =>
    match planet.orbitalRadius, planet.angularPosition with
    | some orbitalRadius, some angularPosition =>
      let oRadius := width / 2 * orbitalRadius
      let planet := planet.setPosition
        { x := centre.x + (oRadius * M.cos angularPosition)
          y := centre.y + (oRadius * M.sin angularPosition) }
      match planet.getDrawRadius with
      | some planetRadius =>
        if planetRadius ≠ 0 then some planet
        else
          match planet.planetaryRadius with
          | some planetaryRadius => some (planet.setDrawRadius (width / 10 * planetaryRadius))
          | none => none
      | none =>
        match planet.planetaryRadius with
        | some planetaryRadius => some (planet.setDrawRadius (width / 10 * planetaryRadius))
        | none => none
    | _, _ => none

/-- The loop of `render` over the planets of the solar system, from planet index `i`
on, with the current value of `this.underMouse`: every planet is updated and then
tested with `mouseIsOver(this.mouse)`. -/
def Game.renderLoop (M : MathEnv) (width height ms : ℚ) (mouse : Point) :
    List Planet → ℕ → Option ℕ → Option (List Planet × Option ℕ)
  | [], _, underMouse => some ([], underMouse)
  | planet :: rest, i, underMouse =>
    match Game.renderPlanet M width height ms planet with
    | none => none
    | some planet =>
      let underMouse := if planet.mouseIsOver mouse then some i else underMouse
      match Game.renderLoop M width height ms mouse rest (i + 1) underMouse with
      | none => none
      | some (rest, underMouse) => some (planet :: rest, underMouse)

/-- `Game.render(ms)` on a canvas of the given `width` and `height`, without the paint
calls: `underMouse` is reset to `null`, then the planets of
`this.universe.startingSystem` are updated and hit-tested in order.  The result is
`none` where the source raises (there is no starting system) or a planet update has
no finite result. -/
def Game.render (M : MathEnv) (width height ms : ℚ) (game : Game) : Option Game :=
  match game.universe_.startingSystem with
  | none => none
  | some (gi, si) =>
    match game.universe_.galaxies[gi]? with
    | none => none
    | some galaxy =>
      match galaxy.starSystems[si]? with
      | none => none
      | some solarSystem =>
        match Game.renderLoop M width height ms game.mouse solarSystem.planets 0 none with
        | none => none
        | some (planets, underMouse) =>
          some { game with
                 universe_ := { game.universe_ with
                   galaxies := game.universe_.galaxies.set gi
                     { galaxy with
                       starSystems := galaxy.starSystems.set si
                         { solarSystem with planets := planets } } }
                 underMouse := underMouse }

/-! ## Notions used in the statements and proofs below -/

/-- Two planets in orbital order: both radii are set and the first is not larger. -/
def OrbitLE (p q : Planet) : Prop :=
  ∃ a b : ℚ, p.orbitalRadius = some a ∧ q.orbitalRadius = some b ∧ a ≤ b

/-- The shell width drawn at generator state `g`:
`aveOrbitalDelta + (aveOrbitalDelta * variance / 100)`. -/
def shellOffset (ave : ℚ) (g : Prng) : ℚ :=
  ave + ave * ((((randomSeededIntInRange 0 40 g).1 - 20 : ℤ) : ℚ)) / 100

/-- The value of `orbitalRadius` after one iteration of the loop. -/
def nextOrbit (ave r : ℚ) (g : Prng) : ℚ :=
  if r + shellOffset ave g > 1 then 1 else r + shellOffset ave g

/-- The planet count of every system, in creation order, while planets are assigned. -/
def AssignState.planetCounts (st : AssignState) : List ℕ :=
  st.starSystems.map StarSystem.size

/-- The planet count of every system of a galaxy, in creation order. -/
def Galaxy.planetCounts (gal : Galaxy) : List ℕ :=
  gal.starSystems.map StarSystem.size

/-- The variables of the assignment loop of `new Galaxy(params)` after its first `k`
iterations: the constructor run up to that point. -/
def Galaxy.assignedAfter (params : GalaxyParams) (g : Prng) (k : ℕ) :
    Except JSError AssignState :=
  match Galaxy.createSystems params.stars [] g with
  | .error e => .error e
  | .ok (starSystems, g) =>
    Galaxy.assignLoop params.stars k
      { starSystems := starSystems
        mostPopulousSystem := if 0 < starSystems.length then some 0 else none
        g := g }

/-- The system index that an assignment iteration starting at generator state `g` draws. -/
def drawnIndex (stars : ℕ) (g : Prng) : ℕ :=
  (randomSeededIntInRange 0 ((stars : ℤ) - 1) g).1.toNat

/-- One assignment on planet counts alone: system `i` gains a planet, and becomes the
most populous one when its count now exceeds that of the current one. -/
def tallyStep (cm : List ℕ × ℕ) (i : ℕ) : List ℕ × ℕ :=
  ((cm.1.set i (cm.1.getD i 0 + 1)),
    if (cm.1.set i (cm.1.getD i 0 + 1)).getD i 0 > (cm.1.set i (cm.1.getD i 0 + 1)).getD cm.2 0
    then i else cm.2)

/-- Planet counts and most populous index after `n` assignments, each of which takes
eight draws (one for the index, seven for the new planet), starting at generator `g`. -/
def tallyAfter (stars : ℕ) (g : Prng) (cm : List ℕ × ℕ) : ℕ → List ℕ × ℕ
  | 0 => cm
  | n + 1 => tallyStep (tallyAfter stars g cm n) (drawnIndex stars (g.skip (8 * n)))

/-- The variance that `establishPlanetBounds`, started at generator state `g`, draws
for planet `j`: `randomSeededIntInRange(0,40) - 20`, each planet taking two draws. -/
def drawnVariance (g : Prng) (j : ℕ) : ℤ :=
  (randomSeededIntInRange 0 40 (g.skip (2 * j))).1 - 20

/-- A planet that `initialise` has been called on, with a year length that is not
zero: the state in which `establishPlanetBounds` leaves every planet. -/
def Planet.Initialised (p : Planet) : Prop :=
  ∃ yl init orb pr : ℚ, p.yearLength = some yl ∧ yl ≠ 0 ∧
    p.initialAngularPosition = some init ∧ p.orbitalRadius = some orb ∧
    p.planetaryRadius = some pr

/-- What one frame supplies to `render`: the canvas size and the elapsed time. -/
structure Frame where
  width : ℚ
  height : ℚ
  ms : ℚ

/-- The position-update path of `render` run on one planet for a sequence of frames. -/
def Game.renderPlanetFrames (M : MathEnv) : List Frame → Planet → Option Planet
  | [], planet => some planet
  | f :: rest, planet =>
    match Game.renderPlanet M f.width f.height f.ms planet with
    | none => none
    | some planet => Game.renderPlanetFrames M rest planet

/-- The number of draws the Universe constructor takes for a list of parameter sets:
for each galaxy 13 per star and 10 per planet (8 when the planet is assigned, 2 when
the bounds are established), and one more to pick the starting galaxy. -/
def Universe.drawCount : List GalaxyParams → ℕ
  | [] => 0
  | p :: rest =>
    13 * p.stars + 10 * forCount ((p.stars : ℚ) * p.planetStarRatio) + 1
      + Universe.drawCount rest

/-! ## Sample values, used to instantiate the theorems below -/

/-- A sample host: `PI` is the double nearest to π; the other entries are
placeholders of the right type. -/
def sampleMath : MathEnv :=
  { PI := 884279719003555 / 281474976710656
    pow := fun _ _ => 2007 / 1000
    cos := fun _ => 1
    sin := fun _ => 0 }

/-- A generator all of whose draws are `d`. -/
def constPrng (d : ℚ) : Prng := { draws := fun _ => d, pos := 0 }

/-- A sample colour: pure black. -/
def sampleColor : Color := { hsl := { h := 0, s := 0, l := 0 }, rgb := [0, 0, 0] }

/-- A planet as `new Planet(name)` leaves it, with a sample colour. -/
def samplePlanet (name : String) : Planet :=
  { name := name, fillColor := sampleColor, strokeColor := sampleColor,
    orbitalRadius := none, satellites := 0, planetaryRadius := none,
    drawRadius := none, boundingBox := none, yearLength := none,
    initialAngularPosition := none, angularPosition := none,
    position := none, dayOfYear := 0 }

/-- A sample planet in mid-orbit: year length 100, day 95. -/
def orbitingPlanet : Planet :=
  { samplePlanet "ABC123 - 1" with
    orbitalRadius := some (3 / 20), planetaryRadius := some (1 / 10),
    yearLength := some 100, initialAngularPosition := some 1,
    angularPosition := some 1, dayOfYear := 95 }

/-- A sample system holding two freshly created planets. -/
def sampleSystem : StarSystem :=
  { name := "ABC123"
    planets := [samplePlanet "ABC123 - 1", samplePlanet "ABC123 - 2"]
    fillColor := sampleColor, strokeColor := sampleColor, solarMass := 1 }

/-- A generator that yields 1/2 at position 26 and 0 everywhere else: in a galaxy
of two stars the first assignment picks system 1 and the second picks system 0. -/
def tiePrng : Prng := { draws := fun n => if n = 26 then 1 / 2 else 0, pos := 0 }

/-- A generator for a galaxy of three stars and ten planets: the ten index draws (at
positions 39, 47, ..., 111) pick system 1 five times, system 0 twice and system 2
three times; every other draw is 0. -/
def spreadPrng : Prng :=
  { draws := fun n =>
      if n = 39 ∨ n = 47 ∨ n = 55 ∨ n = 63 ∨ n = 71 then 1 / 3
      else if n = 95 ∨ n = 103 ∨ n = 111 then 2 / 3
      else 0
    pos := 0 }

/-- A sample inner planet at angle 0 of its orbit, with its draw radius already set. -/
def innerPlanet : Planet :=
  { samplePlanet "ABC123 - 1" with
    orbitalRadius := some (1 / 5), planetaryRadius := some (1 / 10),
    yearLength := some 100, initialAngularPosition := some 0,
    angularPosition := some 0, drawRadius := some 50 }

/-- A sample outer planet at angle 0 of its orbit, with its draw radius already set. -/
def outerPlanet : Planet :=
  { samplePlanet "ABC123 - 2" with
    orbitalRadius := some (3 / 10), planetaryRadius := some (1 / 10),
    yearLength := some 100, initialAngularPosition := some 0,
    angularPosition := some 0, drawRadius := some 50 }

/-- Three galaxies of one star and one planet each. -/
def threeGalaxies : List GalaxyParams :=
  [{ name := "Amber Reach", stars := 1, planetStarRatio := 1 },
   { name := "Basalt Veil", stars := 1, planetStarRatio := 1 },
   { name := "Cinder Loop", stars := 1, planetStarRatio := 1 }]

/-- A generator for `threeGalaxies`.  Each galaxy takes 23 draws and is followed by the
draw that picks the starting galaxy, at positions 23, 47 and 71.  The draw at 47 is
1/2, which picks index 1 of the two galaxies built so far; the draw at 71 is `last`;
every other draw is 0. -/
def pickPrng (last : ℚ) : Prng :=
  { draws := fun n => if n = 47 then 1 / 2 else if n = 71 then last else 0, pos := 0 }

/-! ## Colour conversion -/

theorem clamp_bounds (k : ℚ) :
    -1 ≤ max (-1) (min (k - 3) (min (9 - k) 1)) ∧
      max (-1) (min (k - 3) (min (9 - k) 1)) ≤ 1 :=
  ⟨le_max_left _ _, max_le (by norm_num) (le_trans (min_le_right _ _) (min_le_right _ _))⟩

theorem channel_bounds (s l m : ℚ) (hs0 : 0 ≤ s) (hs1 : s ≤ 1) (hl0 : 0 ≤ l) (hl1 : l ≤ 1)
    (hm0 : -1 ≤ m) (hm1 : m ≤ 1) :
    0 ≤ ⌊255 * (l - s * min l (1 - l) * m)⌋ ∧ ⌊255 * (l - s * min l (1 - l) * m)⌋ ≤ 255 := by
  have hmin0 : 0 ≤ min l (1 - l) := le_min hl0 (by linarith)
  have ha0 : 0 ≤ s * min l (1 - l) := mul_nonneg hs0 hmin0
  have ha1 : s * min l (1 - l) ≤ min l (1 - l) := mul_le_of_le_one_left hmin0 hs1
  have hal : s * min l (1 - l) ≤ l := le_trans ha1 (min_le_left _ _)
  have har : s * min l (1 - l) ≤ 1 - l := le_trans ha1 (min_le_right _ _)
  have h1 : s * min l (1 - l) * m ≤ s * min l (1 - l) := by nlinarith
  have h2 : -(s * min l (1 - l)) ≤ s * min l (1 - l) * m := by nlinarith
  constructor
  · rw [Int.floor_nonneg]; nlinarith
  · have h3 : (255 : ℚ) * (l - s * min l (1 - l) * m) ≤ ((255 : ℤ) : ℚ) := by
      push_cast; nlinarith
    exact Int.cast_le.mp (le_trans (Int.floor_le _) h3)

theorem HSLtoRGB_eq_of_valid (h s l : ℚ) (hh : 0 ≤ h ∧ h ≤ 360) (hs : 0 ≤ s ∧ s ≤ 100)
    (hl : 0 ≤ l ∧ l ≤ 100) :
    HSLtoRGB h s l = .ok
      [⌊255 * (l / 100 - s / 100 * min (l / 100) (1 - l / 100) * max (-1)
          (min (jsRem (0 + h / 30) 12 - 3) (min (9 - jsRem (0 + h / 30) 12) 1)))⌋,
       ⌊255 * (l / 100 - s / 100 * min (l / 100) (1 - l / 100) * max (-1)
          (min (jsRem (8 + h / 30) 12 - 3) (min (9 - jsRem (8 + h / 30) 12) 1)))⌋,
       ⌊255 * (l / 100 - s / 100 * min (l / 100) (1 - l / 100) * max (-1)
          (min (jsRem (4 + h / 30) 12 - 3) (min (9 - jsRem (4 + h / 30) 12) 1)))⌋] := by
  have vh : validateHSL "Hue" h 360 = .ok () := by
    unfold validateHSL; rw [if_neg]; intro hc; rcases hc with hc | hc <;> linarith [hh.1, hh.2]
  have vs : validateHSL "Saturation" s 100 = .ok () := by
    unfold validateHSL; rw [if_neg]; intro hc; rcases hc with hc | hc <;> linarith [hs.1, hs.2]
  have vl : validateHSL "Lightness" l 100 = .ok () := by
    unfold validateHSL; rw [if_neg]; intro hc; rcases hc with hc | hc <;> linarith [hl.1, hl.2]
  simp only [HSLtoRGB, vh, vs, vl]

theorem HSLtoRGB_ok_of_valid (h s l : ℚ) (hh : 0 ≤ h ∧ h ≤ 360) (hs : 0 ≤ s ∧ s ≤ 100)
    (hl : 0 ≤ l ∧ l ≤ 100) :
    ∃ r g b : ℤ, HSLtoRGB h s l = .ok [r, g, b] ∧
      (0 ≤ r ∧ r ≤ 255) ∧ (0 ≤ g ∧ g ≤ 255) ∧ (0 ≤ b ∧ b ≤ 255) := by
  have hs0 : 0 ≤ s / 100 := div_nonneg hs.1 (by norm_num)
  have hs1 : s / 100 ≤ 1 := by rw [div_le_one (by norm_num)]; exact hs.2
  have hl0 : 0 ≤ l / 100 := div_nonneg hl.1 (by norm_num)
  have hl1 : l / 100 ≤ 1 := by rw [div_le_one (by norm_num)]; exact hl.2
  exact ⟨_, _, _, HSLtoRGB_eq_of_valid h s l hh hs hl,
    channel_bounds _ _ _ hs0 hs1 hl0 hl1 (clamp_bounds _).1 (clamp_bounds _).2,
    channel_bounds _ _ _ hs0 hs1 hl0 hl1 (clamp_bounds _).1 (clamp_bounds _).2,
    channel_bounds _ _ _ hs0 hs1 hl0 hl1 (clamp_bounds _).1 (clamp_bounds _).2⟩

theorem HSLtoRGB_steel_blue : HSLtoRGB 210 50 40 = .ok [51, 102, 153] := by
  rw [HSLtoRGB_eq_of_valid 210 50 40 (by norm_num) (by norm_num) (by norm_num)]
  norm_num [jsRem]

theorem HSLtoRGB_black : HSLtoRGB 0 0 0 = .ok [0, 0, 0] := by
  rw [HSLtoRGB_eq_of_valid 0 0 0 (by norm_num) (by norm_num) (by norm_num)]
  norm_num

theorem HSLtoRGB_white : HSLtoRGB 0 0 100 = .ok [255, 255, 255] := by
  rw [HSLtoRGB_eq_of_valid 0 0 100 (by norm_num) (by norm_num) (by norm_num)]
  norm_num

/-- C1: for h in [0,360], s in [0,100] and l in [0,100], `HSLtoRGB` returns three
channels, each in [0,255]; HSLtoRGB(0,0,0) is (0,0,0) and HSLtoRGB(0,0,100) is
(255,255,255). -/
theorem HSLtoRGB_channels_in_range (h s l : ℚ) (hh : 0 ≤ h ∧ h ≤ 360)
    (hs : 0 ≤ s ∧ s ≤ 100) (hl : 0 ≤ l ∧ l ≤ 100) :
    (∃ r g b : ℤ, HSLtoRGB h s l = .ok [r, g, b] ∧
      (0 ≤ r ∧ r ≤ 255) ∧ (0 ≤ g ∧ g ≤ 255) ∧ (0 ≤ b ∧ b ≤ 255)) ∧
    HSLtoRGB 0 0 0 = .ok [0, 0, 0] ∧ HSLtoRGB 0 0 100 = .ok [255, 255, 255] :=
  ⟨HSLtoRGB_ok_of_valid h s l hh hs hl, HSLtoRGB_black, HSLtoRGB_white⟩

theorem HSLtoRGB_channels_in_range_witness :
    (∃ r g b : ℤ, HSLtoRGB 210 50 40 = .ok [r, g, b] ∧
      (0 ≤ r ∧ r ≤ 255) ∧ (0 ≤ g ∧ g ≤ 255) ∧ (0 ≤ b ∧ b ≤ 255)) ∧
    HSLtoRGB 0 0 0 = .ok [0, 0, 0] ∧ HSLtoRGB 0 0 100 = .ok [255, 255, 255] :=
  HSLtoRGB_channels_in_range 210 50 40 (by norm_num) (by norm_num) (by norm_num)

/-- C2: `HSLtoRGB` fails exactly when h is outside [0,360], s outside [0,100] or l
outside [0,100]; HSLtoRGB(361,50,50) fails and HSLtoRGB(360,100,100) succeeds. -/
theorem HSLtoRGB_fails_iff (h s l : ℚ) :
    ((∃ e, HSLtoRGB h s l = .error e) ↔
      (h < 0 ∨ 360 < h) ∨ (s < 0 ∨ 100 < s) ∨ (l < 0 ∨ 100 < l)) ∧
    HSLtoRGB 361 50 50 = .error (.rangeError "Hue" 360 361) ∧
    (∃ rgb, HSLtoRGB 360 100 100 = .ok rgb) := by
  refine ⟨⟨?_, ?_⟩, ?_, ?_⟩
  · rintro ⟨e, he⟩
    by_contra hv
    push_neg at hv
    obtain ⟨r, g, b, hok, _⟩ :=
      HSLtoRGB_ok_of_valid h s l ⟨hv.1.1, hv.1.2⟩ ⟨hv.2.1.1, hv.2.1.2⟩ ⟨hv.2.2.1, hv.2.2.2⟩
    rw [hok] at he
    cases he
  · intro hv
    by_cases h1 : h > 360 ∨ h < 0
    · exact ⟨.rangeError "Hue" 360 h, by simp only [HSLtoRGB, validateHSL, if_pos h1]⟩
    by_cases h2 : s > 100 ∨ s < 0
    · exact ⟨.rangeError "Saturation" 100 s,
        by simp only [HSLtoRGB, validateHSL, if_neg h1, if_pos h2]⟩
    by_cases h3 : l > 100 ∨ l < 0
    · exact ⟨.rangeError "Lightness" 100 l,
        by simp only [HSLtoRGB, validateHSL, if_neg h1, if_neg h2, if_pos h3]⟩
    exfalso
    rcases hv with hv | hv | hv
    · exact h1 (Or.symm hv)
    · exact h2 (Or.symm hv)
    · exact h3 (Or.symm hv)
  · have h1 : (361 : ℚ) > 360 ∨ (361 : ℚ) < 0 := by norm_num
    simp only [HSLtoRGB, validateHSL, if_pos h1]
  · exact ⟨_, HSLtoRGB_eq_of_valid 360 100 100 (by norm_num) (by norm_num) (by norm_num)⟩

/-! ## Random integers -/

theorem intInRange_bounds (d : ℚ) (min max : ℤ) (hmm : min ≤ max) (hd : 0 ≤ d ∧ d < 1) :
    min ≤ ⌊d * ((max : ℚ) - (min : ℚ) + 1)⌋ + min ∧
      ⌊d * ((max : ℚ) - (min : ℚ) + 1)⌋ + min ≤ max := by
  have hn : (0 : ℚ) < (max : ℚ) - (min : ℚ) + 1 := by
    have : (min : ℚ) ≤ (max : ℚ) := by exact_mod_cast hmm
    linarith
  have h0 : 0 ≤ ⌊d * ((max : ℚ) - (min : ℚ) + 1)⌋ :=
    Int.floor_nonneg.mpr (mul_nonneg hd.1 hn.le)
  have h1 : ⌊d * ((max : ℚ) - (min : ℚ) + 1)⌋ < max - min + 1 := by
    rw [Int.floor_lt]
    push_cast
    nlinarith [hd.2]
  constructor <;> linarith

/-- C3: for integers min <= max and a draw d in [0,1), `randomSeededIntInRange`
returns floor(d*(max-min+1)) + min, an integer between min and max inclusive, and
takes exactly one draw; both ends are attained by some draw. -/
theorem randomSeededIntInRange_spec (min max : ℤ) (hmm : min ≤ max) :
    (∀ g : Prng, 0 ≤ g.draws g.pos ∧ g.draws g.pos < 1 →
      (randomSeededIntInRange min max g).1
          = ⌊g.draws g.pos * ((max : ℚ) - (min : ℚ) + 1)⌋ + min ∧
        min ≤ (randomSeededIntInRange min max g).1 ∧
        (randomSeededIntInRange min max g).1 ≤ max ∧
        (randomSeededIntInRange min max g).2 = g.skip 1) ∧
    (∃ g : Prng, (0 ≤ g.draws g.pos ∧ g.draws g.pos < 1) ∧
      (randomSeededIntInRange min max g).1 = min) ∧
    (∃ g : Prng, (0 ≤ g.draws g.pos ∧ g.draws g.pos < 1) ∧
      (randomSeededIntInRange min max g).1 = max) := by
  have hle : (min : ℚ) ≤ (max : ℚ) := by exact_mod_cast hmm
  have hn : (0 : ℚ) < (max : ℚ) - (min : ℚ) + 1 := by linarith
  refine ⟨?_, ?_, ?_⟩
  · intro g hd
    have hb := intInRange_bounds (g.draws g.pos) min max hmm hd
    exact ⟨rfl, hb.1, hb.2, rfl⟩
  · refine ⟨⟨fun _ => 0, 0⟩, by norm_num, ?_⟩
    simp [randomSeededIntInRange, Game.prng]
  · refine ⟨⟨fun _ => ((max : ℚ) - (min : ℚ)) / ((max : ℚ) - (min : ℚ) + 1), 0⟩, ?_, ?_⟩
    · constructor
      · apply div_nonneg <;> linarith
      · rw [div_lt_one hn]; linarith
    · simp only [randomSeededIntInRange, Game.prng]
      rw [div_mul_cancel₀ _ hn.ne']
      have : ((max : ℚ) - (min : ℚ)) = ((max - min : ℤ) : ℚ) := by push_cast; ring
      rw [this, Int.floor_intCast]
      ring

theorem randomSeededIntInRange_spec_witness :
    (∀ g : Prng, 0 ≤ g.draws g.pos ∧ g.draws g.pos < 1 →
      (randomSeededIntInRange 65 90 g).1
          = ⌊g.draws g.pos * (((90 : ℤ) : ℚ) - ((65 : ℤ) : ℚ) + 1)⌋ + 65 ∧
        65 ≤ (randomSeededIntInRange 65 90 g).1 ∧
        (randomSeededIntInRange 65 90 g).1 ≤ 90 ∧
        (randomSeededIntInRange 65 90 g).2 = g.skip 1) ∧
    (∃ g : Prng, (0 ≤ g.draws g.pos ∧ g.draws g.pos < 1) ∧
      (randomSeededIntInRange 65 90 g).1 = 65) ∧
    (∃ g : Prng, (0 ≤ g.draws g.pos ∧ g.draws g.pos < 1) ∧
      (randomSeededIntInRange 65 90 g).1 = 90) :=
  randomSeededIntInRange_spec 65 90 (by decide)

/-! ## Planet: orbital clock and hit test -/

theorem Planet.addTime_eq (M : MathEnv) (p : Planet) (yl init t : ℚ)
    (hyl : p.yearLength = some yl) (hinit : p.initialAngularPosition = some init)
    (hne : yl ≠ 0) :
    p.addTime M t = some { p with
      dayOfYear :=
        if p.dayOfYear + t / 100 > yl then p.dayOfYear + t / 100 - yl
        else p.dayOfYear + t / 100
      angularPosition := some (init + TAU M *
        ((if p.dayOfYear + t / 100 > yl then p.dayOfYear + t / 100 - yl
          else p.dayOfYear + t / 100) / yl)) } := by
  simp only [Planet.addTime, hyl, hinit, if_neg hne]

/-- C8: for a planet with yearLength > 0 and elapsedMs >= 0, `addTime` sets
dayOfYear to d = old dayOfYear + elapsedMs/100 when d <= yearLength and to
d - yearLength (one subtraction) when d > yearLength, and sets angularPosition to
initialAngularPosition + TAU * (new dayOfYear / yearLength); with yearLength 100,
dayOfYear 95 and addTime(1000) the day becomes 5 and the angle
initialAngularPosition + TAU * (5/100). -/
theorem Planet.addTime_spec (M : MathEnv) (p : Planet) (yl init elapsedMs : ℚ)
    (hyl : p.yearLength = some yl) (hinit : p.initialAngularPosition = some init)
    (hpos : 0 < yl) (_he : 0 ≤ elapsedMs) :
    (∃ p', p.addTime M elapsedMs = some p' ∧
      (p.dayOfYear + elapsedMs / 100 ≤ yl → p'.dayOfYear = p.dayOfYear + elapsedMs / 100) ∧
      (p.dayOfYear + elapsedMs / 100 > yl →
        p'.dayOfYear = p.dayOfYear + elapsedMs / 100 - yl) ∧
      p'.angularPosition = some (init + TAU M * (p'.dayOfYear / yl)) ∧
      p'.yearLength = some yl ∧ p'.initialAngularPosition = some init) ∧
    (∀ q : Planet, ∀ a : ℚ, q.yearLength = some 100 → q.initialAngularPosition = some a →
      q.dayOfYear = 95 →
      ∃ q', q.addTime M 1000 = some q' ∧ q'.dayOfYear = 5 ∧
        q'.angularPosition = some (a + TAU M * (5 / 100))) := by
  constructor
  · refine ⟨_, Planet.addTime_eq M p yl init elapsedMs hyl hinit hpos.ne', ?_, ?_, rfl, hyl, hinit⟩
    · intro h; exact if_neg (not_lt.mpr h)
    · intro h; exact if_pos h
  · intro q a hq ha hd
    refine ⟨_, Planet.addTime_eq M q 100 a 1000 hq ha (by norm_num), ?_, ?_⟩
    · simp only [hd]; norm_num
    · simp only [hd]; norm_num

theorem Planet.addTime_spec_witness :
    (∃ p', orbitingPlanet.addTime sampleMath 250 = some p' ∧
      (orbitingPlanet.dayOfYear + 250 / 100 ≤ 100 →
        p'.dayOfYear = orbitingPlanet.dayOfYear + 250 / 100) ∧
      (orbitingPlanet.dayOfYear + 250 / 100 > 100 →
        p'.dayOfYear = orbitingPlanet.dayOfYear + 250 / 100 - 100) ∧
      p'.angularPosition = some (1 + TAU sampleMath * (p'.dayOfYear / 100)) ∧
      p'.yearLength = some 100 ∧ p'.initialAngularPosition = some 1) ∧
    (∀ q : Planet, ∀ a : ℚ, q.yearLength = some 100 → q.initialAngularPosition = some a →
      q.dayOfYear = 95 →
      ∃ q', q.addTime sampleMath 1000 = some q' ∧ q'.dayOfYear = 5 ∧
        q'.angularPosition = some (a + TAU sampleMath * (5 / 100))) :=
  Planet.addTime_spec sampleMath orbitingPlanet 100 1 250 rfl rfl (by norm_num) (by norm_num)

/-- C9 as stated fails: with yearLength 100 and dayOfYear 95, `addTime(500)` leaves
dayOfYear at exactly 100, which is not below yearLength. -/
theorem Planet.addTime_day_reaches_yearLength :
    orbitingPlanet.yearLength = some 100 ∧ orbitingPlanet.dayOfYear = 95 ∧
    (500 : ℚ) / 100 ≤ 100 ∧
    ∃ p', orbitingPlanet.addTime sampleMath 500 = some p' ∧ p'.dayOfYear = 100 ∧
      ¬ p'.dayOfYear < 100 := by
  refine ⟨rfl, rfl, by norm_num, _,
    Planet.addTime_eq sampleMath orbitingPlanet 100 1 500 rfl rfl (by norm_num), ?_, ?_⟩
  · simp only [orbitingPlanet]; norm_num
  · simp only [orbitingPlanet]; norm_num

/-- C9, amended: for a planet with yearLength > 0 and 0 <= dayOfYear < yearLength,
and elapsedMs >= 0 with elapsedMs/100 <= yearLength, after `addTime` dayOfYear lies
in the closed range [0, yearLength]: the wrap happens only above yearLength, so
dayOfYear is exactly yearLength when the old dayOfYear plus elapsedMs/100 is exactly
yearLength, and it is below yearLength otherwise. -/
theorem Planet.addTime_day_range (M : MathEnv) (p : Planet) (yl init elapsedMs : ℚ)
    (hyl : p.yearLength = some yl) (hinit : p.initialAngularPosition = some init)
    (hpos : 0 < yl) (hd0 : 0 ≤ p.dayOfYear) (hd1 : p.dayOfYear < yl)
    (he : 0 ≤ elapsedMs) (hel : elapsedMs / 100 ≤ yl) :
    ∃ p', p.addTime M elapsedMs = some p' ∧
      0 ≤ p'.dayOfYear ∧ p'.dayOfYear ≤ yl ∧
      (p.dayOfYear + elapsedMs / 100 = yl → p'.dayOfYear = yl) ∧
      (p.dayOfYear + elapsedMs / 100 ≠ yl → p'.dayOfYear < yl) := by
  have he' : 0 ≤ elapsedMs / 100 := div_nonneg he (by norm_num)
  refine ⟨_, Planet.addTime_eq M p yl init elapsedMs hyl hinit hpos.ne', ?_, ?_, ?_, ?_⟩
  · show 0 ≤ ite _ _ _
    split_ifs with h <;> linarith
  · show ite _ _ _ ≤ yl
    split_ifs with h <;> linarith
  · intro heq
    show ite _ _ _ = yl
    rw [if_neg (not_lt.mpr heq.le)]
    exact heq
  · intro hne
    show ite _ _ _ < yl
    split_ifs with h
    · linarith
    · exact lt_of_le_of_ne (not_lt.mp h) hne

theorem Planet.addTime_day_range_witness :
    orbitingPlanet.dayOfYear + 500 / 100 = 100 ∧
    ∃ p', orbitingPlanet.addTime sampleMath 500 = some p' ∧
      0 ≤ p'.dayOfYear ∧ p'.dayOfYear ≤ 100 ∧
      (orbitingPlanet.dayOfYear + 500 / 100 = 100 → p'.dayOfYear = 100) ∧
      (orbitingPlanet.dayOfYear + 500 / 100 ≠ 100 → p'.dayOfYear < 100) :=
  ⟨by simp only [orbitingPlanet]; norm_num,
   Planet.addTime_day_range sampleMath orbitingPlanet 100 1 500 rfl rfl (by norm_num)
    (by simp only [orbitingPlanet]; norm_num) (by simp only [orbitingPlanet]; norm_num)
    (by norm_num) (by norm_num)⟩

/-- C10: for a planet whose drawRadius is fixed to r > 0, after `setPosition(pos)` the
bounding box is the axis-aligned square of side 2r centred on pos, and
`mouseIsOver(q)` holds exactly when |q.x - pos.x| < r and |q.y - pos.y| < r, so the
centre is hit and a point on an edge is not; a planet whose drawRadius is not yet
set gets a null bounding box and `mouseIsOver` is false everywhere. -/
theorem Planet.setPosition_mouseIsOver (p : Planet) (r : ℚ) (pos q : Point)
    (hr : p.drawRadius = some r) (hpos : 0 < r) :
    ((p.setPosition pos).boundingBox
        = some { topLeft := { x := pos.x - r, y := pos.y - r },
                 bottomRight := { x := pos.x + r, y := pos.y + r } } ∧
      ((p.setPosition pos).mouseIsOver q = true ↔ |q.x - pos.x| < r ∧ |q.y - pos.y| < r) ∧
      (p.setPosition pos).mouseIsOver pos = true ∧
      (p.setPosition pos).mouseIsOver { x := pos.x + r, y := pos.y } = false ∧
      (p.setPosition pos).position = some pos) ∧
    (∀ p0 : Planet, p0.drawRadius = none →
      (p0.setPosition pos).boundingBox = none ∧ (p0.setPosition pos).mouseIsOver q = false) := by
  have hbb : (p.setPosition pos).boundingBox
      = some { topLeft := { x := pos.x - r, y := pos.y - r },
               bottomRight := { x := pos.x + r, y := pos.y + r } } := by
    simp only [Planet.setPosition, hr, if_pos hpos.ne']
  refine ⟨⟨hbb, ?_, ?_, ?_, rfl⟩, ?_⟩
  · simp only [Planet.mouseIsOver, hbb, Bool.and_eq_true, decide_eq_true_eq, abs_lt]
    constructor
    · rintro ⟨⟨h1, h2⟩, h3, h4⟩
      exact ⟨⟨by linarith, by linarith⟩, by linarith, by linarith⟩
    · rintro ⟨⟨h1, h2⟩, h3, h4⟩
      exact ⟨⟨by linarith, by linarith⟩, by linarith, by linarith⟩
  · simp only [Planet.mouseIsOver, hbb, Bool.and_eq_true, decide_eq_true_eq]
    exact ⟨⟨by linarith, by linarith⟩, by linarith, by linarith⟩
  · simp only [Planet.mouseIsOver, hbb]
    simp
  · intro p0 h0
    have hb0 : (p0.setPosition pos).boundingBox = none := by
      simp only [Planet.setPosition, h0]
    exact ⟨hb0, by simp only [Planet.mouseIsOver, hb0]⟩

theorem Planet.setPosition_mouseIsOver_witness :
    (((orbitingPlanet.setDrawRadius 5).setPosition ⟨40, 30⟩).boundingBox
        = some { topLeft := { x := 40 - 5, y := 30 - 5 },
                 bottomRight := { x := 40 + 5, y := 30 + 5 } } ∧
      (((orbitingPlanet.setDrawRadius 5).setPosition ⟨40, 30⟩).mouseIsOver ⟨42, 27⟩ = true ↔
        |(42 : ℚ) - 40| < 5 ∧ |(27 : ℚ) - 30| < 5) ∧
      ((orbitingPlanet.setDrawRadius 5).setPosition ⟨40, 30⟩).mouseIsOver ⟨40, 30⟩ = true ∧
      ((orbitingPlanet.setDrawRadius 5).setPosition ⟨40, 30⟩).mouseIsOver
        { x := 40 + 5, y := 30 } = false ∧
      ((orbitingPlanet.setDrawRadius 5).setPosition ⟨40, 30⟩).position = some ⟨40, 30⟩) ∧
    (∀ p0 : Planet, p0.drawRadius = none →
      (p0.setPosition ⟨40, 30⟩).boundingBox = none ∧
        (p0.setPosition ⟨40, 30⟩).mouseIsOver ⟨42, 27⟩ = false) :=
  Planet.setPosition_mouseIsOver (orbitingPlanet.setDrawRadius 5) 5 ⟨40, 30⟩ ⟨42, 27⟩ rfl
    (by norm_num)

/-! ## Generator bookkeeping -/

theorem Prng.InRange.skip {g : Prng} (hg : g.InRange) (k : ℕ) : (g.skip k).InRange := hg

theorem Prng.skip_skip (g : Prng) (a b : ℕ) : (g.skip a).skip b = g.skip (a + b) := by
  simp only [Prng.skip, Nat.add_assoc]

theorem Prng.skip_zero (g : Prng) : g.skip 0 = g := rfl

theorem constPrng_inRange (d : ℚ) (h0 : 0 ≤ d) (h1 : d < 1) : (constPrng d).InRange :=
  fun _ => ⟨h0, h1⟩

theorem randomSeededIntInRange_snd (min max : ℤ) (g : Prng) :
    (randomSeededIntInRange min max g).2 = g.skip 1 := rfl

theorem randomSeededIntInRange_mem (min max : ℤ) (hmm : min ≤ max) (g : Prng)
    (hg : g.InRange) :
    min ≤ (randomSeededIntInRange min max g).1 ∧ (randomSeededIntInRange min max g).1 ≤ max :=
  intInRange_bounds (g.draws g.pos) min max hmm (hg g.pos)

/-! ## StarSystem: orbital shells -/

theorem offset_nonneg (ave : ℚ) (have0 : 0 ≤ ave) (r : ℤ) (h0 : 0 ≤ r) :
    0 ≤ ave + ave * (((r - 20 : ℤ) : ℚ)) / 100 := by
  have hr : (0 : ℚ) ≤ (r : ℚ) := by exact_mod_cast h0
  have : ave + ave * (((r - 20 : ℤ) : ℚ)) / 100 = ave * ((80 + (r : ℚ)) / 100) := by
    push_cast; ring
  rw [this]
  exact mul_nonneg have0 (div_nonneg (by linarith) (by norm_num))

theorem StarSystem.boundsLoop_cons (M : MathEnv) (ave ratio : ℚ) (p : Planet)
    (ps : List Planet) (i : ℕ) (r y : ℚ) (g : Prng) :
    StarSystem.boundsLoop M ave ratio (p :: ps) i r y g =
      (p.initialise
          { orbitalRadius := r
            planetaryRadius := shellOffset ave g * (0.5 + ((i : ℚ) + 1) * ratio)
            yearLength := y
            angularPosition := (g.skip 1).draws (g.skip 1).pos * M.PI * 2 } ::
        (StarSystem.boundsLoop M ave ratio ps (i + 1) (nextOrbit ave r g)
          (y * M.pow 2 1.005) (g.skip 2)).1,
       (StarSystem.boundsLoop M ave ratio ps (i + 1) (nextOrbit ave r g)
          (y * M.pow 2 1.005) (g.skip 2)).2) := rfl

theorem shellOffset_nonneg (ave : ℚ) (have0 : 0 ≤ ave) (g : Prng) (hg : g.InRange) :
    0 ≤ shellOffset ave g :=
  offset_nonneg ave have0 _ (randomSeededIntInRange_mem 0 40 (by decide) g hg).1

theorem nextOrbit_bounds (ave r : ℚ) (have0 : 0 ≤ ave) (g : Prng) (hg : g.InRange)
    (hr0 : 0 < r) (hr1 : r ≤ 1) :
    0 < nextOrbit ave r g ∧ nextOrbit ave r g ≤ 1 ∧ r ≤ nextOrbit ave r g := by
  have hoff := shellOffset_nonneg ave have0 g hg
  unfold nextOrbit
  split_ifs with h
  · exact ⟨by norm_num, le_refl _, hr1⟩
  · exact ⟨by linarith, not_lt.mp h, by linarith⟩

theorem StarSystem.boundsLoop_orbits (M : MathEnv) (ave ratio : ℚ) (have0 : 0 ≤ ave) :
    ∀ (ps : List Planet) (i : ℕ) (r y : ℚ) (g : Prng), g.InRange → 0 < r → r ≤ 1 →
      (StarSystem.boundsLoop M ave ratio ps i r y g).1.length = ps.length ∧
      (∀ p ∈ (StarSystem.boundsLoop M ave ratio ps i r y g).1,
        ∃ x, p.orbitalRadius = some x ∧ r ≤ x ∧ x ≤ 1) ∧
      (StarSystem.boundsLoop M ave ratio ps i r y g).1.Pairwise OrbitLE := by
  intro ps
  induction ps with
  | nil =>
    intro i r y g _ _ _
    simp [StarSystem.boundsLoop]
  | cons p ps ih =>
    intro i r y g hg hr0 hr1
    have hr' := nextOrbit_bounds ave r have0 g hg hr0 hr1
    obtain ⟨hlen, hall, hpw⟩ := ih (i + 1) (nextOrbit ave r g)
      (y * M.pow 2 1.005) (g.skip 2) (hg.skip 2) hr'.1 hr'.2.1
    rw [StarSystem.boundsLoop_cons]
    refine ⟨?_, ?_, ?_⟩
    · simp only [List.length_cons, hlen]
    · intro q hq
      rcases List.mem_cons.mp hq with hq | hq
      · subst hq
        exact ⟨r, rfl, le_refl _, hr1⟩
      · obtain ⟨x, hx, hx1, hx2⟩ := hall q hq
        exact ⟨x, hx, le_trans hr'.2.2 hx1, hx2⟩
    · refine List.Pairwise.cons ?_ hpw
      intro q hq
      obtain ⟨x, hx, hx1, _⟩ := hall q hq
      exact ⟨r, x, rfl, hx, le_trans hr'.2.2 hx1⟩

/-- C4: for a StarSystem with N >= 2 planets and draws in [0,1), after
`establishPlanetBounds()` the orbital radius of planet i is at most that of planet
i+1, and every orbital radius lies in (0,1]. -/
theorem StarSystem.establishPlanetBounds_orbits (M : MathEnv) (sys : StarSystem) (g : Prng)
    (hg : g.InRange) (_hN : 2 ≤ sys.planets.length) :
    (sys.establishPlanetBounds M g).1.planets.length = sys.planets.length ∧
    (∀ (i : ℕ) (p q : Planet), (sys.establishPlanetBounds M g).1.planets[i]? = some p →
      (sys.establishPlanetBounds M g).1.planets[i + 1]? = some q →
      ∃ a b : ℚ, p.orbitalRadius = some a ∧ q.orbitalRadius = some b ∧ a ≤ b) ∧
    (∀ p ∈ (sys.establishPlanetBounds M g).1.planets,
      ∃ r : ℚ, p.orbitalRadius = some r ∧ 0 < r ∧ r ≤ 1) := by
  have have0 : (0 : ℚ) ≤ 0.8 / (sys.planets.length : ℚ) :=
    div_nonneg (by norm_num) (Nat.cast_nonneg _)
  obtain ⟨hlen, hall, hpw⟩ := StarSystem.boundsLoop_orbits M _
    (1 / (sys.planets.length : ℚ) / 2) have0 sys.planets 0 0.15 0.25 g hg
    (by norm_num) (by norm_num)
  have hpl : (sys.establishPlanetBounds M g).1.planets
      = (StarSystem.boundsLoop M (0.8 / (sys.planets.length : ℚ))
          (1 / (sys.planets.length : ℚ) / 2) sys.planets 0 0.15 0.25 g).1 := rfl
  rw [hpl]
  refine ⟨hlen, ?_, ?_⟩
  · intro i p q hp hq
    obtain ⟨hi, hpi⟩ := List.getElem?_eq_some.mp hp
    obtain ⟨hj, hqj⟩ := List.getElem?_eq_some.mp hq
    have := List.pairwise_iff_getElem.mp hpw i (i + 1) hi hj (Nat.lt_succ_self i)
    rw [hpi, hqj] at this
    exact this
  · intro p hp
    obtain ⟨x, hx, hx1, hx2⟩ := hall p hp
    exact ⟨x, hx, by norm_num at hx1; linarith, hx2⟩

theorem StarSystem.establishPlanetBounds_orbits_witness :
    (sampleSystem.establishPlanetBounds sampleMath (constPrng (1 / 2))).1.planets.length
      = sampleSystem.planets.length ∧
    (∀ (i : ℕ) (p q : Planet),
      (sampleSystem.establishPlanetBounds sampleMath (constPrng (1 / 2))).1.planets[i]?
        = some p →
      (sampleSystem.establishPlanetBounds sampleMath (constPrng (1 / 2))).1.planets[i + 1]?
        = some q →
      ∃ a b : ℚ, p.orbitalRadius = some a ∧ q.orbitalRadius = some b ∧ a ≤ b) ∧
    (∀ p ∈ (sampleSystem.establishPlanetBounds sampleMath (constPrng (1 / 2))).1.planets,
      ∃ r : ℚ, p.orbitalRadius = some r ∧ 0 < r ∧ r ≤ 1) :=
  StarSystem.establishPlanetBounds_orbits sampleMath sampleSystem (constPrng (1 / 2))
    (constPrng_inRange _ (by norm_num) (by norm_num)) (by decide)

/-! ## Construction never raises when the draws are in range -/

theorem randomCelestialBodyColor_ok (sb lb : ℤ) (hsb : 0 ≤ sb ∧ sb ≤ 100)
    (hlb : 0 ≤ lb ∧ lb ≤ 100) (g : Prng) (hg : g.InRange) :
    ∃ c : Color, randomCelestialBodyColor sb lb g = .ok (c, g.skip 3) ∧
      (0 ≤ c.hsl.h ∧ c.hsl.h ≤ 360) ∧ (sb ≤ c.hsl.s ∧ c.hsl.s ≤ 100) ∧
      (lb ≤ c.hsl.l ∧ c.hsl.l ≤ 100) ∧
      HSLtoRGB c.hsl.h c.hsl.s c.hsl.l = .ok c.rgb := by
  have hh := randomSeededIntInRange_mem 0 360 (by decide) g hg
  have hs := randomSeededIntInRange_mem sb 100 hsb.2 (g.skip 1) (hg.skip 1)
  have hl := randomSeededIntInRange_mem lb 100 hlb.2 (g.skip 2) (hg.skip 2)
  have hs0 : 0 ≤ (randomSeededIntInRange sb 100 (g.skip 1)).1 := le_trans hsb.1 hs.1
  have hl0 : 0 ≤ (randomSeededIntInRange lb 100 (g.skip 2)).1 := le_trans hlb.1 hl.1
  obtain ⟨r, gr, b, hok, _⟩ := HSLtoRGB_ok_of_valid
    ((randomSeededIntInRange 0 360 g).1 : ℚ)
    ((randomSeededIntInRange sb 100 (g.skip 1)).1 : ℚ)
    ((randomSeededIntInRange lb 100 (g.skip 2)).1 : ℚ)
    ⟨by exact_mod_cast hh.1, by exact_mod_cast hh.2⟩
    ⟨by exact_mod_cast hs0, by exact_mod_cast hs.2⟩
    ⟨by exact_mod_cast hl0, by exact_mod_cast hl.2⟩
  have key : randomCelestialBodyColor sb lb g =
      match HSLtoRGB ((randomSeededIntInRange 0 360 g).1 : ℚ)
          ((randomSeededIntInRange sb 100 (g.skip 1)).1 : ℚ)
          ((randomSeededIntInRange lb 100 (g.skip 2)).1 : ℚ) with
      | .error e => .error e
      | .ok rgb => .ok ({ hsl := { h := (randomSeededIntInRange 0 360 g).1
                                   s := (randomSeededIntInRange sb 100 (g.skip 1)).1
                                   l := (randomSeededIntInRange lb 100 (g.skip 2)).1 },
                          rgb := rgb }, g.skip 3) := rfl
  refine ⟨{ hsl := { h := (randomSeededIntInRange 0 360 g).1
                     s := (randomSeededIntInRange sb 100 (g.skip 1)).1
                     l := (randomSeededIntInRange lb 100 (g.skip 2)).1 },
            rgb := [r, gr, b] }, ?_, hh, hs, hl, hok⟩
  rw [key, hok]

theorem Planet.constructor_succeeds (name : String) (g : Prng) (hg : g.InRange) :
    ∃ p : Planet, Planet.constructor name g = .ok (p, g.skip 7) ∧ p.name = name := by
  obtain ⟨c1, h1, _⟩ := randomCelestialBodyColor_ok 50 25 (by decide) (by decide) g hg
  obtain ⟨c2, h2, _⟩ :=
    randomCelestialBodyColor_ok 50 25 (by decide) (by decide) (g.skip 3) (hg.skip 3)
  refine ⟨{ name := name, fillColor := c1, strokeColor := c2,
             orbitalRadius := none,
             satellites := (randomSeededIntInRange 0 10 (g.skip 6)).1,
             planetaryRadius := none, drawRadius := none, boundingBox := none,
             yearLength := none, initialAngularPosition := none,
             angularPosition := none, position := none, dayOfYear := 0 }, ?_, rfl⟩
  unfold Planet.constructor
  rw [h1]
  dsimp only
  rw [h2]
  rfl

theorem StarSystem.nameLetters_snd (n : ℕ) :
    ∀ (name : String) (g : Prng), (StarSystem.nameLetters n name g).2 = g.skip n := by
  induction n with
  | zero => intro name g; rfl
  | succ n ih =>
    intro name g
    simp only [StarSystem.nameLetters, randomSeededIntInRange_snd, ih, Prng.skip_skip]
    rw [Nat.add_comm]

theorem StarSystem.nameDigits_snd (n : ℕ) :
    ∀ (name : String) (g : Prng), (StarSystem.nameDigits n name g).2 = g.skip n := by
  induction n with
  | zero => intro name g; rfl
  | succ n ih =>
    intro name g
    simp only [StarSystem.nameDigits, randomSeededIntInRange_snd, ih, Prng.skip_skip]
    rw [Nat.add_comm]

theorem StarSystem.constructor_returns (g : Prng) (hg : g.InRange) :
    ∃ sys : StarSystem, StarSystem.constructor g = .ok (sys, g.skip 13) ∧ sys.planets = [] := by
  obtain ⟨n1, hn1⟩ : ∃ n1, StarSystem.nameLetters 3 "" g = (n1, g.skip 3) :=
    ⟨_, Prod.ext rfl (StarSystem.nameLetters_snd 3 "" g)⟩
  obtain ⟨n2, hn2⟩ : ∃ n2, StarSystem.nameDigits 3 n1 (g.skip 3) = (n2, g.skip 6) :=
    ⟨_, Prod.ext rfl (StarSystem.nameDigits_snd 3 n1 (g.skip 3))⟩
  obtain ⟨c1, h1, _⟩ :=
    randomCelestialBodyColor_ok 75 75 (by decide) (by decide) (g.skip 6) (hg.skip 6)
  obtain ⟨c2, h2, _⟩ :=
    randomCelestialBodyColor_ok 50 25 (by decide) (by decide) ((g.skip 6).skip 3)
      ((hg.skip 6).skip 3)
  refine ⟨{ name := n2, planets := [], fillColor := c1, strokeColor := c2,
             solarMass := ((randomSeededIntInRange 50 150 (g.skip 12)).1 : ℚ) / 100 },
    ?_, rfl⟩
  unfold StarSystem.constructor
  rw [hn1]
  dsimp only
  rw [hn2]
  dsimp only
  rw [h1]
  dsimp only
  rw [h2]
  rfl

theorem StarSystem.addPlanet_ok (sys : StarSystem) (g : Prng) (hg : g.InRange) :
    ∃ sys' : StarSystem, sys.addPlanet g = .ok (sys', g.skip 7) ∧
      sys'.size = sys.size + 1 := by
  obtain ⟨p, hp, _⟩ :=
    Planet.constructor_succeeds (sys.name ++ " - " ++ toString (sys.planets.length + 1)) g hg
  refine ⟨{ sys with planets := sys.planets ++ [p] }, ?_, ?_⟩
  · unfold StarSystem.addPlanet
    rw [hp]
  · simp [StarSystem.size]

theorem Galaxy.createSystems_ok (n : ℕ) :
    ∀ (acc : List StarSystem) (g : Prng), g.InRange →
      ∃ l : List StarSystem,
        Galaxy.createSystems n acc g = .ok (acc ++ l, g.skip (13 * n)) ∧
        l.length = n ∧ ∀ s ∈ l, s.size = 0 := by
  induction n with
  | zero =>
    intro acc g _
    exact ⟨[], by simp [Galaxy.createSystems, Prng.skip_zero], rfl, by simp⟩
  | succ n ih =>
    intro acc g hg
    obtain ⟨sys, hsys, hempty⟩ := StarSystem.constructor_returns g hg
    obtain ⟨l, hl, hlen, hall⟩ := ih (acc ++ [sys]) (g.skip 13) (hg.skip 13)
    refine ⟨sys :: l, ?_, by simp [hlen], ?_⟩
    · rw [Galaxy.createSystems, hsys]
      dsimp only
      rw [hl, Prng.skip_skip, List.append_assoc, List.singleton_append]
      congr 3
      ring
    · intro s hs
      rcases List.mem_cons.mp hs with hs | hs
      · subst hs; simp [StarSystem.size, hempty]
      · exact hall s hs

/-! ## Galaxy: the assignment loop, reduced to planet counts -/

theorem drawnIndex_lt (stars : ℕ) (hS : 1 ≤ stars) (g : Prng) (hg : g.InRange) :
    0 ≤ (randomSeededIntInRange 0 ((stars : ℤ) - 1) g).1 ∧ drawnIndex stars g < stars := by
  have h := randomSeededIntInRange_mem 0 ((stars : ℤ) - 1) (by omega) g hg
  refine ⟨h.1, ?_⟩
  unfold drawnIndex
  rw [Int.toNat_lt h.1]
  omega

theorem getD_map_size (l : List StarSystem) (j : ℕ) (h : j < l.length) :
    (l.map StarSystem.size).getD j 0 = l[j].size := by
  simp [List.getD_eq_getElem?_getD, List.getElem?_eq_getElem h]

theorem Galaxy.assignStep_spec (stars : ℕ) (hS : 1 ≤ stars) (st : AssignState)
    (hg : st.g.InRange) (hlen : st.starSystems.length = stars) (m : ℕ)
    (hm : st.mostPopulousSystem = some m) (hml : m < stars) :
    ∃ st', Galaxy.assignStep stars st = .ok st' ∧ st'.g = st.g.skip 8 ∧
      st'.starSystems.length = stars ∧
      st'.planetCounts = (tallyStep (st.planetCounts, m) (drawnIndex stars st.g)).1 ∧
      st'.mostPopulousSystem
        = some (tallyStep (st.planetCounts, m) (drawnIndex stars st.g)).2 := by
  obtain ⟨h0, hi⟩ := drawnIndex_lt stars hS st.g hg
  have hil : drawnIndex stars st.g < st.starSystems.length := hlen ▸ hi
  obtain ⟨idx, hidx, hidx0, hidxn⟩ : ∃ idx : ℤ,
      randomSeededIntInRange 0 ((stars : ℤ) - 1) st.g = (idx, st.g.skip 1) ∧ 0 ≤ idx ∧
        idx.toNat = drawnIndex stars st.g := ⟨_, rfl, h0, rfl⟩
  generalize hidef : drawnIndex stars st.g = i at *
  have helem : elemAt st.starSystems idx = some (st.starSystems[i]) := by
    unfold elemAt
    rw [if_pos hidx0, hidxn]
    exact List.getElem?_eq_getElem hil
  obtain ⟨sys', hadd, hsize⟩ :=
    StarSystem.addPlanet_ok (st.starSystems[i]) (st.g.skip 1) (hg.skip 1)
  have hil' : i < (st.starSystems.set i sys').length := by
    rw [List.length_set]; exact hil
  have hml' : m < (st.starSystems.set i sys').length := by
    rw [List.length_set, hlen]; exact hml
  have hmps : (st.starSystems.set i sys')[m]? = some ((st.starSystems.set i sys')[m]) :=
    List.getElem?_eq_getElem hml'
  have hcounts : (st.starSystems.set i sys').map StarSystem.size
      = st.planetCounts.set i (st.planetCounts.getD i 0 + 1) := by
    rw [List.map_set, hsize, AssignState.planetCounts, getD_map_size _ _ hil]
  have hci : ((st.starSystems.set i sys').map StarSystem.size).getD i 0 = sys'.size := by
    rw [getD_map_size _ _ hil', List.getElem_set_self]
  have hcm : ((st.starSystems.set i sys').map StarSystem.size).getD m 0
      = ((st.starSystems.set i sys')[m]).size := getD_map_size _ _ hml'
  rw [hcounts] at hci hcm
  unfold Galaxy.assignStep
  rw [hidx]
  dsimp only
  rw [helem]
  dsimp only
  rw [hadd]
  dsimp only
  rw [hm, hidxn, Option.some_bind, hmps]
  dsimp only
  by_cases hgt : sys'.size > ((st.starSystems.set i sys')[m]).size
  · rw [if_pos hgt]
    refine ⟨_, rfl, rfl, by rw [List.length_set]; exact hlen, ?_, ?_⟩
    · simp only [AssignState.planetCounts, tallyStep]
      exact hcounts
    · simp only [tallyStep]
      rw [hci, hcm, if_pos hgt]
  · rw [if_neg hgt]
    refine ⟨_, rfl, rfl, by rw [List.length_set]; exact hlen, ?_, ?_⟩
    · simp only [AssignState.planetCounts, tallyStep]
      exact hcounts
    · simp only [tallyStep]
      rw [hci, hcm, if_neg hgt]

theorem Galaxy.assignLoop_succ (stars n : ℕ) :
    ∀ st : AssignState, Galaxy.assignLoop stars (n + 1) st =
      match Galaxy.assignLoop stars n st with
      | .error e => .error e
      | .ok st' => Galaxy.assignStep stars st' := by
  induction n with
  | zero =>
    intro st
    rw [Galaxy.assignLoop]
    cases h : Galaxy.assignStep stars st with
    | error e => simp only [Galaxy.assignLoop, h]
    | ok st1 => simp only [Galaxy.assignLoop, h]
  | succ n ih =>
    intro st
    rw [Galaxy.assignLoop]
    cases h : Galaxy.assignStep stars st with
    | error e => simp [Galaxy.assignLoop, h]
    | ok st1 =>
      dsimp only
      rw [ih st1]
      conv_rhs => rw [Galaxy.assignLoop, h]

/-! ## Counting planets: one assignment -/

theorem getD_mem (c : List ℕ) (m : ℕ) (hm : m < c.length) : c.getD m 0 ∈ c := by
  rw [List.getD_eq_getElem c 0 hm]
  exact List.getElem_mem hm

theorem getD_set_self (c : List ℕ) (i a : ℕ) (hi : i < c.length) :
    (c.set i a).getD i 0 = a := by
  simp [List.getD_eq_getElem?_getD, List.getElem?_set, hi]

theorem getD_set_ne (c : List ℕ) (i j a : ℕ) (hij : i ≠ j) :
    (c.set i a).getD j 0 = c.getD j 0 := by
  simp [List.getD_eq_getElem?_getD, List.getElem?_set, hij]

theorem tallyStep_length (c : List ℕ) (m i : ℕ) :
    (tallyStep (c, m) i).1.length = c.length := by
  simp [tallyStep]

theorem tallyStep_snd_lt (c : List ℕ) (m i n : ℕ) (hm : m < n) (hi : i < n) :
    (tallyStep (c, m) i).2 < n := by
  simp only [tallyStep]
  split_ifs <;> assumption

theorem tallyStep_sum (c : List ℕ) (m i : ℕ) (hi : i < c.length) :
    (tallyStep (c, m) i).1.sum = c.sum + 1 := by
  simp only [tallyStep]
  rw [List.sum_set, if_pos hi]
  have h := List.sum_take_add_sum_drop c i
  have h2 : (c.drop i).sum = c.getD i 0 + (c.drop (i + 1)).sum := by
    rw [List.drop_eq_getElem_cons hi, List.sum_cons, List.getD_eq_getElem c 0 hi]
  omega

/-- What one assignment does to the largest count `c.getD m 0`: it never drops, the
new reference again holds the largest count, and either the reference and its count
are unchanged or every earlier count is strictly below the new largest count. -/
theorem tallyStep_max (c : List ℕ) (m i : ℕ) (hm : m < c.length) (hi : i < c.length)
    (hmax : ∀ x ∈ c, x ≤ c.getD m 0) :
    (∀ x ∈ (tallyStep (c, m) i).1,
        x ≤ (tallyStep (c, m) i).1.getD (tallyStep (c, m) i).2 0) ∧
      c.getD m 0 ≤ (tallyStep (c, m) i).1.getD (tallyStep (c, m) i).2 0 ∧
      (((tallyStep (c, m) i).2 = m ∧
          (tallyStep (c, m) i).1.getD (tallyStep (c, m) i).2 0 = c.getD m 0) ∨
        (∀ x ∈ c, x < (tallyStep (c, m) i).1.getD (tallyStep (c, m) i).2 0)) := by
  have hci := hmax _ (getD_mem c i hi)
  have hself := getD_set_self c i (c.getD i 0 + 1) hi
  have hmem : ∀ x ∈ c.set i (c.getD i 0 + 1), x = c.getD i 0 + 1 ∨ x ≤ c.getD m 0 := by
    intro x hx
    rcases List.mem_or_eq_of_mem_set hx with h | h
    · exact Or.inr (hmax x h)
    · exact Or.inl h
  simp only [tallyStep]
  by_cases him : i = m
  · subst him
    rw [if_neg (lt_irrefl _), hself]
    refine ⟨?_, by omega, Or.inr ?_⟩
    · intro x hx
      rcases hmem x hx with h | h <;> omega
    · intro x hx
      have := hmax x hx
      omega
  · have hne := getD_set_ne c i m (c.getD i 0 + 1) him
    rw [hself, hne]
    by_cases hgt : c.getD i 0 + 1 > c.getD m 0
    · rw [if_pos hgt, hself]
      refine ⟨?_, by omega, Or.inr ?_⟩
      · intro x hx
        rcases hmem x hx with h | h <;> omega
      · intro x hx
        have := hmax x hx
        omega
    · rw [if_neg hgt, hne]
      refine ⟨?_, le_refl _, Or.inl ⟨rfl, rfl⟩⟩
      intro x hx
      rcases hmem x hx with h | h <;> omega

/-! ## Counting planets: the whole loop -/

theorem tallyAfter_succ (stars : ℕ) (g : Prng) (cm : List ℕ × ℕ) (n : ℕ) :
    tallyAfter stars g cm (n + 1)
      = tallyStep ((tallyAfter stars g cm n).1, (tallyAfter stars g cm n).2)
          (drawnIndex stars (g.skip (8 * n))) := rfl

theorem tallyAfter_spec (stars : ℕ) (hS : 1 ≤ stars) (g : Prng) (hg : g.InRange)
    (c0 : List ℕ) (m0 : ℕ) (hlen : c0.length = stars) (hm0 : m0 < stars)
    (hmax0 : ∀ x ∈ c0, x ≤ c0.getD m0 0) (n : ℕ) :
    (tallyAfter stars g (c0, m0) n).1.length = stars ∧
    (tallyAfter stars g (c0, m0) n).2 < stars ∧
    (tallyAfter stars g (c0, m0) n).1.sum = c0.sum + n ∧
    (∀ k ≤ n, ∀ x ∈ (tallyAfter stars g (c0, m0) k).1,
      x ≤ (tallyAfter stars g (c0, m0) n).1.getD (tallyAfter stars g (c0, m0) n).2 0) ∧
    ∃ k ≤ n,
      (tallyAfter stars g (c0, m0) k).1.getD (tallyAfter stars g (c0, m0) n).2 0
        = (tallyAfter stars g (c0, m0) n).1.getD (tallyAfter stars g (c0, m0) n).2 0 ∧
      (∀ j < k, ∀ x ∈ (tallyAfter stars g (c0, m0) j).1,
        x < (tallyAfter stars g (c0, m0) n).1.getD (tallyAfter stars g (c0, m0) n).2 0) ∧
      (k = 0 → (tallyAfter stars g (c0, m0) n).2 = m0) := by
  induction n with
  | zero =>
    refine ⟨hlen, hm0, rfl, ?_, 0, le_refl _, rfl, ?_, fun _ => rfl⟩
    · intro k hk x hx
      have hk0 : k = 0 := by omega
      subst hk0
      exact hmax0 x hx
    · intro j hj
      omega
  | succ n ih =>
    obtain ⟨ihlen, ihm, ihsum, ihmono, k, hk, hkval, hkbefore, hkzero⟩ := ih
    have hi : drawnIndex stars (g.skip (8 * n)) < stars :=
      (drawnIndex_lt stars hS _ (hg.skip (8 * n))).2
    have hml : (tallyAfter stars g (c0, m0) n).2 < (tallyAfter stars g (c0, m0) n).1.length :=
      lt_of_lt_of_eq ihm ihlen.symm
    have hil : drawnIndex stars (g.skip (8 * n)) < (tallyAfter stars g (c0, m0) n).1.length :=
      lt_of_lt_of_eq hi ihlen.symm
    have hmaxn : ∀ x ∈ (tallyAfter stars g (c0, m0) n).1,
        x ≤ (tallyAfter stars g (c0, m0) n).1.getD (tallyAfter stars g (c0, m0) n).2 0 :=
      ihmono n (le_refl _)
    obtain ⟨smax, smono, scases⟩ := tallyStep_max (tallyAfter stars g (c0, m0) n).1
      (tallyAfter stars g (c0, m0) n).2 (drawnIndex stars (g.skip (8 * n)))
      hml hil hmaxn
    rw [← tallyAfter_succ] at smax smono scases
    refine ⟨?_, ?_, ?_, ?_, ?_⟩
    · rw [tallyAfter_succ, tallyStep_length, ihlen]
    · rw [tallyAfter_succ]
      exact tallyStep_snd_lt _ _ _ _ ihm hi
    · rw [tallyAfter_succ, tallyStep_sum _ _ _ hil, ihsum]
      ring
    · intro j hj x hx
      rcases Nat.lt_or_ge j (n + 1) with hlt | hge
      · exact le_trans (ihmono j (by omega) x hx) smono
      · have hj' : j = n + 1 := by omega
        subst hj'
        exact smax x hx
    · rcases scases with ⟨hsame, hval⟩ | hnew
      · refine ⟨k, by omega, ?_, ?_, ?_⟩
        · rw [hval, hsame]; exact hkval
        · rw [hval]; exact hkbefore
        · intro hk0; rw [hsame]; exact hkzero hk0
      · refine ⟨n + 1, le_refl _, rfl, ?_, ?_⟩
        · intro j hj x hx
          have h1 := ihmono j (by omega) x hx
          have h2 := hnew _ (getD_mem _ _ hml)
          omega
        · intro h; omega

theorem Galaxy.assignLoop_spec (stars : ℕ) (hS : 1 ≤ stars) (st0 : AssignState)
    (hg : st0.g.InRange) (hlen : st0.starSystems.length = stars) (m0 : ℕ)
    (hm0 : st0.mostPopulousSystem = some m0) (hml : m0 < stars) (n : ℕ) :
    ∃ st, Galaxy.assignLoop stars n st0 = .ok st ∧ st.g = st0.g.skip (8 * n) ∧
      st.starSystems.length = stars ∧
      st.planetCounts = (tallyAfter stars st0.g (st0.planetCounts, m0) n).1 ∧
      st.mostPopulousSystem = some (tallyAfter stars st0.g (st0.planetCounts, m0) n).2 ∧
      (tallyAfter stars st0.g (st0.planetCounts, m0) n).2 < stars := by
  induction n with
  | zero => exact ⟨st0, rfl, rfl, hlen, rfl, hm0, hml⟩
  | succ n ih =>
    obtain ⟨st, hrun, hgn, hlenn, hcn, hmn, hmln⟩ := ih
    have hgin : st.g.InRange := by rw [hgn]; exact hg.skip _
    obtain ⟨st', hstep, hg', hlen', hc', hm'⟩ :=
      Galaxy.assignStep_spec stars hS st hgin hlenn _ hmn hmln
    have hidx : drawnIndex stars st.g < stars := (drawnIndex_lt stars hS st.g hgin).2
    refine ⟨st', ?_, ?_, hlen', ?_, ?_, ?_⟩
    · rw [Galaxy.assignLoop_succ, hrun]
      exact hstep
    · rw [hg', hgn, Prng.skip_skip]
      congr 1
    · rw [hc', hcn, hgn, tallyAfter_succ]
    · rw [hm', hcn, hgn, tallyAfter_succ]
    · rw [tallyAfter_succ]
      rw [hgn] at hidx
      exact tallyStep_snd_lt _ _ _ _ hmln hidx

/-! ## Galaxy: construction -/

theorem forCount_spec (bound : ℚ) (i : ℕ) : (i : ℚ) < bound ↔ i < forCount bound := by
  unfold forCount
  rw [Int.lt_toNat, Int.lt_ceil]
  norm_cast

theorem StarSystem.boundsLoop_length (M : MathEnv) (ave ratio : ℚ) :
    ∀ (ps : List Planet) (i : ℕ) (r y : ℚ) (g : Prng),
      (StarSystem.boundsLoop M ave ratio ps i r y g).1.length = ps.length ∧
      (StarSystem.boundsLoop M ave ratio ps i r y g).2 = g.skip (2 * ps.length) := by
  intro ps
  induction ps with
  | nil => intro i r y g; exact ⟨rfl, rfl⟩
  | cons p ps ih =>
    intro i r y g
    obtain ⟨h1, h2⟩ := ih (i + 1) (nextOrbit ave r g) (y * M.pow 2 1.005) (g.skip 2)
    rw [StarSystem.boundsLoop_cons]
    refine ⟨by simp only [List.length_cons, h1], ?_⟩
    show (StarSystem.boundsLoop M ave ratio ps (i + 1) (nextOrbit ave r g)
      (y * M.pow 2 1.005) (g.skip 2)).2 = _
    rw [h2, Prng.skip_skip, List.length_cons]
    congr 1
    ring

theorem StarSystem.establishPlanetBounds_size (M : MathEnv) (sys : StarSystem) (g : Prng) :
    (sys.establishPlanetBounds M g).1.size = sys.size ∧
    (sys.establishPlanetBounds M g).2 = g.skip (2 * sys.size) :=
  StarSystem.boundsLoop_length M _ _ sys.planets 0 0.15 0.25 g

theorem Galaxy.establishAll_counts (M : MathEnv) :
    ∀ (l : List StarSystem) (g : Prng),
      (Galaxy.establishAll M l g).1.map StarSystem.size = l.map StarSystem.size ∧
      (Galaxy.establishAll M l g).2 = g.skip (2 * (l.map StarSystem.size).sum) := by
  intro l
  induction l with
  | nil => intro g; exact ⟨rfl, rfl⟩
  | cons sys rest ih =>
    intro g
    obtain ⟨h1, h2⟩ := StarSystem.establishPlanetBounds_size M sys g
    obtain ⟨h3, h4⟩ := ih (sys.establishPlanetBounds M g).2
    have hunf : Galaxy.establishAll M (sys :: rest) g =
        ((sys.establishPlanetBounds M g).1 ::
            (Galaxy.establishAll M rest (sys.establishPlanetBounds M g).2).1,
          (Galaxy.establishAll M rest (sys.establishPlanetBounds M g).2).2) := rfl
    rw [hunf]
    refine ⟨by simp only [List.map_cons, h1, h3], ?_⟩
    show (Galaxy.establishAll M rest (sys.establishPlanetBounds M g).2).2 = _
    rw [h4, h2, Prng.skip_skip, List.map_cons, List.sum_cons]
    congr 1
    ring

theorem Galaxy.constructor_eq (M : MathEnv) (params : GalaxyParams) (g g1 : Prng)
    (ss : List StarSystem) (st : AssignState)
    (hcs : Galaxy.createSystems params.stars [] g = .ok (ss, g1))
    (hloop : Galaxy.assignLoop params.stars
        (forCount ((params.stars : ℚ) * params.planetStarRatio))
        { starSystems := ss, mostPopulousSystem := if 0 < ss.length then some 0 else none,
          g := g1 } = .ok st) :
    Galaxy.constructor M params g =
      .ok ({ starSystems := (Galaxy.establishAll M st.starSystems st.g).1
             startingSystem := st.mostPopulousSystem
             focusedSystem := st.mostPopulousSystem
             name := params.name },
           (Galaxy.establishAll M st.starSystems st.g).2) := by
  unfold Galaxy.constructor
  rw [hcs]
  dsimp only
  rw [hloop]

/-- The planet counts and the most populous index of a galaxy under construction,
after `k` assignments: all counts start at zero and the reference at system 0. -/
theorem Galaxy.constructor_spec (M : MathEnv) (params : GalaxyParams) (g : Prng)
    (hg : g.InRange) (hS : 1 ≤ params.stars) :
    (∃ gal : Galaxy,
      Galaxy.constructor M params g = .ok (gal, g.skip (13 * params.stars
        + 10 * forCount ((params.stars : ℚ) * params.planetStarRatio))) ∧
      gal.starSystems.length = params.stars ∧
      gal.planetCounts = (tallyAfter params.stars (g.skip (13 * params.stars))
        (List.replicate params.stars 0, 0)
        (forCount ((params.stars : ℚ) * params.planetStarRatio))).1 ∧
      gal.startingSystem = some (tallyAfter params.stars (g.skip (13 * params.stars))
        (List.replicate params.stars 0, 0)
        (forCount ((params.stars : ℚ) * params.planetStarRatio))).2 ∧
      gal.focusedSystem = gal.startingSystem) ∧
    ∀ k, ∃ stk, Galaxy.assignedAfter params g k = .ok stk ∧
      stk.planetCounts = (tallyAfter params.stars (g.skip (13 * params.stars))
        (List.replicate params.stars 0, 0) k).1 := by
  obtain ⟨l, hl, hlen, hzero⟩ := Galaxy.createSystems_ok params.stars [] g hg
  rw [List.nil_append] at hl
  have hcounts : l.map StarSystem.size = List.replicate params.stars 0 := by
    rw [List.eq_replicate_iff]
    refine ⟨by rw [List.length_map, hlen], ?_⟩
    intro b hb
    obtain ⟨s, hs, rfl⟩ := List.mem_map.mp hb
    exact hzero s hs
  have hmp : (if 0 < l.length then some 0 else none : Option ℕ) = some 0 := by
    rw [if_pos]; omega
  have hloop : ∀ n, ∃ st, Galaxy.assignLoop params.stars n
        { starSystems := l, mostPopulousSystem := if 0 < l.length then some 0 else none,
          g := g.skip (13 * params.stars) } = .ok st ∧
      st.g = (g.skip (13 * params.stars)).skip (8 * n) ∧
      st.starSystems.length = params.stars ∧
      st.starSystems.map StarSystem.size = (tallyAfter params.stars
        (g.skip (13 * params.stars)) (List.replicate params.stars 0, 0) n).1 ∧
      st.mostPopulousSystem = some (tallyAfter params.stars
        (g.skip (13 * params.stars)) (List.replicate params.stars 0, 0) n).2 := by
    intro n
    obtain ⟨st, hrun, hgn, hlenn, hcn, hmn, _⟩ := Galaxy.assignLoop_spec params.stars hS
      { starSystems := l, mostPopulousSystem := if 0 < l.length then some 0 else none,
        g := g.skip (13 * params.stars) } (hg.skip _) hlen 0 hmp (by omega) n
    simp only [AssignState.planetCounts] at hcn hmn
    rw [hcounts] at hcn hmn
    exact ⟨st, hrun, hgn, hlenn, hcn, hmn⟩
  constructor
  · obtain ⟨st, hrun, hgn, hlenn, hcn, hmn⟩ :=
      hloop (forCount ((params.stars : ℚ) * params.planetStarRatio))
    have hsum := (tallyAfter_spec params.stars hS (g.skip (13 * params.stars)) (hg.skip _)
      (List.replicate params.stars 0) 0 (List.length_replicate _ _) (by omega)
      (by intro x hx; rw [(List.mem_replicate.mp hx).2]; exact Nat.zero_le _)
      (forCount ((params.stars : ℚ) * params.planetStarRatio))).2.2.1
    obtain ⟨he1, he2⟩ := Galaxy.establishAll_counts M st.starSystems st.g
    refine ⟨{ starSystems := (Galaxy.establishAll M st.starSystems st.g).1
              startingSystem := st.mostPopulousSystem
              focusedSystem := st.mostPopulousSystem
              name := params.name }, ?_, ?_, ?_, hmn, rfl⟩
    · rw [Galaxy.constructor_eq M params g _ l st hl hrun, he2, hcn, hsum, hgn,
        Prng.skip_skip, Prng.skip_skip]
      simp only [List.sum_replicate, smul_eq_mul, mul_zero, zero_add]
      congr 3
      ring
    · show (Galaxy.establishAll M st.starSystems st.g).1.length = _
      rw [← List.length_map _ StarSystem.size, he1, List.length_map]
      exact hlenn
    · show (Galaxy.establishAll M st.starSystems st.g).1.map StarSystem.size = _
      rw [he1]
      exact hcn
  · intro k
    obtain ⟨st, hrun, _, _, hcn, _⟩ := hloop k
    refine ⟨st, ?_, hcn⟩
    unfold Galaxy.assignedAfter
    rw [hl]
    exact hrun

/-! ## Galaxy: the most populated system -/

theorem getElem?_of_getD (l : List ℕ) (m : ℕ) (h : m < l.length) :
    l[m]? = some (l.getD m 0) := by
  rw [List.getElem?_eq_getElem h, List.getD_eq_getElem l 0 h]

theorem replicate_zero_max (n : ℕ) :
    ∀ x ∈ List.replicate n 0, x ≤ (List.replicate n 0).getD 0 0 := by
  intro x hx
  rw [(List.mem_replicate.mp hx).2]
  exact Nat.zero_le _

theorem tiePrng_inRange : tiePrng.InRange := by
  intro n
  simp only [tiePrng]
  split_ifs <;> norm_num

theorem spreadPrng_inRange : spreadPrng.InRange := by
  intro n
  simp only [spreadPrng]
  split_ifs <;> norm_num

theorem tallyAfter_spread :
    tallyAfter 3 (spreadPrng.skip (13 * 3)) (List.replicate 3 0, 0) 10 = ([2, 5, 3], 1) := by
  have h0 : drawnIndex 3 ((spreadPrng.skip (13 * 3)).skip (8 * 0)) = 1 := by
    simp only [drawnIndex, randomSeededIntInRange, Game.prng, spreadPrng, Prng.skip]
    norm_num
  have h1 : drawnIndex 3 ((spreadPrng.skip (13 * 3)).skip (8 * 1)) = 1 := by
    simp only [drawnIndex, randomSeededIntInRange, Game.prng, spreadPrng, Prng.skip]
    norm_num
  have h2 : drawnIndex 3 ((spreadPrng.skip (13 * 3)).skip (8 * 2)) = 1 := by
    simp only [drawnIndex, randomSeededIntInRange, Game.prng, spreadPrng, Prng.skip]
    norm_num
  have h3 : drawnIndex 3 ((spreadPrng.skip (13 * 3)).skip (8 * 3)) = 1 := by
    simp only [drawnIndex, randomSeededIntInRange, Game.prng, spreadPrng, Prng.skip]
    norm_num
  have h4 : drawnIndex 3 ((spreadPrng.skip (13 * 3)).skip (8 * 4)) = 1 := by
    simp only [drawnIndex, randomSeededIntInRange, Game.prng, spreadPrng, Prng.skip]
    norm_num
  have h5 : drawnIndex 3 ((spreadPrng.skip (13 * 3)).skip (8 * 5)) = 0 := by
    simp only [drawnIndex, randomSeededIntInRange, Game.prng, spreadPrng, Prng.skip]
    norm_num
  have h6 : drawnIndex 3 ((spreadPrng.skip (13 * 3)).skip (8 * 6)) = 0 := by
    simp only [drawnIndex, randomSeededIntInRange, Game.prng, spreadPrng, Prng.skip]
    norm_num
  have h7 : drawnIndex 3 ((spreadPrng.skip (13 * 3)).skip (8 * 7)) = 2 := by
    simp only [drawnIndex, randomSeededIntInRange, Game.prng, spreadPrng, Prng.skip]
    norm_num
    rfl
  have h8 : drawnIndex 3 ((spreadPrng.skip (13 * 3)).skip (8 * 8)) = 2 := by
    simp only [drawnIndex, randomSeededIntInRange, Game.prng, spreadPrng, Prng.skip]
    norm_num
    rfl
  have h9 : drawnIndex 3 ((spreadPrng.skip (13 * 3)).skip (8 * 9)) = 2 := by
    simp only [drawnIndex, randomSeededIntInRange, Game.prng, spreadPrng, Prng.skip]
    norm_num
    rfl
  simp only [tallyAfter, h0, h1, h2, h3, h4, h5, h6, h7, h8, h9]
  decide

/-- A galaxy of three stars whose ten planets fall 2, 5 and 3 to the three systems:
the second system is the starting system and the focused system. -/
theorem Galaxy.constructor_spread (M : MathEnv) :
    ∃ (gal : Galaxy) (g' : Prng),
      Galaxy.constructor M { name := "Cerulean Path", stars := 3, planetStarRatio := 10 / 3 }
        spreadPrng = .ok (gal, g') ∧
      gal.planetCounts = [2, 5, 3] ∧ gal.startingSystem = some 1 ∧
      gal.focusedSystem = some 1 := by
  obtain ⟨⟨gal, hrun, _, hcounts, hstart, hfocus⟩, _⟩ := Galaxy.constructor_spec M
    { name := "Cerulean Path", stars := 3, planetStarRatio := 10 / 3 } spreadPrng
    spreadPrng_inRange (by decide)
  have hN : forCount (((3 : ℕ) : ℚ) * (10 / 3)) = 10 := by
    unfold forCount
    norm_num
    rfl
  dsimp only at hcounts hstart
  rw [hN, tallyAfter_spread] at hcounts hstart
  exact ⟨gal, _, hrun, hcounts, hstart, hfocus.trans hstart⟩

/-- C5: for a galaxy with at least one star system and draws in [0,1), construction
succeeds, startingSystem refers to a system whose planet count is at least that of
every system, and focusedSystem is the same system; whenever the final planet counts
are [2,5,3] both are the second system (index 1), and such a galaxy exists. -/
theorem Galaxy.startingSystem_most_populated (M : MathEnv) (params : GalaxyParams)
    (g : Prng) (hg : g.InRange) (hS : 1 ≤ params.stars) :
    (∃ (gal : Galaxy) (g' : Prng) (m top : ℕ),
      Galaxy.constructor M params g = .ok (gal, g') ∧
      gal.startingSystem = some m ∧ gal.focusedSystem = some m ∧
      gal.planetCounts[m]? = some top ∧ (∀ n ∈ gal.planetCounts, n ≤ top) ∧
      (gal.planetCounts = [2, 5, 3] → m = 1)) ∧
    (∃ (gal : Galaxy) (g' : Prng),
      Galaxy.constructor M { name := "Cerulean Path", stars := 3, planetStarRatio := 10 / 3 }
        spreadPrng = .ok (gal, g') ∧
      gal.planetCounts = [2, 5, 3] ∧ gal.startingSystem = some 1 ∧
      gal.focusedSystem = some 1) := by
  refine ⟨?_, Galaxy.constructor_spread M⟩
  obtain ⟨⟨gal, hrun, _, hcounts, hstart, hfocus⟩, _⟩ :=
    Galaxy.constructor_spec M params g hg hS
  obtain ⟨tlen, tm, _, tmono, _⟩ := tallyAfter_spec params.stars hS
    (g.skip (13 * params.stars)) (hg.skip _) (List.replicate params.stars 0) 0
    (List.length_replicate _ _) (by omega) (replicate_zero_max _)
    (forCount ((params.stars : ℚ) * params.planetStarRatio))
  rw [← hcounts] at tlen tmono
  have htop := getElem?_of_getD gal.planetCounts _ (lt_of_lt_of_eq tm tlen.symm)
  have hmax := tmono _ (le_refl _)
  rw [← hcounts] at hmax
  refine ⟨gal, _, _, _, hrun, hstart, hfocus.trans hstart, htop, hmax, ?_⟩
  intro h253
  generalize (tallyAfter params.stars (g.skip (13 * params.stars))
    (List.replicate params.stars 0, 0)
    (forCount ((params.stars : ℚ) * params.planetStarRatio))).2 = m at htop hmax
  generalize gal.planetCounts.getD m 0 = top at htop hmax
  rw [h253] at htop hmax
  have h5 := hmax 5 (by simp)
  rcases m with _ | _ | _ | m
  · simp at htop; omega
  · rfl
  · simp at htop; omega
  · simp at htop

theorem Galaxy.startingSystem_most_populated_witness :
    (∃ (gal : Galaxy) (g' : Prng) (m top : ℕ),
      Galaxy.constructor sampleMath { name := "Cerulean Path", stars := 2, planetStarRatio := 1 }
        tiePrng = .ok (gal, g') ∧
      gal.startingSystem = some m ∧ gal.focusedSystem = some m ∧
      gal.planetCounts[m]? = some top ∧ (∀ n ∈ gal.planetCounts, n ≤ top) ∧
      (gal.planetCounts = [2, 5, 3] → m = 1)) ∧
    (∃ (gal : Galaxy) (g' : Prng),
      Galaxy.constructor sampleMath
        { name := "Cerulean Path", stars := 3, planetStarRatio := 10 / 3 }
        spreadPrng = .ok (gal, g') ∧
      gal.planetCounts = [2, 5, 3] ∧ gal.startingSystem = some 1 ∧
      gal.focusedSystem = some 1) :=
  Galaxy.startingSystem_most_populated sampleMath
    { name := "Cerulean Path", stars := 2, planetStarRatio := 1 } tiePrng
    tiePrng_inRange (by decide)

/-! ## Galaxy: how ties are resolved -/

/-- C6 as stated fails: with two stars and ratio 1, when the first assignment goes to
system 1 and the second to system 0, both systems end with one planet and
startingSystem is system 1, not the earliest-created system 0. -/
theorem Galaxy.tie_kept_by_first_to_reach :
    ∃ (gal : Galaxy) (g' : Prng),
      Galaxy.constructor sampleMath { name := "Cerulean Path", stars := 2, planetStarRatio := 1 }
        tiePrng = .ok (gal, g') ∧
      gal.planetCounts = [1, 1] ∧ gal.startingSystem = some 1 := by
  obtain ⟨⟨gal, hrun, _, hcounts, hstart, _⟩, _⟩ := Galaxy.constructor_spec sampleMath
    { name := "Cerulean Path", stars := 2, planetStarRatio := 1 } tiePrng tiePrng_inRange
    (by decide)
  have hN : forCount (((2 : ℕ) : ℚ) * 1) = 2 := by
    unfold forCount
    norm_num
    rfl
  have h1 : drawnIndex 2 ((tiePrng.skip (13 * 2)).skip (8 * 0)) = 1 := by
    simp only [drawnIndex, randomSeededIntInRange, Game.prng, tiePrng, Prng.skip]
    norm_num
  have h2 : drawnIndex 2 ((tiePrng.skip (13 * 2)).skip (8 * 1)) = 0 := by
    simp only [drawnIndex, randomSeededIntInRange, Game.prng, tiePrng, Prng.skip]
    norm_num
  have hT : tallyAfter 2 (tiePrng.skip (13 * 2)) (List.replicate 2 0, 0) 2 = ([1, 1], 1) := by
    simp only [tallyAfter, h1, h2]
    decide
  dsimp only at hcounts hstart
  rw [hN, hT] at hcounts hstart
  exact ⟨gal, _, hrun, hcounts, hstart⟩

/-- C6, amended: for a galaxy with at least one star system and draws in [0,1),
startingSystem is a system with the largest final planet count `top`, and among the
systems that share it the one that reached `top` first: its count is `top` after some
number k of assignment draws, after fewer than k draws every system is still below
`top`, and if k = 0 (no planet was ever assigned) it is the first system. -/
theorem Galaxy.startingSystem_first_to_reach (M : MathEnv) (params : GalaxyParams)
    (g : Prng) (hg : g.InRange) (hS : 1 ≤ params.stars) :
    ∃ (gal : Galaxy) (g' : Prng) (m top : ℕ),
      Galaxy.constructor M params g = .ok (gal, g') ∧
      gal.startingSystem = some m ∧
      gal.planetCounts[m]? = some top ∧ (∀ n ∈ gal.planetCounts, n ≤ top) ∧
      ∃ k ≤ forCount ((params.stars : ℚ) * params.planetStarRatio),
        (∃ stk, Galaxy.assignedAfter params g k = .ok stk ∧
          stk.planetCounts[m]? = some top) ∧
        (∀ j < k, ∃ stj, Galaxy.assignedAfter params g j = .ok stj ∧
          ∀ n ∈ stj.planetCounts, n < top) ∧
        (k = 0 → m = 0) := by
  obtain ⟨⟨gal, hrun, _, hcounts, hstart, _⟩, hhist⟩ :=
    Galaxy.constructor_spec M params g hg hS
  have hspec := tallyAfter_spec params.stars hS
    (g.skip (13 * params.stars)) (hg.skip _) (List.replicate params.stars 0) 0
    (List.length_replicate _ _) (by omega) (replicate_zero_max _)
  obtain ⟨tlen, tm, _, tmono, k, hk, hkval, hkbefore, hkzero⟩ :=
    hspec (forCount ((params.stars : ℚ) * params.planetStarRatio))
  have htop := getElem?_of_getD _ _ (lt_of_lt_of_eq tm tlen.symm)
  have hmax := tmono _ (le_refl _)
  rw [← hcounts] at htop hmax
  refine ⟨gal, _, _, _, hrun, hstart, htop, ?_, k, hk, ?_, ?_, hkzero⟩
  · exact hmax
  · obtain ⟨stk, hstk, hck⟩ := hhist k
    refine ⟨stk, hstk, ?_⟩
    rw [hck, hcounts, ← hkval]
    exact getElem?_of_getD _ _ (lt_of_lt_of_eq tm (hspec k).1.symm)
  · intro j hj
    obtain ⟨stj, hstj, hcj⟩ := hhist j
    refine ⟨stj, hstj, ?_⟩
    rw [hcj, hcounts]
    exact hkbefore j hj

theorem Galaxy.startingSystem_first_to_reach_witness :
    ∃ (gal : Galaxy) (g' : Prng) (m top : ℕ),
      Galaxy.constructor sampleMath { name := "Cerulean Path", stars := 2, planetStarRatio := 1 }
        tiePrng = .ok (gal, g') ∧
      gal.startingSystem = some m ∧
      gal.planetCounts[m]? = some top ∧ (∀ n ∈ gal.planetCounts, n ≤ top) ∧
      ∃ k ≤ forCount (((2 : ℕ) : ℚ) * 1),
        (∃ stk, Galaxy.assignedAfter
            { name := "Cerulean Path", stars := 2, planetStarRatio := 1 } tiePrng k = .ok stk ∧
          stk.planetCounts[m]? = some top) ∧
        (∀ j < k, ∃ stj, Galaxy.assignedAfter
            { name := "Cerulean Path", stars := 2, planetStarRatio := 1 } tiePrng j = .ok stj ∧
          ∀ n ∈ stj.planetCounts, n < top) ∧
        (k = 0 → m = 0) :=
  Galaxy.startingSystem_first_to_reach sampleMath
    { name := "Cerulean Path", stars := 2, planetStarRatio := 1 } tiePrng
    tiePrng_inRange (by decide)

/-! ## Galaxy: how many systems and planets -/

/-- C7 as stated fails: with one star and ratio 5/2 the loop condition `i < 2.5` holds
for i = 0, 1, 2, so three planets are created, while floor(1 * 5/2) = 2. -/
theorem Galaxy.fractional_ratio_rounds_up :
    ∃ (gal : Galaxy) (g' : Prng),
      Galaxy.constructor sampleMath
        { name := "Cerulean Path", stars := 1, planetStarRatio := 5 / 2 }
        (constPrng 0) = .ok (gal, g') ∧
      gal.planetCounts.sum = 3 ∧ ⌊((1 : ℕ) : ℚ) * (5 / 2)⌋ = 2 := by
  obtain ⟨⟨gal, hrun, _, hcounts, _, _⟩, _⟩ := Galaxy.constructor_spec sampleMath
    { name := "Cerulean Path", stars := 1, planetStarRatio := 5 / 2 } (constPrng 0)
    (constPrng_inRange 0 (le_refl _) (by norm_num)) (by decide)
  have hsum := (tallyAfter_spec 1 (le_refl _) ((constPrng 0).skip (13 * 1))
    ((constPrng_inRange 0 (le_refl _) (by norm_num)).skip _) (List.replicate 1 0) 0
    (List.length_replicate _ _) (by omega) (replicate_zero_max _)
    (forCount (((1 : ℕ) : ℚ) * (5 / 2)))).2.2.1
  have hN : forCount (((1 : ℕ) : ℚ) * (5 / 2)) = 3 := by
    unfold forCount
    rw [show (((1 : ℕ) : ℚ) * (5 / 2)) = 5 / 2 by norm_num]
    have : ⌈(5 / 2 : ℚ)⌉ = 3 := by
      rw [Int.ceil_eq_iff]; norm_num
    rw [this]; rfl
  dsimp only at hcounts
  refine ⟨gal, _, hrun, ?_, ?_⟩
  · rw [hcounts, hsum, hN]; rfl
  · rw [Int.floor_eq_iff]; norm_num

/-- C7, amended: for a star count S >= 1 and a ratio R >= 0, with draws in [0,1),
construction creates exactly S star systems and performs one assignment for every
integer i >= 0 with i < S*R, that is ceil(S*R) of them, so the systems hold
ceil(S*R) planets in total; this is S*R when S*R is an integer.  The generator
advances by 13 draws per system and 10 per planet. -/
theorem Galaxy.constructor_counts (M : MathEnv) (params : GalaxyParams) (g : Prng)
    (hg : g.InRange) (hS : 1 ≤ params.stars) (_hR : 0 ≤ params.planetStarRatio) :
    ∃ gal : Galaxy,
      Galaxy.constructor M params g = .ok (gal, g.skip (13 * params.stars
        + 10 * ⌈(params.stars : ℚ) * params.planetStarRatio⌉.toNat)) ∧
      gal.starSystems.length = params.stars ∧
      gal.planetCounts.sum = ⌈(params.stars : ℚ) * params.planetStarRatio⌉.toNat ∧
      (∀ i : ℕ, (i : ℚ) < (params.stars : ℚ) * params.planetStarRatio ↔
        i < ⌈(params.stars : ℚ) * params.planetStarRatio⌉.toNat) ∧
      (∀ n : ℕ, (params.stars : ℚ) * params.planetStarRatio = n →
        gal.planetCounts.sum = n) := by
  obtain ⟨⟨gal, hrun, hlen, hcounts, _, _⟩, _⟩ := Galaxy.constructor_spec M params g hg hS
  have hsum := (tallyAfter_spec params.stars hS (g.skip (13 * params.stars)) (hg.skip _)
    (List.replicate params.stars 0) 0 (List.length_replicate _ _) (by omega)
    (replicate_zero_max _) (forCount ((params.stars : ℚ) * params.planetStarRatio))).2.2.1
  have htotal : gal.planetCounts.sum = ⌈(params.stars : ℚ) * params.planetStarRatio⌉.toNat := by
    rw [hcounts, hsum]
    simp only [List.sum_replicate, smul_eq_mul, mul_zero, zero_add]
    rfl
  refine ⟨gal, hrun, hlen, htotal, fun i => forCount_spec _ i, ?_⟩
  intro n hn
  rw [htotal, hn, Int.ceil_natCast, Int.toNat_natCast]

theorem Galaxy.constructor_counts_witness :
    ∃ gal : Galaxy,
      Galaxy.constructor sampleMath
        { name := "Cerulean Path", stars := 1, planetStarRatio := 5 / 2 } (constPrng 0)
        = .ok (gal, (constPrng 0).skip (13 * 1 + 10 * ⌈((1 : ℕ) : ℚ) * (5 / 2)⌉.toNat)) ∧
      gal.starSystems.length = 1 ∧
      gal.planetCounts.sum = ⌈((1 : ℕ) : ℚ) * (5 / 2)⌉.toNat ∧
      (∀ i : ℕ, (i : ℚ) < ((1 : ℕ) : ℚ) * (5 / 2) ↔
        i < ⌈((1 : ℕ) : ℚ) * (5 / 2)⌉.toNat) ∧
      (∀ n : ℕ, ((1 : ℕ) : ℚ) * (5 / 2) = n → gal.planetCounts.sum = n) :=
  Galaxy.constructor_counts sampleMath
    { name := "Cerulean Path", stars := 1, planetStarRatio := 5 / 2 } (constPrng 0)
    (constPrng_inRange 0 (le_refl _) (by norm_num)) (by decide) (by norm_num)

/-! ## Colour generation is safe -/

/-- C16: for integer lower bounds 0 <= lowerSBound <= 100 and 0 <= lowerLBound <= 100
and any three draws in [0,1), `randomCelestialBodyColor` does not raise: it takes
exactly three draws and returns hsl with h in [0,360], s in [lowerSBound,100] and
l in [lowerLBound,100], together with rgb = HSLtoRGB(h,s,l). -/
theorem randomCelestialBodyColor_safe (lowerSBound lowerLBound : ℤ)
    (hsb : 0 ≤ lowerSBound ∧ lowerSBound ≤ 100) (hlb : 0 ≤ lowerLBound ∧ lowerLBound ≤ 100)
    (g : Prng) (hd : ∀ i < 3, 0 ≤ g.draws (g.pos + i) ∧ g.draws (g.pos + i) < 1) :
    ∃ col : Color, randomCelestialBodyColor lowerSBound lowerLBound g = .ok (col, g.skip 3) ∧
      (0 ≤ col.hsl.h ∧ col.hsl.h ≤ 360) ∧ (lowerSBound ≤ col.hsl.s ∧ col.hsl.s ≤ 100) ∧
      (lowerLBound ≤ col.hsl.l ∧ col.hsl.l ≤ 100) ∧
      HSLtoRGB col.hsl.h col.hsl.s col.hsl.l = .ok col.rgb := by
  have hh : 0 ≤ (randomSeededIntInRange 0 360 g).1 ∧ (randomSeededIntInRange 0 360 g).1 ≤ 360 :=
    intInRange_bounds (g.draws (g.pos + 0)) 0 360 (by decide) (hd 0 (by decide))
  have hs : lowerSBound ≤ (randomSeededIntInRange lowerSBound 100 (g.skip 1)).1 ∧
      (randomSeededIntInRange lowerSBound 100 (g.skip 1)).1 ≤ 100 :=
    intInRange_bounds (g.draws (g.pos + 1)) lowerSBound 100 hsb.2 (hd 1 (by decide))
  have hl : lowerLBound ≤ (randomSeededIntInRange lowerLBound 100 (g.skip 2)).1 ∧
      (randomSeededIntInRange lowerLBound 100 (g.skip 2)).1 ≤ 100 :=
    intInRange_bounds (g.draws (g.pos + 2)) lowerLBound 100 hlb.2 (hd 2 (by decide))
  have hs0 : 0 ≤ (randomSeededIntInRange lowerSBound 100 (g.skip 1)).1 := le_trans hsb.1 hs.1
  have hl0 : 0 ≤ (randomSeededIntInRange lowerLBound 100 (g.skip 2)).1 := le_trans hlb.1 hl.1
  obtain ⟨r, gr, b, hok, _⟩ := HSLtoRGB_ok_of_valid
    ((randomSeededIntInRange 0 360 g).1 : ℚ)
    ((randomSeededIntInRange lowerSBound 100 (g.skip 1)).1 : ℚ)
    ((randomSeededIntInRange lowerLBound 100 (g.skip 2)).1 : ℚ)
    ⟨by exact_mod_cast hh.1, by exact_mod_cast hh.2⟩
    ⟨by exact_mod_cast hs0, by exact_mod_cast hs.2⟩
    ⟨by exact_mod_cast hl0, by exact_mod_cast hl.2⟩
  have key : randomCelestialBodyColor lowerSBound lowerLBound g =
      match HSLtoRGB ((randomSeededIntInRange 0 360 g).1 : ℚ)
          ((randomSeededIntInRange lowerSBound 100 (g.skip 1)).1 : ℚ)
          ((randomSeededIntInRange lowerLBound 100 (g.skip 2)).1 : ℚ) with
      | .error e => .error e
      | .ok rgb => .ok ({ hsl := { h := (randomSeededIntInRange 0 360 g).1
                                   s := (randomSeededIntInRange lowerSBound 100 (g.skip 1)).1
                                   l := (randomSeededIntInRange lowerLBound 100 (g.skip 2)).1 },
                          rgb := rgb }, g.skip 3) := rfl
  refine ⟨{ hsl := { h := (randomSeededIntInRange 0 360 g).1
                     s := (randomSeededIntInRange lowerSBound 100 (g.skip 1)).1
                     l := (randomSeededIntInRange lowerLBound 100 (g.skip 2)).1 },
            rgb := [r, gr, b] }, ?_, hh, hs, hl, hok⟩
  rw [key, hok]

theorem randomCelestialBodyColor_safe_witness :
    ∃ col : Color, randomCelestialBodyColor 75 75 (constPrng (1 / 2))
        = .ok (col, (constPrng (1 / 2)).skip 3) ∧
      (0 ≤ col.hsl.h ∧ col.hsl.h ≤ 360) ∧ (75 ≤ col.hsl.s ∧ col.hsl.s ≤ 100) ∧
      (75 ≤ col.hsl.l ∧ col.hsl.l ≤ 100) ∧
      HSLtoRGB col.hsl.h col.hsl.s col.hsl.l = .ok col.rgb :=
  randomCelestialBodyColor_safe 75 75 (by decide) (by decide) (constPrng (1 / 2))
    (fun _ _ => by simp only [constPrng]; norm_num)

/-! ## StarSystem without planets -/

/-- C18: for a StarSystem with zero planets `establishPlanetBounds()` is a no-op: it
returns (no error is raised), the system is unchanged and no draw is taken. -/
theorem StarSystem.establishPlanetBounds_empty (M : MathEnv) (sys : StarSystem) (g : Prng)
    (h : sys.planets = []) : sys.establishPlanetBounds M g = (sys, g) := by
  cases sys with
  | mk name planets fillColor strokeColor solarMass =>
    simp only at h
    subst h
    rfl

theorem StarSystem.establishPlanetBounds_empty_witness :
    ({ sampleSystem with planets := [] } : StarSystem).establishPlanetBounds sampleMath tiePrng
      = ({ sampleSystem with planets := [] }, tiePrng) :=
  StarSystem.establishPlanetBounds_empty sampleMath { sampleSystem with planets := [] }
    tiePrng rfl

/-! ## The out-of-bounds pointer -/

/-- C11 as stated fails: a planet at (0,0) with draw radius 2000 has a bounding box that
contains the sentinel (-1000,-1000), so `mouseIsOver(MOUSE_OUT_OF_BOUNDS)` is true. -/
theorem Planet.sentinel_inside_large_box :
    ((orbitingPlanet.setDrawRadius 2000).setPosition { x := 0, y := 0 }).mouseIsOver
      Game.MOUSE_OUT_OF_BOUNDS = true := by
  simp only [Planet.mouseIsOver, Planet.setPosition, Planet.setDrawRadius,
    Game.MOUSE_OUT_OF_BOUNDS]
  norm_num

/-- C11, amended: `mouseIsOver(MOUSE_OUT_OF_BOUNDS)` is true exactly when the planet has
a bounding box that strictly contains (-1000,-1000); so it is false for every planet
placed by `setPosition` at a point whose x or y coordinate minus the draw radius is at
least -1000 (and for every planet without a draw radius), in particular for a planet
at non-negative coordinates with a draw radius of at most 1000. -/
theorem Planet.mouseIsOver_sentinel (p : Planet) (pos : Point)
    (h : ∀ r, p.drawRadius = some r → -1000 ≤ pos.x - r ∨ -1000 ≤ pos.y - r) :
    (p.setPosition pos).mouseIsOver Game.MOUSE_OUT_OF_BOUNDS = false ∧
    (∀ q : Planet, q.mouseIsOver Game.MOUSE_OUT_OF_BOUNDS = true ↔
      ∃ bb, q.boundingBox = some bb ∧ bb.topLeft.x < -1000 ∧ -1000 < bb.bottomRight.x ∧
        bb.topLeft.y < -1000 ∧ -1000 < bb.bottomRight.y) ∧
    (∀ r, p.drawRadius = some r → 0 ≤ pos.x → 0 ≤ pos.y → r ≤ 1000 →
      (p.setPosition pos).mouseIsOver Game.MOUSE_OUT_OF_BOUNDS = false) := by
  have key : ∀ q : Planet, q.mouseIsOver Game.MOUSE_OUT_OF_BOUNDS = true ↔
      ∃ bb, q.boundingBox = some bb ∧ bb.topLeft.x < -1000 ∧ -1000 < bb.bottomRight.x ∧
        bb.topLeft.y < -1000 ∧ -1000 < bb.bottomRight.y := by
    intro q
    unfold Planet.mouseIsOver
    cases hb : q.boundingBox with
    | none => simp
    | some bb =>
      simp only [Game.MOUSE_OUT_OF_BOUNDS, Bool.and_eq_true, decide_eq_true_eq, gt_iff_lt,
        Option.some.injEq, exists_eq_left']
      tauto
  have main : ∀ hyp : (∀ r, p.drawRadius = some r → -1000 ≤ pos.x - r ∨ -1000 ≤ pos.y - r),
      (p.setPosition pos).mouseIsOver Game.MOUSE_OUT_OF_BOUNDS = false := by
    intro hyp
    rw [← Bool.not_eq_true, key]
    rintro ⟨bb, hbb, h1, _, h3, _⟩
    cases hr : p.drawRadius with
    | none => simp [Planet.setPosition, hr] at hbb
    | some r =>
      by_cases hr0 : r = 0
      · simp [Planet.setPosition, hr, hr0] at hbb
      · simp only [Planet.setPosition, hr, ne_eq, hr0, not_false_eq_true, if_true,
          Option.some.injEq] at hbb
        subst hbb
        simp only at h1 h3
        rcases hyp r hr with h' | h' <;> linarith
  refine ⟨main h, key, ?_⟩
  intro r hr hx hy hr1
  apply main
  intro r' hr'
  rw [hr] at hr'
  cases hr'
  left
  linarith

theorem Planet.mouseIsOver_sentinel_witness :
    ((orbitingPlanet.setDrawRadius 5).setPosition ⟨40, 30⟩).mouseIsOver
        Game.MOUSE_OUT_OF_BOUNDS = false ∧
    (∀ q : Planet, q.mouseIsOver Game.MOUSE_OUT_OF_BOUNDS = true ↔
      ∃ bb, q.boundingBox = some bb ∧ bb.topLeft.x < -1000 ∧ -1000 < bb.bottomRight.x ∧
        bb.topLeft.y < -1000 ∧ -1000 < bb.bottomRight.y) ∧
    (∀ r, (orbitingPlanet.setDrawRadius 5).drawRadius = some r →
      0 ≤ (⟨40, 30⟩ : Point).x → 0 ≤ (⟨40, 30⟩ : Point).y → r ≤ 1000 →
      ((orbitingPlanet.setDrawRadius 5).setPosition ⟨40, 30⟩).mouseIsOver
        Game.MOUSE_OUT_OF_BOUNDS = false) :=
  Planet.mouseIsOver_sentinel (orbitingPlanet.setDrawRadius 5) ⟨40, 30⟩
    (by
      intro r hr
      have : r = 5 := by
        simp only [Planet.setDrawRadius, Option.some.injEq] at hr
        exact hr.symm
      subst this
      left
      norm_num)

/-! ## StarSystem: name and mass -/

theorem digit_toString (a : ℤ) (h0 : 0 ≤ a) (h9 : a ≤ 9) :
    ∃ ch : Char, toString a = String.singleton ch ∧ 48 ≤ ch.toNat ∧ ch.toNat ≤ 57 := by
  interval_cases a <;> exact ⟨_, rfl, by decide, by decide⟩

theorem fromCharCode_upper (a : ℤ) (h0 : 65 ≤ a) (h1 : a ≤ 90) :
    65 ≤ (fromCharCode a).toNat ∧ (fromCharCode a).toNat ≤ 90 := by
  interval_cases a <;> decide

theorem StarSystem.constructor_value (g : Prng) (hg : g.InRange) :
    ∃ fill stroke : Color, StarSystem.constructor g = .ok
      ({ name := (StarSystem.nameDigits 3 (StarSystem.nameLetters 3 "" g).1 (g.skip 3)).1
         planets := []
         fillColor := fill
         strokeColor := stroke
         solarMass := ((randomSeededIntInRange 50 150 (g.skip 12)).1 : ℚ) / 100 },
       g.skip 13) := by
  obtain ⟨n1, hn1, hn1v⟩ : ∃ n1, StarSystem.nameLetters 3 "" g = (n1, g.skip 3) ∧
      n1 = (StarSystem.nameLetters 3 "" g).1 :=
    ⟨_, Prod.ext rfl (StarSystem.nameLetters_snd 3 "" g), rfl⟩
  obtain ⟨n2, hn2, hn2v⟩ : ∃ n2, StarSystem.nameDigits 3 n1 (g.skip 3) = (n2, g.skip 6) ∧
      n2 = (StarSystem.nameDigits 3 n1 (g.skip 3)).1 :=
    ⟨_, Prod.ext rfl (StarSystem.nameDigits_snd 3 n1 (g.skip 3)), rfl⟩
  obtain ⟨c1, h1, _⟩ :=
    randomCelestialBodyColor_ok 75 75 (by decide) (by decide) (g.skip 6) (hg.skip 6)
  obtain ⟨c2, h2, _⟩ :=
    randomCelestialBodyColor_ok 50 25 (by decide) (by decide) ((g.skip 6).skip 3)
      ((hg.skip 6).skip 3)
  refine ⟨c1, c2, ?_⟩
  rw [← hn1v, ← hn2v]
  unfold StarSystem.constructor
  rw [hn1]
  dsimp only
  rw [hn2]
  dsimp only
  rw [h1]
  dsimp only
  rw [h2]
  rfl

/-- C17: with draws in [0,1), a newly constructed StarSystem has a name of exactly 6
characters, the first three with codes 65-90 (uppercase ASCII letters) and the last
three with codes 48-57 (the decimal digits 0-9), has no planets, and has a solarMass
in [0.5, 1.5]; the constructor takes 13 draws. -/
theorem StarSystem.constructor_name_and_mass (g : Prng) (hg : g.InRange) :
    ∃ (sys : StarSystem) (l1 l2 l3 d1 d2 d3 : Char),
      StarSystem.constructor g = .ok (sys, g.skip 13) ∧
      sys.name.data = [l1, l2, l3, d1, d2, d3] ∧ sys.name.length = 6 ∧
      (65 ≤ l1.toNat ∧ l1.toNat ≤ 90) ∧ (65 ≤ l2.toNat ∧ l2.toNat ≤ 90) ∧
      (65 ≤ l3.toNat ∧ l3.toNat ≤ 90) ∧
      (48 ≤ d1.toNat ∧ d1.toNat ≤ 57) ∧ (48 ≤ d2.toNat ∧ d2.toNat ≤ 57) ∧
      (48 ≤ d3.toNat ∧ d3.toNat ≤ 57) ∧
      sys.planets = [] ∧ 1 / 2 ≤ sys.solarMass ∧ sys.solarMass ≤ 3 / 2 := by
  obtain ⟨fill, stroke, hrun⟩ := StarSystem.constructor_value g hg
  have hl1 := randomSeededIntInRange_mem 65 90 (by decide) g hg
  have hl2 := randomSeededIntInRange_mem 65 90 (by decide) (g.skip 1) (hg.skip 1)
  have hl3 := randomSeededIntInRange_mem 65 90 (by decide) (g.skip 2) (hg.skip 2)
  have hd1 := randomSeededIntInRange_mem 0 9 (by decide) (g.skip 3) (hg.skip 3)
  have hd2 := randomSeededIntInRange_mem 0 9 (by decide) ((g.skip 3).skip 1)
    ((hg.skip 3).skip 1)
  have hd3 := randomSeededIntInRange_mem 0 9 (by decide) ((g.skip 3).skip 2)
    ((hg.skip 3).skip 2)
  have hm := randomSeededIntInRange_mem 50 150 (by decide) (g.skip 12) (hg.skip 12)
  obtain ⟨e1, he1, he1b⟩ := digit_toString _ hd1.1 hd1.2
  obtain ⟨e2, he2, he2b⟩ := digit_toString _ hd2.1 hd2.2
  obtain ⟨e3, he3, he3b⟩ := digit_toString _ hd3.1 hd3.2
  have hname : (StarSystem.nameDigits 3 (StarSystem.nameLetters 3 "" g).1 (g.skip 3)).1
      = "" ++ String.singleton (fromCharCode (randomSeededIntInRange 65 90 g).1)
          ++ String.singleton (fromCharCode (randomSeededIntInRange 65 90 (g.skip 1)).1)
          ++ String.singleton (fromCharCode (randomSeededIntInRange 65 90 (g.skip 2)).1)
          ++ toString (randomSeededIntInRange 0 9 (g.skip 3)).1
          ++ toString (randomSeededIntInRange 0 9 ((g.skip 3).skip 1)).1
          ++ toString (randomSeededIntInRange 0 9 ((g.skip 3).skip 2)).1 := rfl
  have hdata : (StarSystem.nameDigits 3 (StarSystem.nameLetters 3 "" g).1 (g.skip 3)).1.data
      = [fromCharCode (randomSeededIntInRange 65 90 g).1,
         fromCharCode (randomSeededIntInRange 65 90 (g.skip 1)).1,
         fromCharCode (randomSeededIntInRange 65 90 (g.skip 2)).1, e1, e2, e3] := by
    rw [hname, he1, he2, he3]
    simp only [String.data_append]
    rfl
  have hmq : ((50 : ℤ) : ℚ) ≤ ((randomSeededIntInRange 50 150 (g.skip 12)).1 : ℚ) :=
    Int.cast_le.mpr hm.1
  have hmq' : ((randomSeededIntInRange 50 150 (g.skip 12)).1 : ℚ) ≤ ((150 : ℤ) : ℚ) :=
    Int.cast_le.mpr hm.2
  push_cast at hmq hmq'
  refine ⟨_, _, _, _, e1, e2, e3, hrun, hdata, ?_, fromCharCode_upper _ hl1.1 hl1.2,
    fromCharCode_upper _ hl2.1 hl2.2, fromCharCode_upper _ hl3.1 hl3.2, he1b, he2b, he3b,
    rfl, ?_, ?_⟩
  · show (StarSystem.nameDigits 3 (StarSystem.nameLetters 3 "" g).1 (g.skip 3)).1.data.length = 6
    rw [hdata]
    rfl
  · show (1 : ℚ) / 2 ≤ ((randomSeededIntInRange 50 150 (g.skip 12)).1 : ℚ) / 100
    rw [le_div_iff₀ (by norm_num)]
    linarith
  · show ((randomSeededIntInRange 50 150 (g.skip 12)).1 : ℚ) / 100 ≤ 3 / 2
    rw [div_le_iff₀ (by norm_num)]
    linarith

theorem StarSystem.constructor_name_and_mass_witness :
    ∃ (sys : StarSystem) (l1 l2 l3 d1 d2 d3 : Char),
      StarSystem.constructor (constPrng (1 / 2)) = .ok (sys, (constPrng (1 / 2)).skip 13) ∧
      sys.name.data = [l1, l2, l3, d1, d2, d3] ∧ sys.name.length = 6 ∧
      (65 ≤ l1.toNat ∧ l1.toNat ≤ 90) ∧ (65 ≤ l2.toNat ∧ l2.toNat ≤ 90) ∧
      (65 ≤ l3.toNat ∧ l3.toNat ≤ 90) ∧
      (48 ≤ d1.toNat ∧ d1.toNat ≤ 57) ∧ (48 ≤ d2.toNat ∧ d2.toNat ≤ 57) ∧
      (48 ≤ d3.toNat ∧ d3.toNat ≤ 57) ∧
      sys.planets = [] ∧ 1 / 2 ≤ sys.solarMass ∧ sys.solarMass ≤ 3 / 2 :=
  StarSystem.constructor_name_and_mass (constPrng (1 / 2))
    (constPrng_inRange _ (by norm_num) (by norm_num))

/-! ## StarSystem: the values given to each planet -/

theorem nextOrbit_eq_min (ave r : ℚ) (g : Prng) :
    nextOrbit ave r g = min 1 (r + shellOffset ave g) := by
  unfold nextOrbit
  split_ifs with h
  · exact (min_eq_left h.le).symm
  · exact (min_eq_right (not_lt.mp h)).symm

theorem min_one_add_nonneg (a s : ℚ) (hs : 0 ≤ s) : min 1 (min 1 a + s) = min 1 (a + s) := by
  rcases le_total 1 a with h | h
  · rw [min_eq_left h, min_eq_left (by linarith), min_eq_left (by linarith)]
  · rw [min_eq_right h]

theorem shellOffset_sum_shift (ave : ℚ) (g : Prng) (k : ℕ) :
    ∑ j in Finset.range (k + 1), shellOffset ave (g.skip (2 * j))
      = shellOffset ave g + ∑ j in Finset.range k, shellOffset ave ((g.skip 2).skip (2 * j)) := by
  rw [Finset.sum_range_succ', add_comm]
  congr 1
  apply Finset.sum_congr rfl
  intro j _
  rw [Prng.skip_skip]
  congr 2
  ring

/-- The fields that `establishPlanetBounds` gives to the planet `k` places after the
current one, in terms of the loop variables at the current iteration. -/
theorem StarSystem.boundsLoop_values (M : MathEnv) (ave ratio : ℚ) (have0 : 0 ≤ ave) :
    ∀ (ps : List Planet) (i : ℕ) (r y : ℚ) (g : Prng), g.InRange → 0 < r → r ≤ 1 →
      ∀ (k : ℕ) (p : Planet),
        (StarSystem.boundsLoop M ave ratio ps i r y g).1[k]? = some p →
        p.orbitalRadius
            = some (min 1 (r + ∑ j in Finset.range k, shellOffset ave (g.skip (2 * j)))) ∧
          p.planetaryRadius
            = some (shellOffset ave (g.skip (2 * k)) * (0.5 + (((i + k : ℕ) : ℚ) + 1) * ratio)) ∧
          p.yearLength = some ((⌊570 * (y * M.pow 2 1.005 ^ k)⌋ : ℤ) : ℚ) ∧
          p.initialAngularPosition = some (g.draws (g.pos + (2 * k + 1)) * M.PI * 2) ∧
          p.angularPosition = some (g.draws (g.pos + (2 * k + 1)) * M.PI * 2) := by
  intro ps
  induction ps with
  | nil =>
    intro i r y g _ _ _ k p hp
    simp [StarSystem.boundsLoop] at hp
  | cons q ps ih =>
    intro i r y g hg hr0 hr1 k p hp
    rw [StarSystem.boundsLoop_cons] at hp
    cases k with
    | zero =>
      simp only [List.getElem?_cons_zero, Option.some.injEq] at hp
      subst hp
      refine ⟨?_, ?_, ?_, rfl, rfl⟩
      · simp only [Planet.initialise, Finset.range_zero, Finset.sum_empty, add_zero]
        rw [min_eq_right hr1]
      · simp only [Planet.initialise, Nat.add_zero, Nat.mul_zero]
        rfl
      · simp only [Planet.initialise, pow_zero, mul_one]
    | succ k =>
      simp only [List.getElem?_cons_succ] at hp
      have hr' := nextOrbit_bounds ave r have0 g hg hr0 hr1
      obtain ⟨h1, h2, h3, h4, h5⟩ := ih (i + 1) (nextOrbit ave r g) (y * M.pow 2 1.005)
        (g.skip 2) (hg.skip 2) hr'.1 hr'.2.1 k p hp
      have hsum : 0 ≤ ∑ j in Finset.range k, shellOffset ave ((g.skip 2).skip (2 * j)) :=
        Finset.sum_nonneg (fun j _ => shellOffset_nonneg ave have0 _ ((hg.skip 2).skip _))
      refine ⟨?_, ?_, ?_, ?_, ?_⟩
      · rw [h1, shellOffset_sum_shift, nextOrbit_eq_min, min_one_add_nonneg _ _ hsum, add_assoc]
      · rw [h2, Prng.skip_skip]
        have e1 : 2 + 2 * k = 2 * (k + 1) := by ring
        have e2 : i + 1 + k = i + (k + 1) := by ring
        rw [e1, e2]
      · rw [h3]
        congr 3
        ring
      · rw [h4]
        have e : (g.skip 2).pos + (2 * k + 1) = g.pos + (2 * (k + 1) + 1) := by
          simp only [Prng.skip]; ring
        rw [e]
        rfl
      · rw [h5]
        have e : (g.skip 2).pos + (2 * k + 1) = g.pos + (2 * (k + 1) + 1) := by
          simp only [Prng.skip]; ring
        rw [e]
        rfl

/-! ## StarSystem: orbital and planetary radius of each planet -/

theorem drawnVariance_mem (g : Prng) (hg : g.InRange) (j : ℕ) :
    -20 ≤ drawnVariance g j ∧ drawnVariance g j ≤ 20 := by
  have h := randomSeededIntInRange_mem 0 40 (by decide) (g.skip (2 * j)) (hg.skip _)
  unfold drawnVariance
  constructor <;> omega

theorem shellOffset_eq (ave : ℚ) (g : Prng) (j : ℕ) :
    shellOffset ave (g.skip (2 * j)) = ave * (1 + (drawnVariance g j : ℚ) / 100) := by
  unfold shellOffset drawnVariance
  ring

theorem planetaryRadius_bounds (n u t : ℚ) (hn : 1 ≤ n) (hu0 : 4 / 5 ≤ u) (hu1 : u ≤ 6 / 5)
    (ht0 : 0 < t) (ht1 : t ≤ n) :
    0.32 / n < 0.8 / n * u * (0.5 + t / (2 * n)) ∧ 0.8 / n * u * (0.5 + t / (2 * n)) ≤ 0.96 / n := by
  have hn0 : 0 < n := by linarith
  have hq0 : 0 < t / (2 * n) := div_pos ht0 (by linarith)
  have hq1 : t / (2 * n) ≤ 1 / 2 := by
    rw [div_le_iff₀ (by linarith)]
    linarith
  have hprod0 : (2 : ℚ) / 5 < u * (0.5 + t / (2 * n)) := by
    norm_num
    nlinarith
  have hprod1 : u * (0.5 + t / (2 * n)) ≤ 6 / 5 := by
    norm_num
    nlinarith
  have e : 0.8 / n * u * (0.5 + t / (2 * n)) = (u * (0.5 + t / (2 * n))) * (4 / 5) / n := by
    norm_num
    ring
  rw [e]
  constructor
  · rw [div_lt_div_iff_of_pos_right hn0]
    norm_num
    linarith
  · rw [div_le_div_iff_of_pos_right hn0]
    norm_num
    linarith

/-! ## Rounding to the nearest double -/

theorem roundHalfEven_dist (y : ℚ) : |((roundHalfEven y : ℤ) : ℚ) - y| ≤ 1 / 2 := by
  have h0 := Int.fract_nonneg y
  have h1 := Int.fract_lt_one y
  have hf : Int.fract y = y - ⌊y⌋ := rfl
  unfold roundHalfEven
  split_ifs with a b c
  · rw [abs_le]; constructor <;> linarith
  · push_cast; rw [abs_le]; constructor <;> linarith
  · rw [abs_le]; constructor <;> linarith
  · push_cast; rw [abs_le]; constructor <;> linarith

theorem roundHalfEven_near (y : ℚ) (m : ℤ) (h : |y - m| < 1 / 2) : roundHalfEven y = m := by
  rw [abs_lt] at h
  have hf : Int.fract y = y - ⌊y⌋ := rfl
  rcases le_or_lt (m : ℚ) y with hle | hlt
  · have hfl : ⌊y⌋ = m := by
      rw [Int.floor_eq_iff]
      constructor <;> linarith
    unfold roundHalfEven
    rw [if_pos (by rw [hf, hfl]; linarith), hfl]
  · have hfl : ⌊y⌋ = m - 1 := by
      rw [Int.floor_eq_iff]
      push_cast
      constructor <;> linarith
    unfold roundHalfEven
    rw [if_neg (by rw [hf, hfl]; push_cast; linarith),
      if_pos (by rw [hf, hfl]; push_cast; linarith), hfl]
    ring

theorem log_two_eq (x : ℚ) (e : ℤ) (h1 : (2 : ℚ) ^ e ≤ |x|) (h2 : |x| < (2 : ℚ) ^ (e + 1)) :
    Int.log 2 |x| = e := by
  have hpos : (0 : ℚ) < |x| := lt_of_lt_of_le (by positivity) h1
  have a : e ≤ Int.log 2 |x| :=
    (Int.zpow_le_iff_le_log (by norm_num) hpos).mp (by exact_mod_cast h1)
  have b : Int.log 2 |x| < e + 1 :=
    (Int.lt_zpow_iff_log_lt (by norm_num) hpos).mp (by exact_mod_cast h2)
  omega

/-- The double nearest to `x`, when the binade of `x` and the nearest multiple of the
spacing in it are known. -/
theorem roundDouble_eval (x : ℚ) (e m : ℤ) (h1 : (2 : ℚ) ^ e ≤ |x|)
    (h2 : |x| < (2 : ℚ) ^ (e + 1)) (hm : |x / 2 ^ (e - 52) - m| < 1 / 2) :
    roundDouble x = m * 2 ^ (e - 52) := by
  have hx : x ≠ 0 := by
    intro h0
    rw [h0, abs_zero] at h1
    exact absurd h1 (not_le.mpr (by positivity))
  unfold roundDouble
  rw [if_neg hx, log_two_eq x e h1 h2, roundHalfEven_near _ m hm]

/-- The standard model of rounding: the relative error of `roundDouble` is at most
`2^-53`. -/
theorem roundDouble_rel (x : ℚ) : |roundDouble x - x| ≤ 1 / 2 ^ 53 * |x| := by
  unfold roundDouble
  split_ifs with h0
  · rw [h0]; simp
  · have hpos : (0 : ℚ) < |x| := abs_pos.mpr h0
    have hlog : ((2 : ℕ) : ℚ) ^ Int.log 2 |x| ≤ |x| := Int.zpow_log_le_self (by norm_num) hpos
    generalize Int.log 2 |x| = e at hlog
    have hs : (0 : ℚ) < 2 ^ (e - 52) := by positivity
    have hd := roundHalfEven_dist (x / 2 ^ (e - 52))
    have h2 : (2 : ℚ) ^ e = 2 ^ (e - 52) * 2 ^ (52 : ℤ) := by
      rw [← zpow_add₀ (by norm_num)]
      congr 1
      ring
    have hkey : ((roundHalfEven (x / 2 ^ (e - 52)) : ℤ) : ℚ) * 2 ^ (e - 52) - x
        = (((roundHalfEven (x / 2 ^ (e - 52)) : ℤ) : ℚ) - x / 2 ^ (e - 52)) * 2 ^ (e - 52) := by
      field_simp
    rw [hkey, abs_mul, abs_of_pos hs]
    have hle : (2 : ℚ) ^ (e - 52) * 2 ^ (52 : ℤ) ≤ |x| := by
      rw [← h2]
      exact_mod_cast hlog
    have h52 : (2 : ℚ) ^ (52 : ℤ) = 4503599627370496 := by norm_num
    rw [h52] at hle
    have : |((roundHalfEven (x / 2 ^ (e - 52)) : ℤ) : ℚ) - x / 2 ^ (e - 52)| * 2 ^ (e - 52)
        ≤ 1 / 2 * 2 ^ (e - 52) := mul_le_mul_of_nonneg_right hd hs.le
    norm_num at this ⊢
    linarith


theorem roundDouble_value (x v : ℚ) (e m : ℤ) (h1 : (2 : ℚ) ^ e ≤ x)
    (h2 : x < (2 : ℚ) ^ (e + 1)) (hlo : (m : ℚ) - 1 / 2 < x / 2 ^ (e - 52))
    (hhi : x / 2 ^ (e - 52) < (m : ℚ) + 1 / 2)
    (hv : v = m * 2 ^ (e - 52)) : roundDouble x = v := by
  have hpos : 0 < x := lt_of_lt_of_le (by positivity) h1
  rw [hv]
  refine roundDouble_eval x e m ?_ ?_ ?_
  · rw [abs_of_pos hpos]; exact h1
  · rw [abs_of_pos hpos]; exact h2
  · rw [abs_lt]; constructor <;> linarith


/-! ## The planetary radius, as computed in doubles -/

theorem StarSystem.planetaryRadiusWith_id (n : ℕ) (v : ℤ) (i : ℕ) :
    StarSystem.planetaryRadiusWith id n v i
      = 0.8 / (n : ℚ) * (1 + (v : ℚ) / 100) * (0.5 + ((i : ℚ) + 1) / (2 * (n : ℚ))) := by
  unfold StarSystem.planetaryRadiusWith
  simp only [id]
  ring

/-- One planet, variance +20: the double computed for `planetaryRadius`. -/
theorem StarSystem.planetaryRadiusWith_one :
    StarSystem.planetaryRadiusWith roundDouble 1 20 0
      = 8646911284551353 / 9007199254740992 := by
  have a1 : roundDouble 0.8 = 3602879701896397 / 4503599627370496 :=
    roundDouble_value _ _ (-1) 7205759403792794 (by norm_num) (by norm_num)
      (by norm_num) (by norm_num) (by norm_num)
  have a2 : roundDouble (3602879701896397 / 4503599627370496 / ((1 : ℕ) : ℚ)) = 3602879701896397 / 4503599627370496 :=
    roundDouble_value _ _ (-1) 7205759403792794 (by norm_num) (by norm_num)
      (by norm_num) (by norm_num) (by norm_num)
  have a3 : roundDouble (1 / ((1 : ℕ) : ℚ)) = 1 :=
    roundDouble_value _ _ (0) 4503599627370496 (by norm_num) (by norm_num)
      (by norm_num) (by norm_num) (by norm_num)
  have a4 : roundDouble (1 / 2) = 1 / 2 :=
    roundDouble_value _ _ (-1) 4503599627370496 (by norm_num) (by norm_num)
      (by norm_num) (by norm_num) (by norm_num)
  have a5 : roundDouble (3602879701896397 / 4503599627370496 * ((20 : ℤ) : ℚ)) = 16 :=
    roundDouble_value _ _ (4) 4503599627370496 (by norm_num) (by norm_num)
      (by norm_num) (by norm_num) (by norm_num)
  have a6 : roundDouble (16 / 100) = 5764607523034235 / 36028797018963968 :=
    roundDouble_value _ _ (-3) 5764607523034235 (by norm_num) (by norm_num)
      (by norm_num) (by norm_num) (by norm_num)
  have a7 : roundDouble (3602879701896397 / 4503599627370496
      + 5764607523034235 / 36028797018963968) = 8646911284551353 / 9007199254740992 :=
    roundDouble_value _ _ (-1) 8646911284551353 (by norm_num) (by norm_num)
      (by norm_num) (by norm_num) (by norm_num)
  have a8 : roundDouble ((((0 : ℕ) : ℚ) + 1) * (1 / 2)) = 1 / 2 :=
    roundDouble_value _ _ (-1) 4503599627370496 (by norm_num) (by norm_num)
      (by norm_num) (by norm_num) (by norm_num)
  have a9 : roundDouble (0.5 + 1 / 2) = 1 :=
    roundDouble_value _ _ (0) 4503599627370496 (by norm_num) (by norm_num)
      (by norm_num) (by norm_num) (by norm_num)
  have a10 : roundDouble (8646911284551353 / 9007199254740992 * 1) = 8646911284551353 / 9007199254740992 :=
    roundDouble_value _ _ (-1) 8646911284551353 (by norm_num) (by norm_num)
      (by norm_num) (by norm_num) (by norm_num)
  unfold StarSystem.planetaryRadiusWith
  dsimp only
  rw [a1, a2, a3, a4, a5, a6, a7, a8, a9, a10]

/-- Eight planets, the outermost one, variance +20: the double computed for
`planetaryRadius`. -/
theorem StarSystem.planetaryRadiusWith_eight :
    StarSystem.planetaryRadiusWith roundDouble 8 20 7
      = 8646911284551353 / 72057594037927936 := by
  have a1 : roundDouble 0.8 = 3602879701896397 / 4503599627370496 :=
    roundDouble_value _ _ (-1) 7205759403792794 (by norm_num) (by norm_num)
      (by norm_num) (by norm_num) (by norm_num)
  have a2 : roundDouble (3602879701896397 / 4503599627370496 / ((8 : ℕ) : ℚ)) = 3602879701896397 / 36028797018963968 :=
    roundDouble_value _ _ (-4) 7205759403792794 (by norm_num) (by norm_num)
      (by norm_num) (by norm_num) (by norm_num)
  have a3 : roundDouble (1 / ((8 : ℕ) : ℚ)) = 1 / 8 :=
    roundDouble_value _ _ (-3) 4503599627370496 (by norm_num) (by norm_num)
      (by norm_num) (by norm_num) (by norm_num)
  have a4 : roundDouble (1 / 8 / 2) = 1 / 16 :=
    roundDouble_value _ _ (-4) 4503599627370496 (by norm_num) (by norm_num)
      (by norm_num) (by norm_num) (by norm_num)
  have a5 : roundDouble (3602879701896397 / 36028797018963968 * ((20 : ℤ) : ℚ)) = 2 :=
    roundDouble_value _ _ (1) 4503599627370496 (by norm_num) (by norm_num)
      (by norm_num) (by norm_num) (by norm_num)
  have a6 : roundDouble (2 / 100) = 5764607523034235 / 288230376151711744 :=
    roundDouble_value _ _ (-6) 5764607523034235 (by norm_num) (by norm_num)
      (by norm_num) (by norm_num) (by norm_num)
  have a7 : roundDouble (3602879701896397 / 36028797018963968
      + 5764607523034235 / 288230376151711744) = 8646911284551353 / 72057594037927936 :=
    roundDouble_value _ _ (-4) 8646911284551353 (by norm_num) (by norm_num)
      (by norm_num) (by norm_num) (by norm_num)
  have a8 : roundDouble ((((7 : ℕ) : ℚ) + 1) * (1 / 16)) = 1 / 2 :=
    roundDouble_value _ _ (-1) 4503599627370496 (by norm_num) (by norm_num)
      (by norm_num) (by norm_num) (by norm_num)
  have a9 : roundDouble (0.5 + 1 / 2) = 1 :=
    roundDouble_value _ _ (0) 4503599627370496 (by norm_num) (by norm_num)
      (by norm_num) (by norm_num) (by norm_num)
  have a10 : roundDouble (8646911284551353 / 72057594037927936 * 1) = 8646911284551353 / 72057594037927936 :=
    roundDouble_value _ _ (-4) 8646911284551353 (by norm_num) (by norm_num)
      (by norm_num) (by norm_num) (by norm_num)
  unfold StarSystem.planetaryRadiusWith
  dsimp only
  rw [a1, a2, a3, a4, a5, a6, a7, a8, a9, a10]

/-- The doubles that `0.96 / 1` and `0.96 / 8` evaluate to. -/
theorem roundDouble_limit :
    roundDouble (roundDouble 0.96 / ((1 : ℕ) : ℚ)) = 8646911284551352 / 9007199254740992 ∧
    roundDouble (roundDouble 0.96 / ((8 : ℕ) : ℚ)) = 8646911284551352 / 72057594037927936 := by
  have b1 : roundDouble 0.96 = 8646911284551352 / 9007199254740992 :=
    roundDouble_value _ _ (-1) 8646911284551352 (by norm_num) (by norm_num)
      (by norm_num) (by norm_num) (by norm_num)
  have b2 : roundDouble (8646911284551352 / 9007199254740992 / ((1 : ℕ) : ℚ)) = 8646911284551352 / 9007199254740992 :=
    roundDouble_value _ _ (-1) 8646911284551352 (by norm_num) (by norm_num)
      (by norm_num) (by norm_num) (by norm_num)
  have b3 : roundDouble (8646911284551352 / 9007199254740992 / ((8 : ℕ) : ℚ)) = 8646911284551352 / 72057594037927936 :=
    roundDouble_value _ _ (-4) 8646911284551352 (by norm_num) (by norm_num)
      (by norm_num) (by norm_num) (by norm_num)
  rw [b1, b2, b3]
  exact ⟨rfl, rfl⟩

theorem rounded_le (fl : ℚ → ℚ) (u : ℚ) (hu0 : 0 ≤ u) (hu1 : u ≤ 1)
    (hfl : ∀ x, |fl x - x| ≤ u * |x|) (x b : ℚ) (hxb : x ≤ b) (hb : 0 ≤ b) :
    fl x ≤ b * (1 + u) := by
  have h := (abs_le.mp (hfl x)).2
  rcases le_or_lt 0 x with hx | hx
  · rw [abs_of_nonneg hx] at h
    nlinarith
  · rw [abs_of_neg hx] at h
    nlinarith

theorem rounded_ge (fl : ℚ → ℚ) (u : ℚ) (_hu0 : 0 ≤ u) (hu1 : u ≤ 1)
    (hfl : ∀ x, |fl x - x| ≤ u * |x|) (x b : ℚ) (hbx : b ≤ x) (hb : 0 ≤ b) :
    b * (1 - u) ≤ fl x := by
  have h := (abs_le.mp (hfl x)).1
  rw [abs_of_nonneg (le_trans hb hbx)] at h
  nlinarith

theorem rounded_ge_neg (fl : ℚ → ℚ) (u : ℚ) (hu0 : 0 ≤ u) (hu1 : u ≤ 1)
    (hfl : ∀ x, |fl x - x| ≤ u * |x|) (x b : ℚ) (hbx : -b ≤ x) (hb : 0 ≤ b) :
    -(b * (1 + u)) ≤ fl x := by
  have h := (abs_le.mp (hfl x)).1
  rcases le_or_lt 0 x with hx | hx
  · rw [abs_of_nonneg hx] at h
    nlinarith
  · rw [abs_of_neg hx] at h
    nlinarith

theorem rounded_nonneg (fl : ℚ → ℚ) (u : ℚ) (hu0 : 0 ≤ u) (hu1 : u ≤ 1)
    (hfl : ∀ x, |fl x - x| ≤ u * |x|) (x : ℚ) (hx : 0 ≤ x) : 0 ≤ fl x := by
  have h := rounded_ge fl u hu0 hu1 hfl x 0 hx le_rfl
  linarith

/-- With every result rounded to a relative error of at most `u`, the planetary radius
exceeds `0.96/n` by at most the ten roundings on the way. -/
theorem StarSystem.planetaryRadiusWith_le (fl : ℚ → ℚ) (u : ℚ) (hu0 : 0 ≤ u) (hu1 : u ≤ 1)
    (hfl : ∀ x, |fl x - x| ≤ u * |x|) (n : ℕ) (v : ℤ) (i : ℕ) (hn : 1 ≤ n) (hv : v ≤ 20)
    (hi : i < n) :
    StarSystem.planetaryRadiusWith fl n v i ≤ 0.96 / (n : ℚ) * (1 + u) ^ 10 := by
  unfold StarSystem.planetaryRadiusWith
  dsimp only
  have hnq : (0 : ℚ) < (n : ℚ) := by exact_mod_cast hn
  have hvq : (v : ℚ) ≤ 20 := by exact_mod_cast hv
  have hiq : (i : ℚ) + 1 ≤ (n : ℚ) := by exact_mod_cast hi
  have hU : (1 : ℚ) ≤ 1 + u := by linarith
  have hU0 : (0 : ℚ) ≤ 1 + u := by linarith
  have hle := rounded_le fl u hu0 hu1 hfl
  have hnn := rounded_nonneg fl u hu0 hu1 hfl
  have hp2 : (1 : ℚ) ≤ (1 + u) ^ 2 := one_le_pow₀ hU
  have hp3 : (1 : ℚ) ≤ (1 + u) ^ 3 := one_le_pow₀ hU
  -- aveOrbitalDelta
  have c0 : 0 ≤ fl 0.8 := hnn _ (by norm_num)
  have c1 : fl 0.8 ≤ 0.8 * (1 + u) := hle 0.8 0.8 le_rfl (by norm_num)
  have a0 : 0 ≤ fl (fl 0.8 / (n : ℚ)) := hnn _ (div_nonneg c0 hnq.le)
  have a1 : fl (fl 0.8 / (n : ℚ)) ≤ 0.8 / (n : ℚ) * (1 + u) ^ 2 := by
    have h := hle (fl 0.8 / (n : ℚ)) (0.8 * (1 + u) / (n : ℚ))
      (div_le_div_of_nonneg_right c1 hnq.le) (by positivity)
    calc fl (fl 0.8 / (n : ℚ)) ≤ 0.8 * (1 + u) / (n : ℚ) * (1 + u) := h
      _ = 0.8 / (n : ℚ) * (1 + u) ^ 2 := by ring
  -- planetSizeMultiplierRatio
  have r0 : 0 ≤ fl (1 / (n : ℚ)) := hnn _ (by positivity)
  have r1 : fl (1 / (n : ℚ)) ≤ 1 / (n : ℚ) * (1 + u) :=
    hle _ _ le_rfl (by positivity)
  have q0 : 0 ≤ fl (fl (1 / (n : ℚ)) / 2) := hnn _ (by positivity)
  have q1 : fl (fl (1 / (n : ℚ)) / 2) ≤ 1 / (2 * (n : ℚ)) * (1 + u) ^ 2 := by
    have h := hle (fl (1 / (n : ℚ)) / 2) (1 / (n : ℚ) * (1 + u) / 2)
      (div_le_div_of_nonneg_right r1 (by norm_num)) (by positivity)
    calc fl (fl (1 / (n : ℚ)) / 2) ≤ 1 / (n : ℚ) * (1 + u) / 2 * (1 + u) := h
      _ = 1 / (2 * (n : ℚ)) * (1 + u) ^ 2 := by field_simp; ring
  generalize fl (fl 0.8 / (n : ℚ)) = ave at a0 a1
  generalize fl (fl (1 / (n : ℚ)) / 2) = ratio at q0 q1
  -- offset
  have t1 : fl (ave * (v : ℚ)) ≤ 16 / (n : ℚ) * (1 + u) ^ 3 := by
    have hx : ave * (v : ℚ) ≤ 16 / (n : ℚ) * (1 + u) ^ 2 := by
      calc ave * (v : ℚ) ≤ ave * 20 := mul_le_mul_of_nonneg_left hvq a0
        _ ≤ 0.8 / (n : ℚ) * (1 + u) ^ 2 * 20 := mul_le_mul_of_nonneg_right a1 (by norm_num)
        _ = 16 / (n : ℚ) * (1 + u) ^ 2 := by ring
    have h := hle _ _ hx (by positivity)
    calc fl (ave * (v : ℚ)) ≤ 16 / (n : ℚ) * (1 + u) ^ 2 * (1 + u) := h
      _ = 16 / (n : ℚ) * (1 + u) ^ 3 := by ring
  have t2 : fl (fl (ave * (v : ℚ)) / 100) ≤ 0.16 / (n : ℚ) * (1 + u) ^ 4 := by
    have h := hle (fl (ave * (v : ℚ)) / 100) (16 / (n : ℚ) * (1 + u) ^ 3 / 100)
      (div_le_div_of_nonneg_right t1 (by norm_num)) (by positivity)
    calc fl (fl (ave * (v : ℚ)) / 100) ≤ 16 / (n : ℚ) * (1 + u) ^ 3 / 100 * (1 + u) := h
      _ = 0.16 / (n : ℚ) * (1 + u) ^ 4 := by ring
  have o1 : fl (ave + fl (fl (ave * (v : ℚ)) / 100)) ≤ 0.96 / (n : ℚ) * (1 + u) ^ 5 := by
    have hx : ave + fl (fl (ave * (v : ℚ)) / 100) ≤ 0.96 / (n : ℚ) * (1 + u) ^ 4 := by
      have e : (1 + u) ^ 4 = (1 + u) ^ 2 * (1 + u) ^ 2 := by ring
      have h8 : 0.8 / (n : ℚ) * (1 + u) ^ 2 ≤ 0.8 / (n : ℚ) * (1 + u) ^ 4 := by
        rw [e]
        have : (0 : ℚ) ≤ 0.8 / (n : ℚ) * (1 + u) ^ 2 := by positivity
        nlinarith
      calc ave + fl (fl (ave * (v : ℚ)) / 100)
          ≤ 0.8 / (n : ℚ) * (1 + u) ^ 4 + 0.16 / (n : ℚ) * (1 + u) ^ 4 := by linarith
        _ = 0.96 / (n : ℚ) * (1 + u) ^ 4 := by ring
    have h := hle _ _ hx (by positivity)
    calc fl (ave + fl (fl (ave * (v : ℚ)) / 100))
        ≤ 0.96 / (n : ℚ) * (1 + u) ^ 4 * (1 + u) := h
      _ = 0.96 / (n : ℚ) * (1 + u) ^ 5 := by ring
  generalize fl (ave + fl (fl (ave * (v : ℚ)) / 100)) = offset at o1
  -- planetSizeMultiplierAmount
  have m0 : 0 ≤ fl (((i : ℚ) + 1) * ratio) := hnn _ (by positivity)
  have m1 : fl (((i : ℚ) + 1) * ratio) ≤ 1 / 2 * (1 + u) ^ 3 := by
    have hx : ((i : ℚ) + 1) * ratio ≤ 1 / 2 * (1 + u) ^ 2 := by
      calc ((i : ℚ) + 1) * ratio ≤ (n : ℚ) * ratio := mul_le_mul_of_nonneg_right hiq q0
        _ ≤ (n : ℚ) * (1 / (2 * (n : ℚ)) * (1 + u) ^ 2) := mul_le_mul_of_nonneg_left q1 hnq.le
        _ = 1 / 2 * (1 + u) ^ 2 := by field_simp; ring
    have h := hle _ _ hx (by positivity)
    calc fl (((i : ℚ) + 1) * ratio) ≤ 1 / 2 * (1 + u) ^ 2 * (1 + u) := h
      _ = 1 / 2 * (1 + u) ^ 3 := by ring
  have s0 : 0 ≤ fl (0.5 + fl (((i : ℚ) + 1) * ratio)) := hnn _ (by positivity)
  have s1 : fl (0.5 + fl (((i : ℚ) + 1) * ratio)) ≤ (1 + u) ^ 4 := by
    have hx : 0.5 + fl (((i : ℚ) + 1) * ratio) ≤ (1 + u) ^ 3 := by
      norm_num at m1 ⊢
      linarith
    have h := hle _ _ hx (by positivity)
    calc fl (0.5 + fl (((i : ℚ) + 1) * ratio)) ≤ (1 + u) ^ 3 * (1 + u) := h
      _ = (1 + u) ^ 4 := by ring
  generalize fl (0.5 + fl (((i : ℚ) + 1) * ratio)) = amount at s0 s1
  -- planetaryRadius
  have hx : offset * amount ≤ 0.96 / (n : ℚ) * (1 + u) ^ 9 := by
    calc offset * amount ≤ 0.96 / (n : ℚ) * (1 + u) ^ 5 * amount :=
          mul_le_mul_of_nonneg_right o1 s0
      _ ≤ 0.96 / (n : ℚ) * (1 + u) ^ 5 * (1 + u) ^ 4 :=
          mul_le_mul_of_nonneg_left s1 (by positivity)
      _ = 0.96 / (n : ℚ) * (1 + u) ^ 9 := by ring
  have h := hle _ _ hx (by positivity)
  calc fl (offset * amount) ≤ 0.96 / (n : ℚ) * (1 + u) ^ 9 * (1 + u) := h
    _ = 0.96 / (n : ℚ) * (1 + u) ^ 10 := by ring


/-- With every result rounded to a relative error of at most `2^-53`, and fewer than
`2^32` planets (the limit of a JavaScript array), the planetary radius stays above
`0.32/n`. -/
theorem StarSystem.planetaryRadiusWith_gt (fl : ℚ → ℚ)
    (hfl : ∀ x, |fl x - x| ≤ 1 / 2 ^ 53 * |x|) (n : ℕ) (v : ℤ) (i : ℕ) (hn : 1 ≤ n)
    (hn32 : n < 2 ^ 32) (hv : -20 ≤ v) :
    0.32 / (n : ℚ) < StarSystem.planetaryRadiusWith fl n v i := by
  unfold StarSystem.planetaryRadiusWith
  dsimp only
  have hu0 : (0 : ℚ) ≤ 1 / 2 ^ 53 := by norm_num
  have hu1 : (1 : ℚ) / 2 ^ 53 ≤ 1 := by norm_num
  have hnq : (0 : ℚ) < (n : ℚ) := by exact_mod_cast hn
  have hn32q : (n : ℚ) ≤ 2 ^ 32 := by exact_mod_cast hn32.le
  have hvq : (-20 : ℚ) ≤ (v : ℚ) := by exact_mod_cast hv
  have hiq : (1 : ℚ) ≤ (i : ℚ) + 1 := by
    have : (0 : ℚ) ≤ (i : ℚ) := Nat.cast_nonneg i
    linarith
  have hle := rounded_le fl _ hu0 hu1 hfl
  have hge := rounded_ge fl _ hu0 hu1 hfl
  have hgn := rounded_ge_neg fl _ hu0 hu1 hfl
  have hnn := rounded_nonneg fl _ hu0 hu1 hfl
  obtain ⟨U, hU⟩ : ∃ U : ℚ, U = 1 + 1 / 2 ^ 53 := ⟨_, rfl⟩
  obtain ⟨D, hD⟩ : ∃ D : ℚ, D = 1 - 1 / 2 ^ 53 := ⟨_, rfl⟩
  rw [← hU] at hle hgn
  rw [← hD] at hge
  have hU0 : 0 < U := by rw [hU]; norm_num
  have hD0 : 0 < D := by rw [hD]; norm_num
  -- aveOrbitalDelta
  have c0 : 0.8 * D ≤ fl 0.8 := hge 0.8 0.8 le_rfl (by norm_num)
  have c1 : fl 0.8 ≤ 0.8 * U := hle 0.8 0.8 le_rfl (by norm_num)
  have a0 : 0.8 / (n : ℚ) * D ^ 2 ≤ fl (fl 0.8 / (n : ℚ)) := by
    have h := hge (fl 0.8 / (n : ℚ)) (0.8 * D / (n : ℚ))
      (div_le_div_of_nonneg_right c0 hnq.le) (by positivity)
    calc 0.8 / (n : ℚ) * D ^ 2 = 0.8 * D / (n : ℚ) * D := by ring
      _ ≤ fl (fl 0.8 / (n : ℚ)) := h
  have a1 : fl (fl 0.8 / (n : ℚ)) ≤ 0.8 / (n : ℚ) * U ^ 2 := by
    have h := hle (fl 0.8 / (n : ℚ)) (0.8 * U / (n : ℚ))
      (div_le_div_of_nonneg_right c1 hnq.le) (by positivity)
    calc fl (fl 0.8 / (n : ℚ)) ≤ 0.8 * U / (n : ℚ) * U := h
      _ = 0.8 / (n : ℚ) * U ^ 2 := by ring
  have a2 : 0 ≤ fl (fl 0.8 / (n : ℚ)) := le_trans (by positivity) a0
  -- planetSizeMultiplierRatio
  have r0 : 1 / (n : ℚ) * D ≤ fl (1 / (n : ℚ)) := hge _ _ le_rfl (by positivity)
  have q0 : 1 / (2 * (n : ℚ)) * D ^ 2 ≤ fl (fl (1 / (n : ℚ)) / 2) := by
    have h := hge (fl (1 / (n : ℚ)) / 2) (1 / (n : ℚ) * D / 2)
      (div_le_div_of_nonneg_right r0 (by norm_num)) (by positivity)
    calc 1 / (2 * (n : ℚ)) * D ^ 2 = 1 / (n : ℚ) * D / 2 * D := by field_simp; ring
      _ ≤ fl (fl (1 / (n : ℚ)) / 2) := h
  have q2 : 0 ≤ fl (fl (1 / (n : ℚ)) / 2) := le_trans (by positivity) q0
  generalize fl (fl 0.8 / (n : ℚ)) = ave at a0 a1 a2
  generalize fl (fl (1 / (n : ℚ)) / 2) = ratio at q0 q2
  -- offset
  have t1 : -(16 / (n : ℚ) * U ^ 3) ≤ fl (ave * (v : ℚ)) := by
    have hx : -(16 / (n : ℚ) * U ^ 2) ≤ ave * (v : ℚ) := by
      calc -(16 / (n : ℚ) * U ^ 2) = 0.8 / (n : ℚ) * U ^ 2 * (-20) := by ring
        _ ≤ ave * (-20) := by nlinarith
        _ ≤ ave * (v : ℚ) := mul_le_mul_of_nonneg_left hvq a2
    have h := hgn _ _ hx (by positivity)
    calc -(16 / (n : ℚ) * U ^ 3) = -(16 / (n : ℚ) * U ^ 2 * U) := by ring
      _ ≤ fl (ave * (v : ℚ)) := h
  have t2 : -(0.16 / (n : ℚ) * U ^ 4) ≤ fl (fl (ave * (v : ℚ)) / 100) := by
    have hx : -(16 / (n : ℚ) * U ^ 3 / 100) ≤ fl (ave * (v : ℚ)) / 100 := by
      rw [← neg_div]
      exact div_le_div_of_nonneg_right t1 (by norm_num)
    have h := hgn _ _ hx (by positivity)
    calc -(0.16 / (n : ℚ) * U ^ 4) = -(16 / (n : ℚ) * U ^ 3 / 100 * U) := by ring
      _ ≤ fl (fl (ave * (v : ℚ)) / 100) := h
  have hB : (0 : ℚ) < 0.8 * D ^ 2 - 0.16 * U ^ 4 := by
    rw [hD, hU]; norm_num
  have o1 : (0.8 * D ^ 2 - 0.16 * U ^ 4) / (n : ℚ) * D
      ≤ fl (ave + fl (fl (ave * (v : ℚ)) / 100)) := by
    have hx : (0.8 * D ^ 2 - 0.16 * U ^ 4) / (n : ℚ)
        ≤ ave + fl (fl (ave * (v : ℚ)) / 100) := by
      calc (0.8 * D ^ 2 - 0.16 * U ^ 4) / (n : ℚ)
          = 0.8 / (n : ℚ) * D ^ 2 + -(0.16 / (n : ℚ) * U ^ 4) := by ring
        _ ≤ ave + fl (fl (ave * (v : ℚ)) / 100) := add_le_add a0 t2
    exact hge _ _ hx (div_nonneg hB.le hnq.le)
  have o2 : 0 ≤ (0.8 * D ^ 2 - 0.16 * U ^ 4) / (n : ℚ) * D :=
    mul_nonneg (div_nonneg hB.le hnq.le) hD0.le
  generalize fl (ave + fl (fl (ave * (v : ℚ)) / 100)) = offset at o1
  -- planetSizeMultiplierAmount
  have m1 : 1 / (2 * (n : ℚ)) * D ^ 3 ≤ fl (((i : ℚ) + 1) * ratio) := by
    have hx : 1 / (2 * (n : ℚ)) * D ^ 2 ≤ ((i : ℚ) + 1) * ratio := by
      calc 1 / (2 * (n : ℚ)) * D ^ 2 ≤ ratio := q0
        _ = 1 * ratio := (one_mul _).symm
        _ ≤ ((i : ℚ) + 1) * ratio := mul_le_mul_of_nonneg_right hiq q2
    have h := hge _ _ hx (by positivity)
    calc 1 / (2 * (n : ℚ)) * D ^ 3 = 1 / (2 * (n : ℚ)) * D ^ 2 * D := by ring
      _ ≤ fl (((i : ℚ) + 1) * ratio) := h
  have s1 : (0.5 + 1 / (2 * (n : ℚ)) * D ^ 3) * D
      ≤ fl (0.5 + fl (((i : ℚ) + 1) * ratio)) :=
    hge _ _ (by linarith) (by positivity)
  have s2 : 0 ≤ (0.5 + 1 / (2 * (n : ℚ)) * D ^ 3) * D := by positivity
  generalize fl (0.5 + fl (((i : ℚ) + 1) * ratio)) = amount at s1
  -- planetaryRadius
  have hx : (0.8 * D ^ 2 - 0.16 * U ^ 4) / (n : ℚ) * D
      * ((0.5 + 1 / (2 * (n : ℚ)) * D ^ 3) * D) ≤ offset * amount :=
    mul_le_mul o1 s1 s2 (le_trans o2 o1)
  have h := hge _ _ hx (mul_nonneg o2 s2)
  refine lt_of_lt_of_le ?_ h
  have hsmall : 1 / (2 : ℚ) ^ 33 ≤ 1 / (2 * (n : ℚ)) := by
    have e : (2 : ℚ) ^ 33 = 2 * 2 ^ 32 := by norm_num
    rw [e]
    exact one_div_le_one_div_of_le (by positivity) (by linarith)
  have hnum : (0.32 : ℚ) < (0.8 * D ^ 2 - 0.16 * U ^ 4) * D ^ 3 * (0.5 + 1 / 2 ^ 33 * D ^ 3) := by
    rw [hD, hU]; norm_num
  have hD3 : 0 < D ^ 3 := by positivity
  have hmono : (0.8 * D ^ 2 - 0.16 * U ^ 4) * D ^ 3 * (0.5 + 1 / 2 ^ 33 * D ^ 3)
      ≤ (0.8 * D ^ 2 - 0.16 * U ^ 4) * D ^ 3 * (0.5 + 1 / (2 * (n : ℚ)) * D ^ 3) := by
    apply mul_le_mul_of_nonneg_left _ (mul_nonneg hB.le hD3.le)
    have := mul_le_mul_of_nonneg_right hsmall hD3.le
    linarith
  calc 0.32 / (n : ℚ)
      < (0.8 * D ^ 2 - 0.16 * U ^ 4) * D ^ 3 * (0.5 + 1 / (2 * (n : ℚ)) * D ^ 3) / (n : ℚ) :=
        div_lt_div_of_pos_right (lt_of_lt_of_le hnum hmono) hnq
    _ = (0.8 * D ^ 2 - 0.16 * U ^ 4) / (n : ℚ) * D
          * ((0.5 + 1 / (2 * (n : ℚ)) * D ^ 3) * D) * D := by ring

/-! ## StarSystem: the radii, exactly and in doubles -/

theorem ten_roundings : (1 + (1 : ℚ) / 2 ^ 53) ^ 10 ≤ 1 + 1 / 2 ^ 49 := by
  norm_num

/-- C19 as stated fails on the doubles the program computes with.  A system of one
planet whose variance draw is 0.99 gets variance +20 and the planetaryRadius
0.9600000000000001 (8646911284551353 / 2^53), which is above 0.96/1, read exactly or
as the double `0.96 / 1`.  With eight planets and the same draws the outermost planet
gets 0.12000000000000001 (8646911284551353 / 2^56), above 0.96/8. -/
theorem StarSystem.planetaryRadius_exceeds_bound :
    (drawnVariance (constPrng (99 / 100)) 0 = 20 ∧
      StarSystem.planetaryRadiusWith roundDouble 1 20 0 = 8646911284551353 / 2 ^ 53 ∧
      ¬ StarSystem.planetaryRadiusWith roundDouble 1 20 0 ≤ 0.96 / ((1 : ℕ) : ℚ) ∧
      ¬ StarSystem.planetaryRadiusWith roundDouble 1 20 0
          ≤ roundDouble (roundDouble 0.96 / ((1 : ℕ) : ℚ))) ∧
    (drawnVariance (constPrng (99 / 100)) 7 = 20 ∧
      StarSystem.planetaryRadiusWith roundDouble 8 20 7 = 8646911284551353 / 2 ^ 56 ∧
      ¬ StarSystem.planetaryRadiusWith roundDouble 8 20 7 ≤ 0.96 / ((8 : ℕ) : ℚ) ∧
      ¬ StarSystem.planetaryRadiusWith roundDouble 8 20 7
          ≤ roundDouble (roundDouble 0.96 / ((8 : ℕ) : ℚ))) := by
  have hv : ∀ j, drawnVariance (constPrng (99 / 100)) j = 20 := by
    intro j
    simp only [drawnVariance, randomSeededIntInRange, Game.prng, constPrng, Prng.skip]
    norm_num
  refine ⟨⟨hv 0, ?_, ?_, ?_⟩, hv 7, ?_, ?_, ?_⟩
  · rw [StarSystem.planetaryRadiusWith_one]; norm_num
  · rw [StarSystem.planetaryRadiusWith_one]; norm_num
  · rw [StarSystem.planetaryRadiusWith_one, roundDouble_limit.1]; norm_num
  · rw [StarSystem.planetaryRadiusWith_eight]; norm_num
  · rw [StarSystem.planetaryRadiusWith_eight]; norm_num
  · rw [StarSystem.planetaryRadiusWith_eight, roundDouble_limit.2]; norm_num

/-- C19, amended: for a StarSystem with N >= 1 planets and draws in [0,1), the variances
v_0, v_1, ... drawn in order lie in [-20,20] and, with offset_j = (0.8/N)*(1 + v_j/100),
`establishPlanetBounds()` gives planet i the orbitalRadius
min(1, 0.15 + sum of offset_j for j < i), which is exactly 0.15 for planet 0, and the
planetaryRadius offset_i * (0.5 + (i+1)/(2N)).  In exact arithmetic this value (the
expression of the source with nothing rounded) lies in (0.32/N, 0.96/N].  As the
program computes it in doubles, the upper bound holds only up to rounding: the
computed value is at most (0.96/N) * (1 + 2^-49), and with fewer than 2^32 planets
(the limit of a JavaScript array) it is above 0.32/N; both hold for the variance drawn
for the planet and for every other variance in [-20,20]. -/
theorem StarSystem.establishPlanetBounds_radii (M : MathEnv) (sys : StarSystem) (g : Prng)
    (hg : g.InRange) (hN : 1 ≤ sys.planets.length) :
    (∀ j, -20 ≤ drawnVariance g j ∧ drawnVariance g j ≤ 20) ∧
    (∀ (i : ℕ) (p : Planet), (sys.establishPlanetBounds M g).1.planets[i]? = some p →
      p.orbitalRadius = some (min 1 (0.15 + ∑ j in Finset.range i,
        0.8 / (sys.planets.length : ℚ) * (1 + (drawnVariance g j : ℚ) / 100))) ∧
      (i = 0 → p.orbitalRadius = some 0.15) ∧
      p.planetaryRadius = some
        (0.8 / (sys.planets.length : ℚ) * (1 + (drawnVariance g i : ℚ) / 100)
          * (0.5 + ((i : ℚ) + 1) / (2 * (sys.planets.length : ℚ)))) ∧
      StarSystem.planetaryRadiusWith id sys.planets.length (drawnVariance g i) i
        = 0.8 / (sys.planets.length : ℚ) * (1 + (drawnVariance g i : ℚ) / 100)
          * (0.5 + ((i : ℚ) + 1) / (2 * (sys.planets.length : ℚ))) ∧
      0.32 / (sys.planets.length : ℚ)
        < 0.8 / (sys.planets.length : ℚ) * (1 + (drawnVariance g i : ℚ) / 100)
          * (0.5 + ((i : ℚ) + 1) / (2 * (sys.planets.length : ℚ))) ∧
      0.8 / (sys.planets.length : ℚ) * (1 + (drawnVariance g i : ℚ) / 100)
          * (0.5 + ((i : ℚ) + 1) / (2 * (sys.planets.length : ℚ)))
        ≤ 0.96 / (sys.planets.length : ℚ) ∧
      StarSystem.planetaryRadiusWith roundDouble sys.planets.length (drawnVariance g i) i
        ≤ 0.96 / (sys.planets.length : ℚ) * (1 + 1 / 2 ^ 49) ∧
      (sys.planets.length < 2 ^ 32 → 0.32 / (sys.planets.length : ℚ)
        < StarSystem.planetaryRadiusWith roundDouble sys.planets.length
            (drawnVariance g i) i)) ∧
    ∀ (i : ℕ) (v : ℤ), i < sys.planets.length → -20 ≤ v → v ≤ 20 →
      StarSystem.planetaryRadiusWith roundDouble sys.planets.length v i
        ≤ 0.96 / (sys.planets.length : ℚ) * (1 + 1 / 2 ^ 49) ∧
      (sys.planets.length < 2 ^ 32 → 0.32 / (sys.planets.length : ℚ)
        < StarSystem.planetaryRadiusWith roundDouble sys.planets.length v i) := by
  have hdouble : ∀ (i : ℕ) (v : ℤ), i < sys.planets.length → -20 ≤ v → v ≤ 20 →
      StarSystem.planetaryRadiusWith roundDouble sys.planets.length v i
        ≤ 0.96 / (sys.planets.length : ℚ) * (1 + 1 / 2 ^ 49) ∧
      (sys.planets.length < 2 ^ 32 → 0.32 / (sys.planets.length : ℚ)
        < StarSystem.planetaryRadiusWith roundDouble sys.planets.length v i) := by
    intro i v hi hv0 hv1
    constructor
    · refine le_trans (StarSystem.planetaryRadiusWith_le roundDouble (1 / 2 ^ 53)
        (by norm_num) (by norm_num) roundDouble_rel sys.planets.length v i hN hv1 hi) ?_
      exact mul_le_mul_of_nonneg_left ten_roundings (by positivity)
    · intro h32
      exact StarSystem.planetaryRadiusWith_gt roundDouble roundDouble_rel
        sys.planets.length v i hN h32 hv0
  refine ⟨drawnVariance_mem g hg, ?_, hdouble⟩
  intro i p hp
  have hn : (1 : ℚ) ≤ (sys.planets.length : ℚ) := by exact_mod_cast hN
  have have0 : (0 : ℚ) ≤ 0.8 / (sys.planets.length : ℚ) :=
    div_nonneg (by norm_num) (Nat.cast_nonneg _)
  have hpl : (sys.establishPlanetBounds M g).1.planets
      = (StarSystem.boundsLoop M (0.8 / (sys.planets.length : ℚ))
          (1 / (sys.planets.length : ℚ) / 2) sys.planets 0 0.15 0.25 g).1 := rfl
  have hlen := (StarSystem.boundsLoop_length M (0.8 / (sys.planets.length : ℚ))
    (1 / (sys.planets.length : ℚ) / 2) sys.planets 0 0.15 0.25 g).1
  rw [hpl] at hp
  have hi : i < sys.planets.length := by
    obtain ⟨h, _⟩ := List.getElem?_eq_some.mp hp
    rw [hlen] at h
    exact h
  obtain ⟨h1, h2, _, _, _⟩ := StarSystem.boundsLoop_values M _ _ have0 sys.planets 0 0.15 0.25
    g hg (by norm_num) (by norm_num) i p hp
  have hsum : ∑ j in Finset.range i, shellOffset (0.8 / (sys.planets.length : ℚ)) (g.skip (2 * j))
      = ∑ j in Finset.range i,
          0.8 / (sys.planets.length : ℚ) * (1 + (drawnVariance g j : ℚ) / 100) :=
    Finset.sum_congr rfl (fun j _ => shellOffset_eq _ g j)
  have hv := drawnVariance_mem g hg i
  have hv0 : ((-20 : ℤ) : ℚ) ≤ (drawnVariance g i : ℚ) := Int.cast_le.mpr hv.1
  have hv1 : (drawnVariance g i : ℚ) ≤ ((20 : ℤ) : ℚ) := Int.cast_le.mpr hv.2
  push_cast at hv0 hv1
  have hiq : ((i : ℚ) + 1) ≤ (sys.planets.length : ℚ) := by exact_mod_cast hi
  have hbounds := planetaryRadius_bounds (sys.planets.length : ℚ)
    (1 + (drawnVariance g i : ℚ) / 100) ((i : ℚ) + 1) hn (by linarith) (by linarith)
    (by positivity) hiq
  have hd := hdouble i (drawnVariance g i) hi hv.1 hv.2
  rw [hsum] at h1
  refine ⟨h1, ?_, ?_, StarSystem.planetaryRadiusWith_id _ _ _, hbounds.1, hbounds.2,
    hd.1, hd.2⟩
  · intro h0
    subst h0
    rw [h1]
    simp only [Finset.range_zero, Finset.sum_empty, add_zero]
    rw [min_eq_right (by norm_num)]
  · rw [h2, shellOffset_eq]
    congr 2
    simp only [Nat.zero_add]
    field_simp
    ring

theorem StarSystem.establishPlanetBounds_radii_witness :
    (∀ j, -20 ≤ drawnVariance (constPrng (99 / 100)) j
      ∧ drawnVariance (constPrng (99 / 100)) j ≤ 20) ∧
    (∀ (i : ℕ) (p : Planet),
      (sampleSystem.establishPlanetBounds sampleMath (constPrng (99 / 100))).1.planets[i]?
        = some p →
      p.orbitalRadius = some (min 1 (0.15 + ∑ j in Finset.range i,
        0.8 / (sampleSystem.planets.length : ℚ)
          * (1 + (drawnVariance (constPrng (99 / 100)) j : ℚ) / 100))) ∧
      (i = 0 → p.orbitalRadius = some 0.15) ∧
      p.planetaryRadius = some
        (0.8 / (sampleSystem.planets.length : ℚ)
          * (1 + (drawnVariance (constPrng (99 / 100)) i : ℚ) / 100)
          * (0.5 + ((i : ℚ) + 1) / (2 * (sampleSystem.planets.length : ℚ)))) ∧
      StarSystem.planetaryRadiusWith id sampleSystem.planets.length
          (drawnVariance (constPrng (99 / 100)) i) i
        = 0.8 / (sampleSystem.planets.length : ℚ)
          * (1 + (drawnVariance (constPrng (99 / 100)) i : ℚ) / 100)
          * (0.5 + ((i : ℚ) + 1) / (2 * (sampleSystem.planets.length : ℚ))) ∧
      0.32 / (sampleSystem.planets.length : ℚ)
        < 0.8 / (sampleSystem.planets.length : ℚ)
          * (1 + (drawnVariance (constPrng (99 / 100)) i : ℚ) / 100)
          * (0.5 + ((i : ℚ) + 1) / (2 * (sampleSystem.planets.length : ℚ))) ∧
      0.8 / (sampleSystem.planets.length : ℚ)
          * (1 + (drawnVariance (constPrng (99 / 100)) i : ℚ) / 100)
          * (0.5 + ((i : ℚ) + 1) / (2 * (sampleSystem.planets.length : ℚ)))
        ≤ 0.96 / (sampleSystem.planets.length : ℚ) ∧
      StarSystem.planetaryRadiusWith roundDouble sampleSystem.planets.length
          (drawnVariance (constPrng (99 / 100)) i) i
        ≤ 0.96 / (sampleSystem.planets.length : ℚ) * (1 + 1 / 2 ^ 49) ∧
      (sampleSystem.planets.length < 2 ^ 32 → 0.32 / (sampleSystem.planets.length : ℚ)
        < StarSystem.planetaryRadiusWith roundDouble sampleSystem.planets.length
            (drawnVariance (constPrng (99 / 100)) i) i)) ∧
    ∀ (i : ℕ) (v : ℤ), i < sampleSystem.planets.length → -20 ≤ v → v ≤ 20 →
      StarSystem.planetaryRadiusWith roundDouble sampleSystem.planets.length v i
        ≤ 0.96 / (sampleSystem.planets.length : ℚ) * (1 + 1 / 2 ^ 49) ∧
      (sampleSystem.planets.length < 2 ^ 32 → 0.32 / (sampleSystem.planets.length : ℚ)
        < StarSystem.planetaryRadiusWith roundDouble sampleSystem.planets.length v i) :=
  StarSystem.establishPlanetBounds_radii sampleMath sampleSystem (constPrng (99 / 100))
    (constPrng_inRange _ (by norm_num) (by norm_num)) (by decide)

/-! ## StarSystem: year lengths -/

theorem yearLength_floor_ge (b : ℚ) (hb : 1 ≤ b) (i : ℕ) :
    142 ≤ ⌊570 * (0.25 * b ^ i)⌋ := by
  rw [Int.le_floor]
  have hpow : (1 : ℚ) ≤ b ^ i := one_le_pow₀ hb
  push_cast
  norm_num
  linarith

theorem yearLength_floor_zero (b : ℚ) : ⌊570 * (0.25 * b ^ 0)⌋ = 142 := by
  rw [Int.floor_eq_iff]
  norm_num

/-- C20: for a StarSystem with N >= 1 planets, with draws in [0,1) and a host whose
`Math.pow(2, 1.005)` is at least 1, after `establishPlanetBounds()` planet i has
yearLength = floor(570 * 0.25 * pow(2, 1.005)^i), an integer that is at least 142 and
exactly 142 for the innermost planet, hence not zero, and `addTime` has a result on
every generated planet for every elapsed time. -/
theorem StarSystem.establishPlanetBounds_yearLength (M : MathEnv) (sys : StarSystem)
    (g : Prng) (hg : g.InRange) (_hN : 1 ≤ sys.planets.length)
    (hpow : 1 ≤ M.pow 2 1.005) :
    ∀ (i : ℕ) (p : Planet), (sys.establishPlanetBounds M g).1.planets[i]? = some p →
      p.yearLength = some ((⌊570 * (0.25 * M.pow 2 1.005 ^ i)⌋ : ℤ) : ℚ) ∧
      142 ≤ ⌊570 * (0.25 * M.pow 2 1.005 ^ i)⌋ ∧
      (i = 0 → p.yearLength = some 142) ∧
      p.yearLength ≠ some 0 ∧
      ∀ time : ℚ, ∃ p', p.addTime M time = some p' := by
  intro i p hp
  have have0 : (0 : ℚ) ≤ 0.8 / (sys.planets.length : ℚ) :=
    div_nonneg (by norm_num) (Nat.cast_nonneg _)
  have hpl : (sys.establishPlanetBounds M g).1.planets
      = (StarSystem.boundsLoop M (0.8 / (sys.planets.length : ℚ))
          (1 / (sys.planets.length : ℚ) / 2) sys.planets 0 0.15 0.25 g).1 := rfl
  rw [hpl] at hp
  obtain ⟨_, _, hy, hinit, _⟩ := StarSystem.boundsLoop_values M _ _ have0 sys.planets 0 0.15
    0.25 g hg (by norm_num) (by norm_num) i p hp
  have hge := yearLength_floor_ge (M.pow 2 1.005) hpow i
  have hne : ((⌊570 * (0.25 * M.pow 2 1.005 ^ i)⌋ : ℤ) : ℚ) ≠ 0 := by
    have : (0 : ℤ) < ⌊570 * (0.25 * M.pow 2 1.005 ^ i)⌋ := by omega
    exact_mod_cast this.ne'
  refine ⟨hy, hge, ?_, ?_, ?_⟩
  · intro h0
    subst h0
    rw [hy, yearLength_floor_zero]
    norm_num
  · rw [hy]
    intro h
    exact hne (Option.some.inj h)
  · intro time
    exact ⟨_, Planet.addTime_eq M p _ _ time hy hinit hne⟩

theorem StarSystem.establishPlanetBounds_yearLength_witness :
    ∃ p : Planet,
      (sampleSystem.establishPlanetBounds sampleMath (constPrng (1 / 2))).1.planets[0]?
        = some p ∧
      p.yearLength = some ((⌊570 * (0.25 * sampleMath.pow 2 1.005 ^ 0)⌋ : ℤ) : ℚ) ∧
      142 ≤ ⌊570 * (0.25 * sampleMath.pow 2 1.005 ^ 0)⌋ ∧
      p.yearLength = some 142 ∧ p.yearLength ≠ some 0 ∧
      ∃ p', p.addTime sampleMath 1000 = some p' := by
  have hlen : (sampleSystem.establishPlanetBounds sampleMath (constPrng (1 / 2))).1.planets.length
      = 2 := (StarSystem.establishPlanetBounds_size sampleMath sampleSystem _).1
  have h0 : 0 < (sampleSystem.establishPlanetBounds sampleMath
      (constPrng (1 / 2))).1.planets.length := by
    rw [hlen]
    decide
  obtain ⟨h1, h2, h3, h4, h5⟩ :=
    StarSystem.establishPlanetBounds_yearLength sampleMath sampleSystem (constPrng (1 / 2))
      (constPrng_inRange _ (by norm_num) (by norm_num)) (by decide)
      (by simp only [sampleMath]; norm_num) 0 _ (List.getElem?_eq_getElem h0)
  exact ⟨_, List.getElem?_eq_getElem h0, h1, h2, h3 rfl, h4, h5 1000⟩

/-! ## Render: the update of one planet -/

/-- The planet after the position update of one frame, field by field. -/
theorem Game.renderPlanet_spec (M : MathEnv) (width height ms : ℚ) (p : Planet)
    (yl init orb pr : ℚ) (hyl : p.yearLength = some yl) (hne : yl ≠ 0)
    (hinit : p.initialAngularPosition = some init) (horb : p.orbitalRadius = some orb)
    (hpr : p.planetaryRadius = some pr) :
    ∃ p', Game.renderPlanet M width height ms p = some p' ∧
      p'.yearLength = some yl ∧ p'.initialAngularPosition = some init ∧
      p'.orbitalRadius = some orb ∧ p'.planetaryRadius = some pr ∧
      (∀ r, p.drawRadius = some r → r ≠ 0 → p'.drawRadius = some r) ∧
      (p.drawRadius = none ∨ p.drawRadius = some 0 →
        p'.drawRadius = some (width / 10 * pr)) ∧
      p'.boundingBox = (p.setPosition
        { x := width / 2 + width / 2 * orb * M.cos (init + TAU M *
            ((if p.dayOfYear + ms / 100 > yl then p.dayOfYear + ms / 100 - yl
              else p.dayOfYear + ms / 100) / yl))
          y := height / 2 + width / 2 * orb * M.sin (init + TAU M *
            ((if p.dayOfYear + ms / 100 > yl then p.dayOfYear + ms / 100 - yl
              else p.dayOfYear + ms / 100) / yl)) }).boundingBox := by
  have hadd := Planet.addTime_eq M p yl init ms hyl hinit hne
  unfold Game.renderPlanet
  rw [hadd]
  dsimp only
  rw [horb]
  dsimp only
  cases hr : p.drawRadius with
  | none =>
    simp only [Planet.getDrawRadius, Planet.setPosition, hr, hpr]
    refine ⟨_, rfl, hyl, hinit, rfl, rfl, ?_, ?_, ?_⟩
    · intro r h; cases h
    · intro _; rfl
    · rfl
  | some r =>
    by_cases hr0 : r = 0
    · subst hr0
      simp only [Planet.getDrawRadius, Planet.setPosition, hr, hpr, ne_eq, not_true_eq_false,
        if_false]
      refine ⟨_, rfl, hyl, hinit, rfl, rfl, ?_, ?_, ?_⟩
      · intro r h h0
        exact absurd (Option.some.inj h).symm h0
      · intro _; rfl
      · rfl
    · simp only [Planet.getDrawRadius, Planet.setPosition, hr, ne_eq, hr0, not_false_eq_true,
        if_true]
      refine ⟨_, rfl, hyl, hinit, rfl, hpr, ?_, ?_, ?_⟩
      · intro r' h _
        rw [← h]
      · intro h
        rcases h with h | h
        · cases h
        · exact absurd (Option.some.inj h) hr0
      · rfl

/-! ## Render: the draw radius is fixed once it is not zero -/

theorem Game.renderPlanetFrames_keeps (M : MathEnv) (r : ℚ) (hr0 : r ≠ 0) :
    ∀ (frames : List Frame) (p : Planet), p.Initialised → p.drawRadius = some r →
      ∃ p', Game.renderPlanetFrames M frames p = some p' ∧ p'.drawRadius = some r ∧
        p'.Initialised := by
  intro frames
  induction frames with
  | nil =>
    intro p hinit hr
    exact ⟨p, rfl, hr, hinit⟩
  | cons f rest ih =>
    intro p hinit hr
    obtain ⟨yl, init, orb, pr, hyl, hne, hini, horb, hpr⟩ := hinit
    obtain ⟨p1, hrun, h1, h2, h3, h4, hkeep, _, _⟩ :=
      Game.renderPlanet_spec M f.width f.height f.ms p yl init orb pr hyl hne hini horb hpr
    obtain ⟨p', hrest, hr', hinit'⟩ :=
      ih p1 ⟨yl, init, orb, pr, h1, hne, h2, h3, h4⟩ (hkeep r hr hr0)
    refine ⟨p', ?_, hr', hinit'⟩
    rw [Game.renderPlanetFrames, hrun]
    exact hrest

/-- C13 as stated fails: on a canvas of width 0 the first `setDrawRadius` call sets
drawRadius to 0, and the next frame, on a canvas of width 1000, sets it again, to 10. -/
theorem Game.zero_drawRadius_is_replaced :
    ∃ p1 p2 : Planet,
      orbitingPlanet.drawRadius = none ∧
      Game.renderPlanet sampleMath 0 600 16 orbitingPlanet = some p1 ∧
      p1.drawRadius = some 0 ∧
      Game.renderPlanet sampleMath 1000 600 16 p1 = some p2 ∧
      p2.drawRadius = some 10 := by
  obtain ⟨p1, hrun1, h1, h2, h3, h4, _, hset1, _⟩ :=
    Game.renderPlanet_spec sampleMath 0 600 16 orbitingPlanet 100 1 (3 / 20) (1 / 10)
      rfl (by norm_num) rfl rfl rfl
  have hd1 : p1.drawRadius = some 0 := by
    rw [hset1 (Or.inl rfl)]
    norm_num
  obtain ⟨p2, hrun2, _, _, _, _, _, hset2, _⟩ :=
    Game.renderPlanet_spec sampleMath 1000 600 16 p1 100 1 (3 / 20) (1 / 10)
      h1 (by norm_num) h2 h3 h4
  refine ⟨p1, p2, rfl, hrun1, hd1, hrun2, ?_⟩
  rw [hset2 (Or.inr hd1)]
  norm_num

/-- C13, amended: once the drawRadius of an initialised planet has a value that is not
zero, running the position-update path of `render` for any sequence of frames, whatever
their canvas widths, leaves drawRadius at that value; in particular, when the first
update of a planet without a draw radius computes a value that is not zero, every later
update keeps it. -/
theorem Game.renderPlanetFrames_drawRadius (M : MathEnv) (p : Planet) (r : ℚ)
    (hinit : p.Initialised) (hr : p.drawRadius = some r) (hr0 : r ≠ 0)
    (frames : List Frame) :
    (∃ p', Game.renderPlanetFrames M frames p = some p' ∧ p'.drawRadius = some r) ∧
    (∀ (q : Planet) (pr : ℚ) (f : Frame), q.Initialised → q.planetaryRadius = some pr →
      q.drawRadius = none → f.width / 10 * pr ≠ 0 →
      ∃ q', Game.renderPlanetFrames M (f :: frames) q = some q' ∧
        q'.drawRadius = some (f.width / 10 * pr)) := by
  constructor
  · obtain ⟨p', h1, h2, _⟩ := Game.renderPlanetFrames_keeps M r hr0 frames p hinit hr
    exact ⟨p', h1, h2⟩
  · intro q pr f hq hpr hnone hne0
    obtain ⟨yl, init, orb, pr', hyl, hne, hini, horb, hpr'⟩ := hq
    have hprpr : pr' = pr := by
      rw [hpr] at hpr'
      exact (Option.some.inj hpr').symm
    subst hprpr
    obtain ⟨q1, hrun, h1, h2, h3, h4, _, hset, _⟩ :=
      Game.renderPlanet_spec M f.width f.height f.ms q yl init orb pr' hyl hne hini horb hpr
    obtain ⟨q', hrest, hr', _⟩ := Game.renderPlanetFrames_keeps M _ hne0 frames q1
      ⟨yl, init, orb, pr', h1, hne, h2, h3, h4⟩ (hset (Or.inl hnone))
    refine ⟨q', ?_, hr'⟩
    rw [Game.renderPlanetFrames, hrun]
    exact hrest

theorem Game.renderPlanetFrames_drawRadius_witness :
    (∃ p', Game.renderPlanetFrames sampleMath [⟨1000, 600, 16⟩, ⟨400, 300, 16⟩] innerPlanet
        = some p' ∧ p'.drawRadius = some 50) ∧
    (∀ (q : Planet) (pr : ℚ) (f : Frame), q.Initialised → q.planetaryRadius = some pr →
      q.drawRadius = none → f.width / 10 * pr ≠ 0 →
      ∃ q', Game.renderPlanetFrames sampleMath (f :: [⟨1000, 600, 16⟩, ⟨400, 300, 16⟩]) q
          = some q' ∧
        q'.drawRadius = some (f.width / 10 * pr)) :=
  Game.renderPlanetFrames_drawRadius sampleMath innerPlanet 50
    ⟨100, 0, 1 / 5, 1 / 10, rfl, by norm_num, rfl, rfl, rfl⟩ rfl (by norm_num)
    [⟨1000, 600, 16⟩, ⟨400, 300, 16⟩]

/-! ## Render: which planet is under the pointer -/

theorem Game.renderPlanet_initialised (M : MathEnv) (width height ms : ℚ) (p : Planet)
    (hinit : p.Initialised) :
    ∃ p', Game.renderPlanet M width height ms p = some p' ∧ p'.Initialised := by
  obtain ⟨yl, init, orb, pr, hyl, hne, hini, horb, hpr⟩ := hinit
  obtain ⟨p', hrun, h1, h2, h3, h4, _⟩ :=
    Game.renderPlanet_spec M width height ms p yl init orb pr hyl hne hini horb hpr
  exact ⟨p', hrun, yl, init, orb, pr, h1, hne, h2, h3, h4⟩

/-- The loop of `render` from index `i` on: every planet is updated as `renderPlanet`
does, and `underMouse` ends as it was when no updated planet is under the pointer, and
otherwise as the last updated planet that is. -/
theorem Game.renderLoop_spec (M : MathEnv) (width height ms : ℚ) (mouse : Point) :
    ∀ (planets : List Planet) (i : ℕ) (um : Option ℕ),
      (∀ p ∈ planets, p.Initialised) →
      ∃ (planets' : List Planet) (um' : Option ℕ),
        Game.renderLoop M width height ms mouse planets i um = some (planets', um') ∧
        planets'.length = planets.length ∧
        (∀ (k : ℕ) (p : Planet), planets[k]? = some p →
          Game.renderPlanet M width height ms p = planets'[k]?) ∧
        ((um' = um ∧ ∀ q ∈ planets', q.mouseIsOver mouse = false) ∨
          ∃ (k : ℕ) (q : Planet), um' = some (i + k) ∧ planets'[k]? = some q ∧
            q.mouseIsOver mouse = true ∧
            ∀ (j : ℕ) (q' : Planet), k < j → planets'[j]? = some q' →
              q'.mouseIsOver mouse = false) := by
  intro planets
  induction planets with
  | nil =>
    intro i um _
    exact ⟨[], um, rfl, rfl, by simp, Or.inl ⟨rfl, by simp⟩⟩
  | cons p rest ih =>
    intro i um hall
    obtain ⟨p', hp', hinit'⟩ := Game.renderPlanet_initialised M width height ms p
      (hall p (List.mem_cons_self _ _))
    obtain ⟨rest', um', hrun, hlen, hmap, hcases⟩ := ih (i + 1)
      (if p'.mouseIsOver mouse then some i else um)
      (fun q hq => hall q (List.mem_cons_of_mem _ hq))
    refine ⟨p' :: rest', um', ?_, by simp only [List.length_cons, hlen], ?_, ?_⟩
    · rw [Game.renderLoop, hp']
      dsimp only
      rw [hrun]
    · intro k q hq
      cases k with
      | zero =>
        simp only [List.getElem?_cons_zero, Option.some.injEq] at hq
        subst hq
        simpa using hp'
      | succ k =>
        simp only [List.getElem?_cons_succ] at hq ⊢
        exact hmap k q hq
    · rcases hcases with ⟨hum, hnone⟩ | ⟨k, q, hum, hq, hhit, hlater⟩
      · by_cases hhit : p'.mouseIsOver mouse = true
        · right
          refine ⟨0, p', ?_, List.getElem?_cons_zero, hhit, ?_⟩
          · rw [hum, if_pos hhit]
            rfl
          · intro j q' hj hq'
            cases j with
            | zero => omega
            | succ j =>
              simp only [List.getElem?_cons_succ] at hq'
              exact hnone q' (List.mem_iff_getElem?.mpr ⟨j, hq'⟩)
        · left
          refine ⟨?_, ?_⟩
          · rw [hum, if_neg hhit]
          · intro q hq
            rcases List.mem_cons.mp hq with h | h
            · rw [h]
              exact Bool.eq_false_iff.mpr hhit
            · exact hnone q h
      · right
        refine ⟨k + 1, q, ?_, ?_, hhit, ?_⟩
        · rw [hum]
          congr 1
          omega
        · simpa using hq
        · intro j q' hj hq'
          cases j with
          | zero => omega
          | succ j =>
            simp only [List.getElem?_cons_succ] at hq'
            exact hlater j q' (by omega) hq'

theorem Game.render_runs_loop (M : MathEnv) (width height ms : ℚ) (game game' : Game)
    (h : Game.render M width height ms game = some game') :
    ∃ (gi si : ℕ) (galaxy : Galaxy) (sys : StarSystem) (planets' : List Planet),
      game.universe_.startingSystem = some (gi, si) ∧
      game.universe_.galaxies[gi]? = some galaxy ∧
      galaxy.starSystems[si]? = some sys ∧
      Game.renderLoop M width height ms game.mouse sys.planets 0 none
        = some (planets', game'.underMouse) := by
  unfold Game.render at h
  split at h
  · cases h
  · rename_i gi si hstart
    split at h
    · cases h
    · rename_i galaxy hgal
      split at h
      · cases h
      · rename_i sys hsys
        split at h
        · cases h
        · rename_i planets um hloop
          simp only [Option.some.injEq] at h
          subst h
          exact ⟨gi, si, galaxy, sys, planets, hstart, hgal, hsys, hloop⟩

/-- C12 as stated fails: with two planets whose bounding boxes both contain the
pointer, the loop leaves `underMouse` at the second (outer) planet, although the first
planet in orbital order is under the pointer too. -/
theorem Game.underMouse_is_last_match :
    ∃ pA pB : Planet,
      Game.renderLoop sampleMath 1000 600 0 ⟨625, 300⟩ [innerPlanet, outerPlanet] 0 none
        = some ([pA, pB], some 1) ∧
      pA.mouseIsOver ⟨625, 300⟩ = true ∧ pB.mouseIsOver ⟨625, 300⟩ = true := by
  obtain ⟨pA, hA, _, _, _, _, _, _, hboxA⟩ :=
    Game.renderPlanet_spec sampleMath 1000 600 0 innerPlanet 100 0 (1 / 5) (1 / 10)
      rfl (by norm_num) rfl rfl rfl
  obtain ⟨pB, hB, _, _, _, _, _, _, hboxB⟩ :=
    Game.renderPlanet_spec sampleMath 1000 600 0 outerPlanet 100 0 (3 / 10) (1 / 10)
      rfl (by norm_num) rfl rfl rfl
  have hitA : pA.mouseIsOver ⟨625, 300⟩ = true := by
    unfold Planet.mouseIsOver
    rw [hboxA]
    simp only [Planet.setPosition, innerPlanet, sampleMath]
    norm_num
  have hitB : pB.mouseIsOver ⟨625, 300⟩ = true := by
    unfold Planet.mouseIsOver
    rw [hboxB]
    simp only [Planet.setPosition, outerPlanet, sampleMath]
    norm_num
  refine ⟨pA, pB, ?_, hitA, hitB⟩
  rw [Game.renderLoop, hA]
  dsimp only
  rw [Game.renderLoop, hB]
  dsimp only
  rw [Game.renderLoop, if_pos hitA, if_pos hitB]

theorem innerPlanet_initialised : innerPlanet.Initialised :=
  ⟨100, 0, 1 / 5, 1 / 10, rfl, by norm_num, rfl, rfl, rfl⟩

theorem outerPlanet_initialised : outerPlanet.Initialised :=
  ⟨100, 0, 3 / 10, 1 / 10, rfl, by norm_num, rfl, rfl, rfl⟩

/-- C12, amended: for every sequence of initialised planets and every pointer
coordinate, the loop of `render` (entered with `underMouse` reset to null) updates
every planet in orbital order and leaves `underMouse` null when no updated planet has
`mouseIsOver` true, and otherwise at the last planet in orbital order whose
`mouseIsOver` is true: when bounding boxes overlap the last match wins.  `render` sets
`underMouse` to the result of this loop on the planets of the starting system. -/
theorem Game.render_underMouse (M : MathEnv) (width height ms : ℚ) (mouse : Point)
    (planets : List Planet) (hinit : ∀ p ∈ planets, p.Initialised) :
    (∃ (planets' : List Planet) (um : Option ℕ),
      Game.renderLoop M width height ms mouse planets 0 none = some (planets', um) ∧
      planets'.length = planets.length ∧
      (∀ (k : ℕ) (p : Planet), planets[k]? = some p →
        Game.renderPlanet M width height ms p = planets'[k]?) ∧
      ((um = none ∧ ∀ q ∈ planets', q.mouseIsOver mouse = false) ∨
        ∃ (k : ℕ) (q : Planet), um = some k ∧ planets'[k]? = some q ∧
          q.mouseIsOver mouse = true ∧
          ∀ (j : ℕ) (q' : Planet), k < j → planets'[j]? = some q' →
            q'.mouseIsOver mouse = false)) ∧
    (∀ game game' : Game, Game.render M width height ms game = some game' →
      ∃ (gi si : ℕ) (galaxy : Galaxy) (sys : StarSystem) (planets' : List Planet),
        game.universe_.startingSystem = some (gi, si) ∧
        game.universe_.galaxies[gi]? = some galaxy ∧
        galaxy.starSystems[si]? = some sys ∧
        Game.renderLoop M width height ms game.mouse sys.planets 0 none
          = some (planets', game'.underMouse)) := by
  refine ⟨?_, fun game game' h => Game.render_runs_loop M width height ms game game' h⟩
  obtain ⟨planets', um, hrun, hlen, hmap, hcases⟩ :=
    Game.renderLoop_spec M width height ms mouse planets 0 none hinit
  refine ⟨planets', um, hrun, hlen, hmap, ?_⟩
  rcases hcases with h | ⟨k, q, hum, hq, hhit, hlater⟩
  · exact Or.inl h
  · refine Or.inr ⟨k, q, ?_, hq, hhit, hlater⟩
    rw [hum, Nat.zero_add]

theorem Game.render_underMouse_witness :
    (∃ (planets' : List Planet) (um : Option ℕ),
      Game.renderLoop sampleMath 1000 600 0 ⟨625, 300⟩ [innerPlanet, outerPlanet] 0 none
        = some (planets', um) ∧
      planets'.length = [innerPlanet, outerPlanet].length ∧
      (∀ (k : ℕ) (p : Planet), [innerPlanet, outerPlanet][k]? = some p →
        Game.renderPlanet sampleMath 1000 600 0 p = planets'[k]?) ∧
      ((um = none ∧ ∀ q ∈ planets', q.mouseIsOver ⟨625, 300⟩ = false) ∨
        ∃ (k : ℕ) (q : Planet), um = some k ∧ planets'[k]? = some q ∧
          q.mouseIsOver ⟨625, 300⟩ = true ∧
          ∀ (j : ℕ) (q' : Planet), k < j → planets'[j]? = some q' →
            q'.mouseIsOver ⟨625, 300⟩ = false)) ∧
    (∀ game game' : Game, Game.render sampleMath 1000 600 0 game = some game' →
      ∃ (gi si : ℕ) (galaxy : Galaxy) (sys : StarSystem) (planets' : List Planet),
        game.universe_.startingSystem = some (gi, si) ∧
        game.universe_.galaxies[gi]? = some galaxy ∧
        galaxy.starSystems[si]? = some sys ∧
        Game.renderLoop sampleMath 1000 600 0 game.mouse sys.planets 0 none
          = some (planets', game'.underMouse)) :=
  Game.render_underMouse sampleMath 1000 600 0 ⟨625, 300⟩ [innerPlanet, outerPlanet]
    (by
      intro p hp
      rcases List.mem_cons.mp hp with h | h
      · rw [h]; exact innerPlanet_initialised
      · rw [List.mem_singleton.mp h]; exact outerPlanet_initialised)

/-! ## Universe: construction -/

theorem Galaxy.constructor_name (M : MathEnv) (params : GalaxyParams) (g g' : Prng)
    (gal : Galaxy) (h : Galaxy.constructor M params g = .ok (gal, g')) :
    gal.name = params.name := by
  unfold Galaxy.constructor at h
  split at h
  · cases h
  · dsimp only at h
    split at h
    · cases h
    · simp only [Except.ok.injEq, Prod.mk.injEq] at h
      rw [← h.1]

theorem Galaxy.constructor_no_stars (M : MathEnv) (params : GalaxyParams) (g : Prng)
    (h0 : params.stars = 0) :
    Galaxy.constructor M params g =
      .ok ({ starSystems := [], startingSystem := none, focusedSystem := none,
             name := params.name }, g) := by
  have hN : forCount ((params.stars : ℚ) * params.planetStarRatio) = 0 := by
    rw [h0]
    simp [forCount]
  have hcs : Galaxy.createSystems params.stars [] g = .ok ([], g) := by
    rw [h0]
    rfl
  have hloop : Galaxy.assignLoop params.stars
      (forCount ((params.stars : ℚ) * params.planetStarRatio))
      { starSystems := [], mostPopulousSystem := if 0 < ([] : List StarSystem).length
          then some 0 else none, g := g }
      = .ok { starSystems := [], mostPopulousSystem := none, g := g } := by
    rw [hN]
    rfl
  rw [Galaxy.constructor_eq M params g g [] _ hcs hloop]
  rfl

theorem Galaxy.constructor_total (M : MathEnv) (params : GalaxyParams) (g : Prng)
    (hg : g.InRange) :
    ∃ gal : Galaxy,
      Galaxy.constructor M params g = .ok (gal, g.skip (13 * params.stars
        + 10 * forCount ((params.stars : ℚ) * params.planetStarRatio))) ∧
      gal.name = params.name ∧ gal.starSystems.length = params.stars := by
  rcases Nat.eq_zero_or_pos params.stars with h0 | hpos
  · have hK : 13 * params.stars
        + 10 * forCount ((params.stars : ℚ) * params.planetStarRatio) = 0 := by
      rw [h0]
      simp [forCount]
    rw [hK]
    exact ⟨_, Galaxy.constructor_no_stars M params g h0, rfl, h0.symm⟩
  · obtain ⟨⟨gal, hrun, hlen, _⟩, _⟩ := Galaxy.constructor_spec M params g hg hpos
    exact ⟨gal, hrun, Galaxy.constructor_name M params g _ gal hrun, hlen⟩

theorem Universe.addGalaxies_cons (M : MathEnv) (p : GalaxyParams) (rest : List GalaxyParams)
    (u : Universe) (g g1 : Prng) (hg1 : g1.InRange) (gal : Galaxy)
    (hgal : Galaxy.constructor M p g = .ok (gal, g1)) :
    drawnIndex (u.galaxies ++ [gal]).length g1 < (u.galaxies ++ [gal]).length ∧
    ∃ galk : Galaxy,
      (u.galaxies ++ [gal])[drawnIndex (u.galaxies ++ [gal]).length g1]? = some galk ∧
      Universe.addGalaxies M (p :: rest) u g =
        Universe.addGalaxies M rest
          { galaxies := u.galaxies ++ [gal]
            startingGalaxy := some (drawnIndex (u.galaxies ++ [gal]).length g1)
            startingSystem := galk.startingSystem.map
              (fun s => (drawnIndex (u.galaxies ++ [gal]).length g1, s)) }
          (g1.skip 1) := by
  have hpos : 1 ≤ (u.galaxies ++ [gal]).length := by
    rw [List.length_append]
    exact Nat.le_add_left _ _
  obtain ⟨h0, hlt⟩ := drawnIndex_lt (u.galaxies ++ [gal]).length hpos g1 hg1
  obtain ⟨idx, hidx, hidx0, hidxn⟩ : ∃ idx : ℤ,
      randomSeededIntInRange 0 (((u.galaxies ++ [gal]).length : ℤ) - 1) g1 = (idx, g1.skip 1) ∧
        0 ≤ idx ∧ idx.toNat = drawnIndex (u.galaxies ++ [gal]).length g1 := ⟨_, rfl, h0, rfl⟩
  have helem : elemAt (u.galaxies ++ [gal]) idx
      = some ((u.galaxies ++ [gal]).get ⟨drawnIndex (u.galaxies ++ [gal]).length g1, hlt⟩) := by
    unfold elemAt
    rw [if_pos hidx0, hidxn]
    exact List.getElem?_eq_getElem hlt
  refine ⟨hlt, _, List.getElem?_eq_getElem hlt, ?_⟩
  rw [Universe.addGalaxies, hgal]
  dsimp only
  rw [hidx]
  dsimp only
  rw [helem, hidxn]
  rfl

/-- The loop of the Universe constructor: the galaxies are appended in input order,
`Universe.drawCount` draws are taken and, when at least one galaxy is added, the
starting galaxy is the one drawn by the last of them. -/
theorem Universe.addGalaxies_spec (M : MathEnv) :
    ∀ (ps : List GalaxyParams) (u : Universe) (g : Prng), g.InRange →
      ∃ u' : Universe,
        Universe.addGalaxies M ps u g = .ok (u', g.skip (Universe.drawCount ps)) ∧
        u'.galaxies.map Galaxy.name = u.galaxies.map Galaxy.name ++ ps.map GalaxyParams.name ∧
        u'.galaxies.map (fun gal => gal.starSystems.length)
          = u.galaxies.map (fun gal => gal.starSystems.length) ++ ps.map GalaxyParams.stars ∧
        (ps ≠ [] → ∃ (K0 : ℕ) (galk : Galaxy), Universe.drawCount ps = K0 + 1 ∧
          drawnIndex u'.galaxies.length (g.skip K0) < u'.galaxies.length ∧
          u'.startingGalaxy = some (drawnIndex u'.galaxies.length (g.skip K0)) ∧
          u'.galaxies[drawnIndex u'.galaxies.length (g.skip K0)]? = some galk ∧
          u'.startingSystem = galk.startingSystem.map
            (fun s => (drawnIndex u'.galaxies.length (g.skip K0), s))) := by
  intro ps
  induction ps with
  | nil =>
    intro u g _
    exact ⟨u, rfl, by simp, by simp, fun h => absurd rfl h⟩
  | cons p rest ih =>
    intro u g hg
    obtain ⟨gal, hgal, hname, hstars⟩ := Galaxy.constructor_total M p g hg
    generalize hK1 : 13 * p.stars + 10 * forCount ((p.stars : ℚ) * p.planetStarRatio) = K1
      at hgal
    have hcount : Universe.drawCount (p :: rest) = K1 + 1 + Universe.drawCount rest := by
      rw [← hK1]
      rfl
    obtain ⟨hlt, galk, hgalk, hstep⟩ :=
      Universe.addGalaxies_cons M p rest u g (g.skip K1) (hg.skip K1) gal hgal
    obtain ⟨u', hrun, hnames, hlens, hlast⟩ := ih
      { galaxies := u.galaxies ++ [gal]
        startingGalaxy := some (drawnIndex (u.galaxies ++ [gal]).length (g.skip K1))
        startingSystem := galk.startingSystem.map
          (fun s => (drawnIndex (u.galaxies ++ [gal]).length (g.skip K1), s)) }
      ((g.skip K1).skip 1) ((hg.skip K1).skip 1)
    refine ⟨u', ?_, ?_, ?_, ?_⟩
    · rw [hstep, hrun, Prng.skip_skip, Prng.skip_skip, hcount, Nat.add_assoc]
    · rw [hnames]
      simp only [List.map_append, List.map_cons, List.map_nil, hname, List.append_assoc,
        List.singleton_append]
    · rw [hlens]
      simp only [List.map_append, List.map_cons, List.map_nil, hstars, List.append_assoc,
        List.singleton_append]
    · intro _
      rcases List.eq_nil_or_concat rest with hnil | ⟨r0, rlast, hrest⟩
      · subst hnil
        have hu : u' = { galaxies := u.galaxies ++ [gal]
                         startingGalaxy := some
                           (drawnIndex (u.galaxies ++ [gal]).length (g.skip K1))
                         startingSystem := galk.startingSystem.map
                           (fun s => (drawnIndex (u.galaxies ++ [gal]).length (g.skip K1), s)) } := by
          simp only [Universe.addGalaxies, Except.ok.injEq, Prod.mk.injEq] at hrun
          exact hrun.1.symm
        rw [hu]
        exact ⟨K1, galk, by rw [hcount]; rfl, hlt, rfl, hgalk, rfl⟩
      · have hne : rest ≠ [] := by
          rw [hrest]
          simp
        obtain ⟨K0, galk', hK, h1, h2, h3, h4⟩ := hlast hne
        refine ⟨K1 + 1 + K0, galk', by rw [hcount, hK]; omega, ?_, ?_, ?_, ?_⟩
        · rw [← Prng.skip_skip, ← Prng.skip_skip]; exact h1
        · rw [← Prng.skip_skip, ← Prng.skip_skip]; exact h2
        · rw [← Prng.skip_skip, ← Prng.skip_skip]; exact h3
        · rw [← Prng.skip_skip, ← Prng.skip_skip]; exact h4

theorem pickPrng_inRange (last : ℚ) (h0 : 0 ≤ last) (h1 : last < 1) :
    (pickPrng last).InRange := by
  intro n
  simp only [pickPrng]
  split_ifs
  · norm_num
  · exact ⟨h0, h1⟩
  · norm_num

theorem Universe.drawCount_threeGalaxies : Universe.drawCount threeGalaxies = 71 + 1 := by
  simp only [Universe.drawCount, threeGalaxies, forCount]
  norm_num

/-- C14: for a non-empty list of n galaxy parameter sets and draws in [0,1), Universe
construction succeeds and builds n galaxies in input order (galaxy i has the name and
the star count of parameter set i); afterwards startingGalaxy is galaxies[k], where
k in [0,n-1] is the index given by the last draw taken (the one after the last galaxy
was added, draw number `Universe.drawCount params` of the construction), and
startingSystem is the startingSystem of that galaxy. -/
theorem Universe.constructor_startingGalaxy (M : MathEnv) (params : List GalaxyParams)
    (g : Prng) (hg : g.InRange) (hne : params ≠ []) :
    ∃ (u : Universe) (K k : ℕ) (galk : Galaxy),
      Universe.constructor M params g = .ok (u, g.skip (K + 1)) ∧
      K + 1 = Universe.drawCount params ∧
      u.galaxies.length = params.length ∧
      u.galaxies.map Galaxy.name = params.map GalaxyParams.name ∧
      u.galaxies.map (fun gal => gal.starSystems.length) = params.map GalaxyParams.stars ∧
      k = (randomSeededIntInRange 0 ((params.length : ℤ) - 1) (g.skip K)).1.toNat ∧
      k < params.length ∧
      u.startingGalaxy = some k ∧ u.galaxies[k]? = some galk ∧
      u.startingSystem = galk.startingSystem.map (fun s => (k, s)) := by
  obtain ⟨u, hrun, hnames, hstars, hlast⟩ := Universe.addGalaxies_spec M params
    { galaxies := [], startingGalaxy := none, startingSystem := none } g hg
  obtain ⟨K0, galk, hK, h1, h2, h3, h4⟩ := hlast hne
  simp only [List.map_nil, List.nil_append] at hnames hstars
  have hlen : u.galaxies.length = params.length := by
    have := congrArg List.length hnames
    simpa using this
  rw [hlen] at h1 h2 h3 h4
  rw [hK] at hrun
  exact ⟨u, K0, _, galk, hrun, hK.symm, hlen, hnames, hstars, rfl, h1, h2, h3, h4⟩

theorem Universe.constructor_startingGalaxy_witness :
    (∃ (u : Universe) (galk : Galaxy),
      Universe.constructor sampleMath threeGalaxies (pickPrng (3 / 4))
        = .ok (u, (pickPrng (3 / 4)).skip 72) ∧
      u.galaxies.length = 3 ∧
      u.galaxies.map Galaxy.name = ["Amber Reach", "Basalt Veil", "Cinder Loop"] ∧
      u.galaxies.map (fun gal => gal.starSystems.length) = [1, 1, 1] ∧
      u.startingGalaxy = some 2 ∧ u.galaxies[2]? = some galk ∧
      u.startingSystem = galk.startingSystem.map (fun s => (2, s))) ∧
    (∃ (u : Universe) (galk : Galaxy),
      Universe.constructor sampleMath threeGalaxies (pickPrng (1 / 2))
        = .ok (u, (pickPrng (1 / 2)).skip 72) ∧
      u.galaxies.length = 3 ∧
      u.startingGalaxy = some 1 ∧ u.galaxies[1]? = some galk ∧
      u.startingSystem = galk.startingSystem.map (fun s => (1, s))) ∧
    (∃ (u : Universe) (galk : Galaxy),
      Universe.constructor sampleMath threeGalaxies (pickPrng 0)
        = .ok (u, (pickPrng 0).skip 72) ∧
      u.galaxies.length = 3 ∧
      u.startingGalaxy = some 0 ∧ u.galaxies[0]? = some galk ∧
      u.startingSystem = galk.startingSystem.map (fun s => (0, s))) := by
  refine ⟨?_, ?_, ?_⟩
  · obtain ⟨u, K, k, galk, hrun, hK, hlen, hnames, hstars, hk, _, hsg, hgal, hss⟩ :=
      Universe.constructor_startingGalaxy sampleMath threeGalaxies (pickPrng (3 / 4))
        (pickPrng_inRange _ (by norm_num) (by norm_num)) (by simp [threeGalaxies])
    have hK71 : K = 71 := by
      have := hK.trans Universe.drawCount_threeGalaxies
      omega
    subst hK71
    have hk2 : k = 2 := by
      rw [hk]
      simp only [randomSeededIntInRange, Game.prng, pickPrng, Prng.skip, threeGalaxies]
      norm_num
      rfl
    subst hk2
    exact ⟨u, galk, hrun, hlen, hnames, hstars, hsg, hgal, hss⟩
  · obtain ⟨u, K, k, galk, hrun, hK, hlen, _, _, hk, _, hsg, hgal, hss⟩ :=
      Universe.constructor_startingGalaxy sampleMath threeGalaxies (pickPrng (1 / 2))
        (pickPrng_inRange _ (by norm_num) (by norm_num)) (by simp [threeGalaxies])
    have hK71 : K = 71 := by
      have := hK.trans Universe.drawCount_threeGalaxies
      omega
    subst hK71
    have hk1 : k = 1 := by
      rw [hk]
      simp only [randomSeededIntInRange, Game.prng, pickPrng, Prng.skip, threeGalaxies]
      norm_num
    subst hk1
    exact ⟨u, galk, hrun, hlen, hsg, hgal, hss⟩
  · obtain ⟨u, K, k, galk, hrun, hK, hlen, _, _, hk, _, hsg, hgal, hss⟩ :=
      Universe.constructor_startingGalaxy sampleMath threeGalaxies (pickPrng 0)
        (pickPrng_inRange _ (by norm_num) (by norm_num)) (by simp [threeGalaxies])
    have hK71 : K = 71 := by
      have := hK.trans Universe.drawCount_threeGalaxies
      omega
    subst hK71
    have hk0 : k = 0 := by
      rw [hk]
      simp only [randomSeededIntInRange, Game.prng, pickPrng, Prng.skip, threeGalaxies]
      norm_num
    subst hk0
    exact ⟨u, galk, hrun, hlen, hsg, hgal, hss⟩

/-! ## Game: construction is determined by the seed and the parameters -/

theorem Universe.constructor_ok (M : MathEnv) (params : List GalaxyParams) (g : Prng)
    (hg : g.InRange) :
    ∃ (u : Universe) (g' : Prng), Universe.constructor M params g = .ok (u, g') := by
  obtain ⟨u, hrun, _⟩ := Universe.addGalaxies_spec M params
    { galaxies := [], startingGalaxy := none, startingSystem := none } g hg
  exact ⟨u, _, hrun⟩

/-- C15: for every seed whose draws lie in [0,1) and every parameter set, constructing
the game (and with it the Universe) succeeds and gives one and the same result whatever
the state of the generator before the call, in particular when it is constructed a
second time after the first: the universe, hence every sequence of star-system names,
colours, satellite counts and orbital parameters, is identical. -/
theorem Game.constructor_deterministic (seedrandom : String → ℕ → ℚ) (M : MathEnv)
    (params : GameParams)
    (hseed : ∀ n, 0 ≤ seedrandom params.prngKey n ∧ seedrandom params.prngKey n < 1) :
    (∀ prng1 prng2 : Prng, Game.constructor seedrandom M params prng1
      = Game.constructor seedrandom M params prng2) ∧
    ∃ (game : Game) (g' : Prng),
      (∀ prng : Prng, Game.constructor seedrandom M params prng = .ok (game, g')) ∧
      Game.constructor seedrandom M params g' = .ok (game, g') ∧
      Universe.constructor M params.universe_ { draws := seedrandom params.prngKey, pos := 0 }
        = .ok (game.universe_, g') ∧
      game.mouse = Game.MOUSE_OUT_OF_BOUNDS ∧ game.underMouse = none := by
  refine ⟨fun _ _ => rfl, ?_⟩
  have hg : ({ draws := seedrandom params.prngKey, pos := 0 } : Prng).InRange := hseed
  obtain ⟨u, g', hu⟩ := Universe.constructor_ok M params.universe_ _ hg
  have hrun : ∀ prng : Prng, Game.constructor seedrandom M params prng
      = .ok ({ universe_ := u, mouse := Game.MOUSE_OUT_OF_BOUNDS, underMouse := none }, g') := by
    intro prng
    unfold Game.constructor
    dsimp only
    rw [hu]
  exact ⟨_, g', hrun, hrun g', hu, rfl, rfl⟩

theorem Game.constructor_deterministic_witness :
    (∀ prng1 prng2 : Prng,
      Game.constructor (fun _ _ => 1 / 2) sampleMath
          { prngKey := "hello universe"
            universe_ := [{ name := "Cerulean Path", stars := 1, planetStarRatio := 8 }] } prng1
      = Game.constructor (fun _ _ => 1 / 2) sampleMath
          { prngKey := "hello universe"
            universe_ := [{ name := "Cerulean Path", stars := 1, planetStarRatio := 8 }] } prng2) ∧
    ∃ (game : Game) (g' : Prng),
      (∀ prng : Prng,
        Game.constructor (fun _ _ => 1 / 2) sampleMath
          { prngKey := "hello universe"
            universe_ := [{ name := "Cerulean Path", stars := 1, planetStarRatio := 8 }] } prng
        = .ok (game, g')) ∧
      Game.constructor (fun _ _ => 1 / 2) sampleMath
          { prngKey := "hello universe"
            universe_ := [{ name := "Cerulean Path", stars := 1, planetStarRatio := 8 }] } g'
        = .ok (game, g') ∧
      Universe.constructor sampleMath
          [{ name := "Cerulean Path", stars := 1, planetStarRatio := 8 }]
          { draws := fun _ => 1 / 2, pos := 0 }
        = .ok (game.universe_, g') ∧
      game.mouse = Game.MOUSE_OUT_OF_BOUNDS ∧ game.underMouse = none :=
  Game.constructor_deterministic (fun _ _ => 1 / 2) sampleMath
    { prngKey := "hello universe"
      universe_ := [{ name := "Cerulean Path", stars := 1, planetStarRatio := 8 }] }
    (fun _ => by norm_num)

end OrbitTest
